import Mathlib

/-!
# vmath: matrices, vectors and their algebraic contracts

A shallow embedding of `src/dist/vmath.js` (vmath v1.0.0).

* Scalars.  JavaScript numbers are idealised as the elements of a field `α`
  (the rationals to evaluate, the reals for statements over exact real
  arithmetic).  `Math.sqrt`, `Math.sin`, `Math.cos`, `Math.tan`, `Math.acos`
  and `Math.PI` are parameters of the functions that use them, and so are the
  numbers that the calls of `random()` return.  The operand of the bitwise
  operator `&` is an integer, taken to its 32-bit pattern.  The functions
  that only add, subtract, multiply, divide and compare are defined over any
  type with these operations, so that they also run on the two types below.
* Values that are not numbers.  `JSValue α` adds `NaN` and `undefined` to the
  numbers, with the arithmetic, the comparison `<` and the operator `===` of
  JavaScript on them: it is the type of scalars on which a call is evaluated
  when a property it reads was never assigned.
* Rounding.  `IntegerDouble` holds the integers with the sum, difference and
  product of doubles, the exact result rounded to 53 significant bits.
* Buffers.  The Array handed to `forEach` is the list of its elements; a read
  past its end yields `undefined` and a write past its end makes it longer.
* Objects.  Every class of the library is a structure with the same fields.
  A function `f(out, ...)` of the library writes fields of `out` and returns
  `out`; the embedded function takes the content of `out` before the call and
  returns its content after the call.
* Aliasing.  Where the source tests `out === a`, or reads `a` after it has
  started to write `out`, the embedded function has a flag `inPlace`: when it
  is `true` the call is `f(a, a, ...)`, the argument `out` is not used and
  every read of `a` sees the writes already made.  In the other functions
  every field of `a` is read before the field of `out` with the same name is
  written, so the call `f(a, a, ...)` is the embedded `f a a ...`.
* The null sentinel.  A function that may `return null` yields an `Outcome`:
  the content of `out` when the call returns and whether `null` was returned.
* Properties.  Several `mat4` functions address their vector and quaternion
  operands through the properties `m00`, `m01`, ... and not through x, y, z,
  w.  `Vec3Arg` and `QuatArg` hold the values such a function reads;
  `_vec3.asArg` and `Quat.asArg` say what it reads from an object that has
  the fields x, y, z (, w) only, as the vectors of `vec3.new` and the
  quaternions of the documentation have: the value `undefined`.  The
  properties `m00`, ... that a function assigns to such an object are
  optional fields of `_vec3` and `QuatObject`.
-/

/-! ## Data model -/

/-- Class `_vec4`: fields x, y, z, w. -/
@[ext] structure _vec4 (α : Type) where
  x : α
  y : α
  z : α
  w : α
deriving DecidableEq, Repr

/-- Class `_vec2`: fields x, y. -/
@[ext] structure _vec2 (α : Type) where
  x : α
  y : α
deriving DecidableEq, Repr

/-- Class `_vec3`: fields x, y, z.  JavaScript objects are open: when
`mat4.getTranslation` or `mat4.getScaling` receives a `_vec3` as out, its
assignments `out.m00 = ...`, `out.m01 = ...`, `out.m02 = ...` add three
properties to the object and leave x, y, z as they are.  The fields `m00`,
`m01`, `m02` hold these properties; `none` is a property that was never
assigned, as in every object that `vec3.create` and `vec3.new` return. -/
@[ext] structure _vec3 (α : Type) where
  x : α
  y : α
  z : α
  m00 : Option α
  m01 : Option α
  m02 : Option α
deriving DecidableEq, Repr

/-- The quaternion of the specification, which the source does not define: an
object with the fields x, y, z, w, as `mat3.fromQuat` reads it. -/
@[ext] structure Quat (α : Type) where
  x : α
  y : α
  z : α
  w : α
deriving DecidableEq, Repr

/-- A quaternion object handed to `mat4.getRotation` as out.  JavaScript
objects are open: the assignments `out.m00 = ...`, ..., `out.m03 = ...` of
`mat4.getRotation` add four properties to the object and leave its fields x,
y, z, w as they are.  The fields `m00` .. `m03` hold these properties; `none`
is a property that was never assigned. -/
@[ext] structure QuatObject (α : Type) where
  x : α
  y : α
  z : α
  w : α
  m00 : Option α
  m01 : Option α
  m02 : Option α
  m03 : Option α
deriving DecidableEq, Repr

/-- Class `_mat2`: column-major 2x2 matrix, fields m00 .. m03. -/
@[ext] structure _mat2 (α : Type) where
  m00 : α
  m01 : α
  m02 : α
  m03 : α
deriving DecidableEq, Repr

/-- Class `_mat23`: 2D affine matrix, fields m00 .. m05. -/
@[ext] structure _mat23 (α : Type) where
  m00 : α
  m01 : α
  m02 : α
  m03 : α
  m04 : α
  m05 : α
deriving DecidableEq, Repr

/-- Class `_mat3`: column-major 3x3 matrix, fields m00 .. m08.  The
constructor of the source also assigns a tenth field `m09` from a tenth
parameter that no caller passes; no function of the library reads it. -/
@[ext] structure _mat3 (α : Type) where
  m00 : α
  m01 : α
  m02 : α
  m03 : α
  m04 : α
  m05 : α
  m06 : α
  m07 : α
  m08 : α
deriving DecidableEq, Repr

/-- Class `_mat4`: column-major 4x4 matrix, fields m00 .. m15. -/
@[ext] structure _mat4 (α : Type) where
  m00 : α
  m01 : α
  m02 : α
  m03 : α
  m04 : α
  m05 : α
  m06 : α
  m07 : α
  m08 : α
  m09 : α
  m10 : α
  m11 : α
  m12 : α
  m13 : α
  m14 : α
  m15 : α
deriving DecidableEq, Repr

/-- The three values that `mat4.translate`, `mat4.scale`, `mat4.rotate` and the
`mat4` factories read from the object they receive as translation, scale,
origin or axis: the source reads its properties `m00`, `m01`, `m02` (bound to
the locals x, y, z).  An object of the class `_vec3`, which the documentation
of these functions names as the operand, carries `x`, `y`, `z` instead:
`_vec3.asArg` gives what the three reads yield on it. -/
@[ext] structure Vec3Arg (α : Type) where
  m00 : α
  m01 : α
  m02 : α
deriving DecidableEq, Repr

/-- The four values that the `mat4` factories read from the object they
receive as a quaternion: the source reads its properties `m00`, `m01`, `m02`,
`m03` (bound to the locals x, y, z, w).  No quaternion class is part of the
source; `mat3.fromQuat` and the `transformQuat` functions read `x`, `y`, `z`,
`w` instead: `Quat.asArg` gives what the four reads yield on a quaternion with
these fields. -/
@[ext] structure QuatArg (α : Type) where
  m00 : α
  m01 : α
  m02 : α
  m03 : α
deriving DecidableEq, Repr

/-- What a call that may return the null sentinel leaves behind: `out` is the
content of the out object when the call returns, `null` is true when the call
returned `null` and false when it returned the out object. -/
structure Outcome (M : Type) where
  out : M
  null : Bool
deriving DecidableEq, Repr

/-! ## Values of the arithmetic: numbers, NaN and undefined -/

/-- What an expression of the library evaluates to when an operand may be a
property that was never assigned: a number, idealised as an element of `α`,
the number `NaN`, or the value `undefined` that the read of an absent property
yields.  The arithmetic operators convert `undefined` to `NaN`.  The
infinities are left out: the quotient of a number by zero stands as `NaN`, and
no statement of this development divides a number by zero in this model. -/
inductive JSValue (α : Type) where
  | num (a : α)
  | NaN
  | undefined
deriving Repr

namespace JSValue

variable {α : Type}

/-- The operator `+` on numbers: `NaN` unless both operands are numbers other
than `NaN`. -/
def add [Add α] : JSValue α → JSValue α → JSValue α
  | num a, num b => num (a + b)
  | _, _ => NaN

/-- The operator `-`: `NaN` unless both operands are numbers other than `NaN`. -/
def sub [Sub α] : JSValue α → JSValue α → JSValue α
  | num a, num b => num (a - b)
  | _, _ => NaN

/-- The operator `*`: `NaN` unless both operands are numbers other than `NaN`,
also when the other operand is 0. -/
def mul [Mul α] : JSValue α → JSValue α → JSValue α
  | num a, num b => num (a * b)
  | _, _ => NaN

/-- The operator `/`: `NaN` unless both operands are numbers other than `NaN`. -/
def div [Div α] [Zero α] [DecidableEq α] : JSValue α → JSValue α → JSValue α
  | num a, num b => if b = 0 then NaN else num (a / b)
  | _, _ => NaN

/-- The unary operator `-`. -/
def neg [Neg α] : JSValue α → JSValue α
  | num a => num (-a)
  | _ => NaN

/-- The comparison `<`: false unless both operands are numbers other than
`NaN`. -/
def lt [LT α] : JSValue α → JSValue α → Prop
  | num a, num b => a < b
  | _, _ => False

/-- The comparison `===`: on two numbers their equality, false as soon as an
operand is `NaN`, also when both are; `undefined` is equal to itself only. -/
def strictEq [DecidableEq α] : JSValue α → JSValue α → Bool
  | num a, num b => decide (a = b)
  | undefined, undefined => true
  | _, _ => false

instance [Zero α] : Zero (JSValue α) := ⟨num 0⟩

instance [One α] : One (JSValue α) := ⟨num 1⟩

instance {n : ℕ} [n.AtLeastTwo] [OfNat α n] : OfNat (JSValue α) n := ⟨num (OfNat.ofNat n)⟩

instance [Add α] : Add (JSValue α) := ⟨add⟩

instance [Sub α] : Sub (JSValue α) := ⟨sub⟩

instance [Mul α] : Mul (JSValue α) := ⟨mul⟩

instance [Div α] [Zero α] [DecidableEq α] : Div (JSValue α) := ⟨div⟩

instance [Neg α] : Neg (JSValue α) := ⟨neg⟩

instance [LT α] : LT (JSValue α) := ⟨lt⟩

instance [LT α] [DecidableRel (fun a b : α => a < b)] :
    DecidableRel (fun a b : JSValue α => a < b)
  | num a, num b => inferInstanceAs (Decidable (a < b))
  | num _, NaN => isFalse (fun h => h)
  | num _, undefined => isFalse (fun h => h)
  | NaN, _ => isFalse (fun h => h)
  | undefined, _ => isFalse (fun h => h)

instance [DecidableEq α] : BEq (JSValue α) := ⟨strictEq⟩

instance [OfScientific α] : OfScientific (JSValue α) :=
  ⟨fun m s e => num (OfScientific.ofScientific m s e)⟩

end JSValue

/-! ## mat2 -/

namespace mat2

variable {α : Type}

/-- Function `mat2.create`: a new identity matrix. -/
def create [Zero α] [One α] : _mat2 α := ⟨1, 0, 0, 1⟩

/-- Function `mat2.transpose(out, a)`. -/
def transpose (inPlace : Bool) (out a : _mat2 α) : _mat2 α :=
  if inPlace then
    let a1 := a.m01
    let o := a
    let o := { o with m01 := o.m02 }
    let o := { o with m02 := a1 }
    o
  else
    { out with m00 := a.m00, m01 := a.m02, m02 := a.m01, m03 := a.m03 }

variable [Field α] [DecidableEq α]

/-- Function `mat2.invert(out, a)`; `!det` holds exactly when `det` is zero. -/
def invert (out a : _mat2 α) : Outcome (_mat2 α) :=
  let a0 := a.m00
  let a1 := a.m01
  let a2 := a.m02
  let a3 := a.m03
  let det := a0 * a3 - a2 * a1
  if det = 0 then
    ⟨out, true⟩
  else
    let det := 1 / det
    ⟨{ out with m00 := a3 * det, m01 := -a1 * det, m02 := -a2 * det, m03 := a0 * det }, false⟩

/-- Function `mat2.adjoint(out, a)`. -/
def adjoint (out a : _mat2 α) : _mat2 α :=
  let a0 := a.m00
  { out with m00 := a.m03, m01 := -a.m01, m02 := -a.m02, m03 := a0 }

/-- Function `mat2.determinant(a)`. -/
def determinant (a : _mat2 α) : α :=
  a.m00 * a.m03 - a.m02 * a.m01

/-- Function `mat2.multiply(out, a, b)`. -/
def multiply (out a b : _mat2 α) : _mat2 α :=
  let a0 := a.m00
  let a1 := a.m01
  let a2 := a.m02
  let a3 := a.m03
  let b0 := b.m00
  let b1 := b.m01
  let b2 := b.m02
  let b3 := b.m03
  { out with
    m00 := a0 * b0 + a2 * b1
    m01 := a1 * b0 + a3 * b1
    m02 := a0 * b2 + a2 * b3
    m03 := a1 * b2 + a3 * b3 }

/-- Function `mat2.multiplyScalar(out, a, b)`. -/
def multiplyScalar (out a : _mat2 α) (b : α) : _mat2 α :=
  { out with m00 := a.m00 * b, m01 := a.m01 * b, m02 := a.m02 * b, m03 := a.m03 * b }

end mat2

/-! ## mat23 -/

namespace mat23

variable {α : Type}

/-- Function `mat23.create`: a new identity matrix. -/
def create [Zero α] [One α] : _mat23 α := ⟨1, 0, 0, 1, 0, 0⟩

variable [Field α] [DecidableEq α]

/-- Function `mat23.invert(out, a)`. -/
def invert (out a : _mat23 α) : Outcome (_mat23 α) :=
  let aa := a.m00
  let ab := a.m01
  let ac := a.m02
  let ad := a.m03
  let atx := a.m04
  let aty := a.m05
  let det := aa * ad - ab * ac
  if det = 0 then
    ⟨out, true⟩
  else
    let det := 1 / det
    ⟨{ out with
       m00 := ad * det
       m01 := -ab * det
       m02 := -ac * det
       m03 := aa * det
       m04 := (ac * aty - ad * atx) * det
       m05 := (ab * atx - aa * aty) * det }, false⟩

/-- Function `mat23.determinant(a)`. -/
def determinant (a : _mat23 α) : α :=
  a.m00 * a.m03 - a.m01 * a.m02

/-- Function `mat23.multiply(out, a, b)`. -/
def multiply (out a b : _mat23 α) : _mat23 α :=
  let a0 := a.m00
  let a1 := a.m01
  let a2 := a.m02
  let a3 := a.m03
  let a4 := a.m04
  let a5 := a.m05
  let b0 := b.m00
  let b1 := b.m01
  let b2 := b.m02
  let b3 := b.m03
  let b4 := b.m04
  let b5 := b.m05
  { out with
    m00 := a0 * b0 + a2 * b1
    m01 := a1 * b0 + a3 * b1
    m02 := a0 * b2 + a2 * b3
    m03 := a1 * b2 + a3 * b3
    m04 := a0 * b4 + a2 * b5 + a4
    m05 := a1 * b4 + a3 * b5 + a5 }

end mat23

/-! ## mat3 -/

namespace mat3

variable {α : Type}

/-- Function `mat3.create`: a new identity matrix. -/
def create [Zero α] [One α] : _mat3 α := ⟨1, 0, 0, 0, 1, 0, 0, 0, 1⟩

/-- Function `mat3.transpose(out, a)`. -/
def transpose (inPlace : Bool) (out a : _mat3 α) : _mat3 α :=
  if inPlace then
    let a01 := a.m01
    let a02 := a.m02
    let a12 := a.m05
    let o := a
    let o := { o with m01 := o.m03 }
    let o := { o with m02 := o.m06 }
    let o := { o with m03 := a01 }
    let o := { o with m05 := o.m07 }
    let o := { o with m06 := a02 }
    let o := { o with m07 := a12 }
    o
  else
    { out with
      m00 := a.m00
      m01 := a.m03
      m02 := a.m06
      m03 := a.m01
      m04 := a.m04
      m05 := a.m07
      m06 := a.m02
      m07 := a.m05
      m08 := a.m08 }

variable [Field α] [DecidableEq α]

/-- Function `mat3.invert(out, a)`. -/
def invert (out a : _mat3 α) : Outcome (_mat3 α) :=
  let a00 := a.m00
  let a01 := a.m01
  let a02 := a.m02
  let a10 := a.m03
  let a11 := a.m04
  let a12 := a.m05
  let a20 := a.m06
  let a21 := a.m07
  let a22 := a.m08
  let b01 := a22 * a11 - a12 * a21
  let b11 := -a22 * a10 + a12 * a20
  let b21 := a21 * a10 - a11 * a20
  let det := a00 * b01 + a01 * b11 + a02 * b21
  if det = 0 then
    ⟨out, true⟩
  else
    let det := 1 / det
    ⟨{ out with
       m00 := b01 * det
       m01 := (-a22 * a01 + a02 * a21) * det
       m02 := (a12 * a01 - a02 * a11) * det
       m03 := b11 * det
       m04 := (a22 * a00 - a02 * a20) * det
       m05 := (-a12 * a00 + a02 * a10) * det
       m06 := b21 * det
       m07 := (-a21 * a00 + a01 * a20) * det
       m08 := (a11 * a00 - a01 * a10) * det }, false⟩

/-- Function `mat3.adjoint(out, a)`. -/
def adjoint (out a : _mat3 α) : _mat3 α :=
  let a00 := a.m00
  let a01 := a.m01
  let a02 := a.m02
  let a10 := a.m03
  let a11 := a.m04
  let a12 := a.m05
  let a20 := a.m06
  let a21 := a.m07
  let a22 := a.m08
  { out with
    m00 := a11 * a22 - a12 * a21
    m01 := a02 * a21 - a01 * a22
    m02 := a01 * a12 - a02 * a11
    m03 := a12 * a20 - a10 * a22
    m04 := a00 * a22 - a02 * a20
    m05 := a02 * a10 - a00 * a12
    m06 := a10 * a21 - a11 * a20
    m07 := a01 * a20 - a00 * a21
    m08 := a00 * a11 - a01 * a10 }

/-- Function `mat3.determinant(a)`. -/
def determinant (a : _mat3 α) : α :=
  let a00 := a.m00
  let a01 := a.m01
  let a02 := a.m02
  let a10 := a.m03
  let a11 := a.m04
  let a12 := a.m05
  let a20 := a.m06
  let a21 := a.m07
  let a22 := a.m08
  a00 * (a22 * a11 - a12 * a21) + a01 * (-a22 * a10 + a12 * a20) + a02 * (a21 * a10 - a11 * a20)

/-- Function `mat3.multiply(out, a, b)`. -/
def multiply (out a b : _mat3 α) : _mat3 α :=
  let a00 := a.m00
  let a01 := a.m01
  let a02 := a.m02
  let a10 := a.m03
  let a11 := a.m04
  let a12 := a.m05
  let a20 := a.m06
  let a21 := a.m07
  let a22 := a.m08
  let b00 := b.m00
  let b01 := b.m01
  let b02 := b.m02
  let b10 := b.m03
  let b11 := b.m04
  let b12 := b.m05
  let b20 := b.m06
  let b21 := b.m07
  let b22 := b.m08
  { out with
    m00 := b00 * a00 + b01 * a10 + b02 * a20
    m01 := b00 * a01 + b01 * a11 + b02 * a21
    m02 := b00 * a02 + b01 * a12 + b02 * a22
    m03 := b10 * a00 + b11 * a10 + b12 * a20
    m04 := b10 * a01 + b11 * a11 + b12 * a21
    m05 := b10 * a02 + b11 * a12 + b12 * a22
    m06 := b20 * a00 + b21 * a10 + b22 * a20
    m07 := b20 * a01 + b21 * a11 + b22 * a21
    m08 := b20 * a02 + b21 * a12 + b22 * a22 }

/-- Function `mat3.multiplyScalar(out, a, b)`. -/
def multiplyScalar (out a : _mat3 α) (b : α) : _mat3 α :=
  { out with
    m00 := a.m00 * b
    m01 := a.m01 * b
    m02 := a.m02 * b
    m03 := a.m03 * b
    m04 := a.m04 * b
    m05 := a.m05 * b
    m06 := a.m06 * b
    m07 := a.m07 * b
    m08 := a.m08 * b }

end mat3

/-! ## vec4 -/

namespace vec4

variable {α : Type} [Field α]

/-- Function `vec4.transformMat4(out, a, m)`. -/
def transformMat4 (out a : _vec4 α) (m : _mat4 α) : _vec4 α :=
  let x := a.x
  let y := a.y
  let z := a.z
  let w := a.w
  { out with
    x := m.m00 * x + m.m04 * y + m.m08 * z + m.m12 * w
    y := m.m01 * x + m.m05 * y + m.m09 * z + m.m13 * w
    z := m.m02 * x + m.m06 * y + m.m10 * z + m.m14 * w
    w := m.m03 * x + m.m07 * y + m.m11 * z + m.m15 * w }

end vec4

/-! ## mat4 -/

namespace mat4

variable {α : Type}

/-- Function `mat4.create`: a new identity matrix. -/
def create [Zero α] [One α] : _mat4 α :=
  ⟨1, 0, 0, 0,
   0, 1, 0, 0,
   0, 0, 1, 0,
   0, 0, 0, 1⟩

/-- Function `mat4.identity(out)`. -/
def identity [Zero α] [One α] (out : _mat4 α) : _mat4 α :=
  { out with
    m00 := 1
    m01 := 0
    m02 := 0
    m03 := 0
    m04 := 0
    m05 := 1
    m06 := 0
    m07 := 0
    m08 := 0
    m09 := 0
    m10 := 1
    m11 := 0
    m12 := 0
    m13 := 0
    m14 := 0
    m15 := 1 }

/-- Function `mat4.transpose(out, a)`. -/
def transpose (inPlace : Bool) (out a : _mat4 α) : _mat4 α :=
  if inPlace then
    let a01 := a.m01
    let a02 := a.m02
    let a03 := a.m03
    let a12 := a.m06
    let a13 := a.m07
    let a23 := a.m11
    let o := a
    let o := { o with m01 := o.m04 }
    let o := { o with m02 := o.m08 }
    let o := { o with m03 := o.m12 }
    let o := { o with m04 := a01 }
    let o := { o with m06 := o.m09 }
    let o := { o with m07 := o.m13 }
    let o := { o with m08 := a02 }
    let o := { o with m09 := a12 }
    let o := { o with m11 := o.m14 }
    let o := { o with m12 := a03 }
    let o := { o with m13 := a13 }
    let o := { o with m14 := a23 }
    o
  else
    { out with
      m00 := a.m00
      m01 := a.m04
      m02 := a.m08
      m03 := a.m12
      m04 := a.m01
      m05 := a.m05
      m06 := a.m09
      m07 := a.m13
      m08 := a.m02
      m09 := a.m06
      m10 := a.m10
      m11 := a.m14
      m12 := a.m03
      m13 := a.m07
      m14 := a.m11
      m15 := a.m15 }

variable [Field α] [DecidableEq α]

/-- Function `mat4.invert(out, a)`; `!det` holds exactly when `det` is zero. -/
def invert (out a : _mat4 α) : Outcome (_mat4 α) :=
  let a00 := a.m00
  let a01 := a.m01
  let a02 := a.m02
  let a03 := a.m03
  let a10 := a.m04
  let a11 := a.m05
  let a12 := a.m06
  let a13 := a.m07
  let a20 := a.m08
  let a21 := a.m09
  let a22 := a.m10
  let a23 := a.m11
  let a30 := a.m12
  let a31 := a.m13
  let a32 := a.m14
  let a33 := a.m15
  let b00 := a00 * a11 - a01 * a10
  let b01 := a00 * a12 - a02 * a10
  let b02 := a00 * a13 - a03 * a10
  let b03 := a01 * a12 - a02 * a11
  let b04 := a01 * a13 - a03 * a11
  let b05 := a02 * a13 - a03 * a12
  let b06 := a20 * a31 - a21 * a30
  let b07 := a20 * a32 - a22 * a30
  let b08 := a20 * a33 - a23 * a30
  let b09 := a21 * a32 - a22 * a31
  let b10 := a21 * a33 - a23 * a31
  let b11 := a22 * a33 - a23 * a32
  let det := b00 * b11 - b01 * b10 + b02 * b09 + b03 * b08 - b04 * b07 + b05 * b06
  if det = 0 then
    ⟨out, true⟩
  else
    let det := 1 / det
    ⟨{ out with
       m00 := (a11 * b11 - a12 * b10 + a13 * b09) * det
       m01 := (a02 * b10 - a01 * b11 - a03 * b09) * det
       m02 := (a31 * b05 - a32 * b04 + a33 * b03) * det
       m03 := (a22 * b04 - a21 * b05 - a23 * b03) * det
       m04 := (a12 * b08 - a10 * b11 - a13 * b07) * det
       m05 := (a00 * b11 - a02 * b08 + a03 * b07) * det
       m06 := (a32 * b02 - a30 * b05 - a33 * b01) * det
       m07 := (a20 * b05 - a22 * b02 + a23 * b01) * det
       m08 := (a10 * b10 - a11 * b08 + a13 * b06) * det
       m09 := (a01 * b08 - a00 * b10 - a03 * b06) * det
       m10 := (a30 * b04 - a31 * b02 + a33 * b00) * det
       m11 := (a21 * b02 - a20 * b04 - a23 * b00) * det
       m12 := (a11 * b07 - a10 * b09 - a12 * b06) * det
       m13 := (a00 * b09 - a01 * b07 + a02 * b06) * det
       m14 := (a31 * b01 - a30 * b03 - a32 * b00) * det
       m15 := (a20 * b03 - a21 * b01 + a22 * b00) * det }, false⟩

/-- Function `mat4.adjoint(out, a)`. -/
def adjoint (out a : _mat4 α) : _mat4 α :=
  let a00 := a.m00
  let a01 := a.m01
  let a02 := a.m02
  let a03 := a.m03
  let a10 := a.m04
  let a11 := a.m05
  let a12 := a.m06
  let a13 := a.m07
  let a20 := a.m08
  let a21 := a.m09
  let a22 := a.m10
  let a23 := a.m11
  let a30 := a.m12
  let a31 := a.m13
  let a32 := a.m14
  let a33 := a.m15
  { out with
    m00 := (a11 * (a22 * a33 - a23 * a32) - a21 * (a12 * a33 - a13 * a32) + a31 * (a12 * a23 - a13 * a22))
    m01 := -(a01 * (a22 * a33 - a23 * a32) - a21 * (a02 * a33 - a03 * a32) + a31 * (a02 * a23 - a03 * a22))
    m02 := (a01 * (a12 * a33 - a13 * a32) - a11 * (a02 * a33 - a03 * a32) + a31 * (a02 * a13 - a03 * a12))
    m03 := -(a01 * (a12 * a23 - a13 * a22) - a11 * (a02 * a23 - a03 * a22) + a21 * (a02 * a13 - a03 * a12))
    m04 := -(a10 * (a22 * a33 - a23 * a32) - a20 * (a12 * a33 - a13 * a32) + a30 * (a12 * a23 - a13 * a22))
    m05 := (a00 * (a22 * a33 - a23 * a32) - a20 * (a02 * a33 - a03 * a32) + a30 * (a02 * a23 - a03 * a22))
    m06 := -(a00 * (a12 * a33 - a13 * a32) - a10 * (a02 * a33 - a03 * a32) + a30 * (a02 * a13 - a03 * a12))
    m07 := (a00 * (a12 * a23 - a13 * a22) - a10 * (a02 * a23 - a03 * a22) + a20 * (a02 * a13 - a03 * a12))
    m08 := (a10 * (a21 * a33 - a23 * a31) - a20 * (a11 * a33 - a13 * a31) + a30 * (a11 * a23 - a13 * a21))
    m09 := -(a00 * (a21 * a33 - a23 * a31) - a20 * (a01 * a33 - a03 * a31) + a30 * (a01 * a23 - a03 * a21))
    m10 := (a00 * (a11 * a33 - a13 * a31) - a10 * (a01 * a33 - a03 * a31) + a30 * (a01 * a13 - a03 * a11))
    m11 := -(a00 * (a11 * a23 - a13 * a21) - a10 * (a01 * a23 - a03 * a21) + a20 * (a01 * a13 - a03 * a11))
    m12 := -(a10 * (a21 * a32 - a22 * a31) - a20 * (a11 * a32 - a12 * a31) + a30 * (a11 * a22 - a12 * a21))
    m13 := (a00 * (a21 * a32 - a22 * a31) - a20 * (a01 * a32 - a02 * a31) + a30 * (a01 * a22 - a02 * a21))
    m14 := -(a00 * (a11 * a32 - a12 * a31) - a10 * (a01 * a32 - a02 * a31) + a30 * (a01 * a12 - a02 * a11))
    m15 := (a00 * (a11 * a22 - a12 * a21) - a10 * (a01 * a22 - a02 * a21) + a20 * (a01 * a12 - a02 * a11)) }

/-- Function `mat4.determinant(a)`. -/
def determinant (a : _mat4 α) : α :=
  let a00 := a.m00
  let a01 := a.m01
  let a02 := a.m02
  let a03 := a.m03
  let a10 := a.m04
  let a11 := a.m05
  let a12 := a.m06
  let a13 := a.m07
  let a20 := a.m08
  let a21 := a.m09
  let a22 := a.m10
  let a23 := a.m11
  let a30 := a.m12
  let a31 := a.m13
  let a32 := a.m14
  let a33 := a.m15
  let b00 := a00 * a11 - a01 * a10
  let b01 := a00 * a12 - a02 * a10
  let b02 := a00 * a13 - a03 * a10
  let b03 := a01 * a12 - a02 * a11
  let b04 := a01 * a13 - a03 * a11
  let b05 := a02 * a13 - a03 * a12
  let b06 := a20 * a31 - a21 * a30
  let b07 := a20 * a32 - a22 * a30
  let b08 := a20 * a33 - a23 * a30
  let b09 := a21 * a32 - a22 * a31
  let b10 := a21 * a33 - a23 * a31
  let b11 := a22 * a33 - a23 * a32
  b00 * b11 - b01 * b10 + b02 * b09 + b03 * b08 - b04 * b07 + b05 * b06

end mat4

namespace mat4

variable {α : Type} [Zero α] [One α] [Add α] [Sub α] [Mul α]

/-- Function `mat4.multiply(out, a, b)`: the rows of `a` are cached first; each group
of four fields of `b` is read just before the same four fields of `out` are
written. -/
def multiply (out a b : _mat4 α) : _mat4 α :=
  let a00 := a.m00
  let a01 := a.m01
  let a02 := a.m02
  let a03 := a.m03
  let a10 := a.m04
  let a11 := a.m05
  let a12 := a.m06
  let a13 := a.m07
  let a20 := a.m08
  let a21 := a.m09
  let a22 := a.m10
  let a23 := a.m11
  let a30 := a.m12
  let a31 := a.m13
  let a32 := a.m14
  let a33 := a.m15
  let o := out
  let b0 := b.m00
  let b1 := b.m01
  let b2 := b.m02
  let b3 := b.m03
  let o := { o with
    m00 := b0 * a00 + b1 * a10 + b2 * a20 + b3 * a30
    m01 := b0 * a01 + b1 * a11 + b2 * a21 + b3 * a31
    m02 := b0 * a02 + b1 * a12 + b2 * a22 + b3 * a32
    m03 := b0 * a03 + b1 * a13 + b2 * a23 + b3 * a33 }
  let b0 := b.m04
  let b1 := b.m05
  let b2 := b.m06
  let b3 := b.m07
  let o := { o with
    m04 := b0 * a00 + b1 * a10 + b2 * a20 + b3 * a30
    m05 := b0 * a01 + b1 * a11 + b2 * a21 + b3 * a31
    m06 := b0 * a02 + b1 * a12 + b2 * a22 + b3 * a32
    m07 := b0 * a03 + b1 * a13 + b2 * a23 + b3 * a33 }
  let b0 := b.m08
  let b1 := b.m09
  let b2 := b.m10
  let b3 := b.m11
  let o := { o with
    m08 := b0 * a00 + b1 * a10 + b2 * a20 + b3 * a30
    m09 := b0 * a01 + b1 * a11 + b2 * a21 + b3 * a31
    m10 := b0 * a02 + b1 * a12 + b2 * a22 + b3 * a32
    m11 := b0 * a03 + b1 * a13 + b2 * a23 + b3 * a33 }
  let b0 := b.m12
  let b1 := b.m13
  let b2 := b.m14
  let b3 := b.m15
  let o := { o with
    m12 := b0 * a00 + b1 * a10 + b2 * a20 + b3 * a30
    m13 := b0 * a01 + b1 * a11 + b2 * a21 + b3 * a31
    m14 := b0 * a02 + b1 * a12 + b2 * a22 + b3 * a32
    m15 := b0 * a03 + b1 * a13 + b2 * a23 + b3 * a33 }
  o

end mat4

namespace mat4

variable {α : Type} [Field α] [DecidableEq α]

/-- Function `mat4.multiplyScalar(out, a, b)`. -/
def multiplyScalar (out a : _mat4 α) (b : α) : _mat4 α :=
  { out with
    m00 := a.m00 * b
    m01 := a.m01 * b
    m02 := a.m02 * b
    m03 := a.m03 * b
    m04 := a.m04 * b
    m05 := a.m05 * b
    m06 := a.m06 * b
    m07 := a.m07 * b
    m08 := a.m08 * b
    m09 := a.m09 * b
    m10 := a.m10 * b
    m11 := a.m11 * b
    m12 := a.m12 * b
    m13 := a.m13 * b
    m14 := a.m14 * b
    m15 := a.m15 * b }

end mat4

namespace mat4

variable {α : Type} [Zero α] [One α] [Add α] [Sub α] [Mul α]

/-- Function `mat4.translate(out, a, v)`. -/
def translate (inPlace : Bool) (out a : _mat4 α) (v : Vec3Arg α) : _mat4 α :=
  let x := v.m00
  let y := v.m01
  let z := v.m02
  if inPlace then
    let o := a
    let o := { o with m12 := o.m00 * x + o.m04 * y + o.m08 * z + o.m12 }
    let o := { o with m13 := o.m01 * x + o.m05 * y + o.m09 * z + o.m13 }
    let o := { o with m14 := o.m02 * x + o.m06 * y + o.m10 * z + o.m14 }
    let o := { o with m15 := o.m03 * x + o.m07 * y + o.m11 * z + o.m15 }
    o
  else
    let a00 := a.m00
    let a01 := a.m01
    let a02 := a.m02
    let a03 := a.m03
    let a10 := a.m04
    let a11 := a.m05
    let a12 := a.m06
    let a13 := a.m07
    let a20 := a.m08
    let a21 := a.m09
    let a22 := a.m10
    let a23 := a.m11
    { out with
      m00 := a00
      m01 := a01
      m02 := a02
      m03 := a03
      m04 := a10
      m05 := a11
      m06 := a12
      m07 := a13
      m08 := a20
      m09 := a21
      m10 := a22
      m11 := a23
      m12 := a00 * x + a10 * y + a20 * z + a.m12
      m13 := a01 * x + a11 * y + a21 * z + a.m13
      m14 := a02 * x + a12 * y + a22 * z + a.m14
      m15 := a03 * x + a13 * y + a23 * z + a.m15 }

/-- Function `mat4.scale(out, a, v)`. -/
def scale (out a : _mat4 α) (v : Vec3Arg α) : _mat4 α :=
  let x := v.m00
  let y := v.m01
  let z := v.m02
  { out with
    m00 := a.m00 * x
    m01 := a.m01 * x
    m02 := a.m02 * x
    m03 := a.m03 * x
    m04 := a.m04 * y
    m05 := a.m05 * y
    m06 := a.m06 * y
    m07 := a.m07 * y
    m08 := a.m08 * z
    m09 := a.m09 * z
    m10 := a.m10 * z
    m11 := a.m11 * z
    m12 := a.m12
    m13 := a.m13
    m14 := a.m14
    m15 := a.m15 }

/-- Function `mat4.fromRotationTranslationScale(out, q, v, s)`. -/
def fromRotationTranslationScale (out : _mat4 α) (q : QuatArg α) (v s : Vec3Arg α) : _mat4 α :=
  let x := q.m00
  let y := q.m01
  let z := q.m02
  let w := q.m03
  let x2 := x + x
  let y2 := y + y
  let z2 := z + z
  let xx := x * x2
  let xy := x * y2
  let xz := x * z2
  let yy := y * y2
  let yz := y * z2
  let zz := z * z2
  let wx := w * x2
  let wy := w * y2
  let wz := w * z2
  let sx := s.m00
  let sy := s.m01
  let sz := s.m02
  { out with
    m00 := (1 - (yy + zz)) * sx
    m01 := (xy + wz) * sx
    m02 := (xz - wy) * sx
    m03 := 0
    m04 := (xy - wz) * sy
    m05 := (1 - (xx + zz)) * sy
    m06 := (yz + wx) * sy
    m07 := 0
    m08 := (xz + wy) * sz
    m09 := (yz - wx) * sz
    m10 := (1 - (xx + yy)) * sz
    m11 := 0
    m12 := v.m00
    m13 := v.m01
    m14 := v.m02
    m15 := 1 }

/-- Function `mat4.fromRotationTranslationScaleOrigin(out, q, v, s, o)`: the last three
assignments of the translation column read fields of `out` written before. -/
def fromRotationTranslationScaleOrigin (out : _mat4 α) (q : QuatArg α) (v s o : Vec3Arg α) :
    _mat4 α :=
  let x := q.m00
  let y := q.m01
  let z := q.m02
  let w := q.m03
  let x2 := x + x
  let y2 := y + y
  let z2 := z + z
  let xx := x * x2
  let xy := x * y2
  let xz := x * z2
  let yy := y * y2
  let yz := y * z2
  let zz := z * z2
  let wx := w * x2
  let wy := w * y2
  let wz := w * z2
  let sx := s.m00
  let sy := s.m01
  let sz := s.m02
  let ox := o.m00
  let oy := o.m01
  let oz := o.m02
  let out := { out with
    m00 := (1 - (yy + zz)) * sx
    m01 := (xy + wz) * sx
    m02 := (xz - wy) * sx
    m03 := 0
    m04 := (xy - wz) * sy
    m05 := (1 - (xx + zz)) * sy
    m06 := (yz + wx) * sy
    m07 := 0
    m08 := (xz + wy) * sz
    m09 := (yz - wx) * sz
    m10 := (1 - (xx + yy)) * sz
    m11 := 0 }
  let out := { out with m12 := v.m00 + ox - (out.m00 * ox + out.m04 * oy + out.m08 * oz) }
  let out := { out with m13 := v.m01 + oy - (out.m01 * ox + out.m05 * oy + out.m09 * oz) }
  let out := { out with m14 := v.m02 + oz - (out.m02 * ox + out.m06 * oy + out.m10 * oz) }
  let out := { out with m15 := 1 }
  out

/-- Function `mat4.fromQuat(out, q)`. -/
def fromQuat (out : _mat4 α) (q : QuatArg α) : _mat4 α :=
  let x := q.m00
  let y := q.m01
  let z := q.m02
  let w := q.m03
  let x2 := x + x
  let y2 := y + y
  let z2 := z + z
  let xx := x * x2
  let yx := y * x2
  let yy := y * y2
  let zx := z * x2
  let zy := z * y2
  let zz := z * z2
  let wx := w * x2
  let wy := w * y2
  let wz := w * z2
  { out with
    m00 := 1 - yy - zz
    m01 := yx + wz
    m02 := zx - wy
    m03 := 0
    m04 := yx - wz
    m05 := 1 - xx - zz
    m06 := zy + wx
    m07 := 0
    m08 := zx + wy
    m09 := zy - wx
    m10 := 1 - xx - yy
    m11 := 0
    m12 := 0
    m13 := 0
    m14 := 0
    m15 := 1 }

end mat4

namespace mat4

variable {α : Type} [Zero α] [One α] [OfNat α 2] [Add α] [Sub α] [Mul α] [Div α] [LT α]
  [DecidableRel (fun a b : α => a < b)] [OfScientific α]

/-- Function `mat4.getRotation(out, mat)`, with `Math.sqrt` as the parameter `sqrt`:
assigns the properties `m00` .. `m03` of out.  The test of the second branch
joins its two comparisons with the bitwise `&`, which is truthy exactly when
both comparisons are true. -/
def getRotation (sqrt : α → α) (out : QuatObject α) (mat : _mat4 α) : QuatObject α :=
  let trace := mat.m00 + mat.m05 + mat.m10
  if trace > 0 then
    let S := sqrt (trace + 1) * 2
    { out with
      m03 := some (0.25 * S)
      m00 := some ((mat.m06 - mat.m09) / S)
      m01 := some ((mat.m08 - mat.m02) / S)
      m02 := some ((mat.m01 - mat.m04) / S) }
  else if mat.m00 > mat.m05 ∧ mat.m00 > mat.m10 then
    let S := sqrt (1 + mat.m00 - mat.m05 - mat.m10) * 2
    { out with
      m03 := some ((mat.m06 - mat.m09) / S)
      m00 := some (0.25 * S)
      m01 := some ((mat.m01 + mat.m04) / S)
      m02 := some ((mat.m08 + mat.m02) / S) }
  else if mat.m05 > mat.m10 then
    let S := sqrt (1 + mat.m05 - mat.m00 - mat.m10) * 2
    { out with
      m03 := some ((mat.m08 - mat.m02) / S)
      m00 := some ((mat.m01 + mat.m04) / S)
      m01 := some (0.25 * S)
      m02 := some ((mat.m06 + mat.m09) / S) }
  else
    let S := sqrt (1 + mat.m10 - mat.m00 - mat.m05) * 2
    { out with
      m03 := some ((mat.m01 - mat.m04) / S)
      m00 := some ((mat.m08 + mat.m02) / S)
      m01 := some ((mat.m06 + mat.m09) / S)
      m02 := some (0.25 * S) }

end mat4

/-! ## Scalar utilities -/

/-- Constant `EPSILON = 0.000001`. -/
def EPSILON {α : Type} [OfScientific α] : α := 0.000001

namespace mat4

variable {α : Type} [LinearOrderedField α]

/-- Function `mat4.equals(a, b)`: every element within the mixed absolute and relative
tolerance; `Math.max` of three arguments is written with two `max`. -/
def equals (a b : _mat4 α) : Bool :=
  let a0 := a.m00
  let a1 := a.m01
  let a2 := a.m02
  let a3 := a.m03
  let a4 := a.m04
  let a5 := a.m05
  let a6 := a.m06
  let a7 := a.m07
  let a8 := a.m08
  let a9 := a.m09
  let a10 := a.m10
  let a11 := a.m11
  let a12 := a.m12
  let a13 := a.m13
  let a14 := a.m14
  let a15 := a.m15
  let b0 := b.m00
  let b1 := b.m01
  let b2 := b.m02
  let b3 := b.m03
  let b4 := b.m04
  let b5 := b.m05
  let b6 := b.m06
  let b7 := b.m07
  let b8 := b.m08
  let b9 := b.m09
  let b10 := b.m10
  let b11 := b.m11
  let b12 := b.m12
  let b13 := b.m13
  let b14 := b.m14
  let b15 := b.m15
  decide (|a0 - b0| ≤ EPSILON * max (max 1 |a0|) |b0|) &&
  decide (|a1 - b1| ≤ EPSILON * max (max 1 |a1|) |b1|) &&
  decide (|a2 - b2| ≤ EPSILON * max (max 1 |a2|) |b2|) &&
  decide (|a3 - b3| ≤ EPSILON * max (max 1 |a3|) |b3|) &&
  decide (|a4 - b4| ≤ EPSILON * max (max 1 |a4|) |b4|) &&
  decide (|a5 - b5| ≤ EPSILON * max (max 1 |a5|) |b5|) &&
  decide (|a6 - b6| ≤ EPSILON * max (max 1 |a6|) |b6|) &&
  decide (|a7 - b7| ≤ EPSILON * max (max 1 |a7|) |b7|) &&
  decide (|a8 - b8| ≤ EPSILON * max (max 1 |a8|) |b8|) &&
  decide (|a9 - b9| ≤ EPSILON * max (max 1 |a9|) |b9|) &&
  decide (|a10 - b10| ≤ EPSILON * max (max 1 |a10|) |b10|) &&
  decide (|a11 - b11| ≤ EPSILON * max (max 1 |a11|) |b11|) &&
  decide (|a12 - b12| ≤ EPSILON * max (max 1 |a12|) |b12|) &&
  decide (|a13 - b13| ≤ EPSILON * max (max 1 |a13|) |b13|) &&
  decide (|a14 - b14| ≤ EPSILON * max (max 1 |a14|) |b14|) &&
  decide (|a15 - b15| ≤ EPSILON * max (max 1 |a15|) |b15|)

end mat4

/-! ## Objects handed to the functions that read `m00`, `m01`, ... -/

/-- Reading a property of an object: the value assigned to it, or `undefined`
when it was never assigned.  `undef` is what the read yields then:
`JSValue.undefined` where the scalars are the values of `JSValue`, and an
arbitrary scalar in the statements that hold whatever the arithmetic makes of
`undefined`. -/
def readProp {α : Type} (undef : α) (p : Option α) : α :=
  p.getD undef

/-- What `mat4.translate`, `mat4.scale`, `mat4.rotate` and the `mat4` factories
read when the vector they are handed is a `_vec3` object. -/
def _vec3.asArg {α : Type} (undef : α) (v : _vec3 α) : Vec3Arg α :=
  ⟨readProp undef v.m00, readProp undef v.m01, readProp undef v.m02⟩

/-- What the `mat4` factories read when the quaternion they are handed has the
fields x, y, z, w and nothing else: none of `m00`, `m01`, `m02`, `m03` was
ever assigned. -/
def Quat.asArg {α : Type} (undef : α) (_q : Quat α) : QuatArg α :=
  ⟨readProp undef none, readProp undef none, readProp undef none, readProp undef none⟩

/-! ## vec2, vec3, vec4: normalize -/

namespace vec2

variable {α : Type} [LinearOrderedField α]

/-- Function `vec2.normalize(out, a)`, with `Math.sqrt` as the parameter `sqrt`. -/
def normalize (sqrt : α → α) (out a : _vec2 α) : _vec2 α :=
  let x := a.x
  let y := a.y
  let len := x * x + y * y
  if len > 0 then
    let len := 1 / sqrt len
    { out with x := a.x * len, y := a.y * len }
  else
    out

end vec2

namespace vec3

variable {α : Type}

/-- Function `vec3.create()`: a new zero vector. -/
def create [Zero α] : _vec3 α := ⟨0, 0, 0, none, none, none⟩

/-- Function `vec3.new(x, y, z)`. -/
def new (x y z : α) : _vec3 α := ⟨x, y, z, none, none, none⟩

variable [LinearOrderedField α]

/-- Function `vec3.normalize(out, a)`, with `Math.sqrt` as the parameter `sqrt`. -/
def normalize (sqrt : α → α) (out a : _vec3 α) : _vec3 α :=
  let x := a.x
  let y := a.y
  let z := a.z
  let len := x * x + y * y + z * z
  if len > 0 then
    let len := 1 / sqrt len
    { out with x := a.x * len, y := a.y * len, z := a.z * len }
  else
    out

end vec3

namespace vec4

variable {α : Type} [LinearOrderedField α]

/-- Function `vec4.normalize(out, a)`, with `Math.sqrt` as the parameter `sqrt`. -/
def normalize (sqrt : α → α) (out a : _vec4 α) : _vec4 α :=
  let x := a.x
  let y := a.y
  let z := a.z
  let w := a.w
  let len := x * x + y * y + z * z + w * w
  if len > 0 then
    let len := 1 / sqrt len
    { out with x := x * len, y := y * len, z := z * len, w := w * len }
  else
    out

end vec4

/-! ## mat3: conversions from mat4 and from quaternions -/

namespace mat3

variable {α : Type}

/-- Function `mat3.fromMat4(out, a)`: the upper-left 3x3 block. -/
def fromMat4 (out : _mat3 α) (a : _mat4 α) : _mat3 α :=
  { out with
    m00 := a.m00
    m01 := a.m01
    m02 := a.m02
    m03 := a.m04
    m04 := a.m05
    m05 := a.m06
    m06 := a.m08
    m07 := a.m09
    m08 := a.m10 }

variable [Field α] [DecidableEq α]

/-- Function `mat3.fromQuat(out, q)`: reads the fields x, y, z, w. -/
def fromQuat (out : _mat3 α) (q : Quat α) : _mat3 α :=
  let x := q.x
  let y := q.y
  let z := q.z
  let w := q.w
  let x2 := x + x
  let y2 := y + y
  let z2 := z + z
  let xx := x * x2
  let yx := y * x2
  let yy := y * y2
  let zx := z * x2
  let zy := z * y2
  let zz := z * z2
  let wx := w * x2
  let wy := w * y2
  let wz := w * z2
  { out with
    m00 := 1 - yy - zz
    m03 := yx - wz
    m06 := zx + wy
    m01 := yx + wz
    m04 := 1 - xx - zz
    m07 := zy - wx
    m02 := zx - wy
    m05 := zy + wx
    m08 := 1 - xx - yy }

/-- Function `mat3.normalFromMat4(out, a)`; `!det` holds exactly when `det` is
zero. -/
def normalFromMat4 (out : _mat3 α) (a : _mat4 α) : Outcome (_mat3 α) :=
  let a00 := a.m00
  let a01 := a.m01
  let a02 := a.m02
  let a03 := a.m03
  let a10 := a.m04
  let a11 := a.m05
  let a12 := a.m06
  let a13 := a.m07
  let a20 := a.m08
  let a21 := a.m09
  let a22 := a.m10
  let a23 := a.m11
  let a30 := a.m12
  let a31 := a.m13
  let a32 := a.m14
  let a33 := a.m15
  let b00 := a00 * a11 - a01 * a10
  let b01 := a00 * a12 - a02 * a10
  let b02 := a00 * a13 - a03 * a10
  let b03 := a01 * a12 - a02 * a11
  let b04 := a01 * a13 - a03 * a11
  let b05 := a02 * a13 - a03 * a12
  let b06 := a20 * a31 - a21 * a30
  let b07 := a20 * a32 - a22 * a30
  let b08 := a20 * a33 - a23 * a30
  let b09 := a21 * a32 - a22 * a31
  let b10 := a21 * a33 - a23 * a31
  let b11 := a22 * a33 - a23 * a32
  let det := b00 * b11 - b01 * b10 + b02 * b09 + b03 * b08 - b04 * b07 + b05 * b06
  if det = 0 then
    ⟨out, true⟩
  else
    let det := 1 / det
    ⟨{ out with
       m00 := (a11 * b11 - a12 * b10 + a13 * b09) * det
       m01 := (a12 * b08 - a10 * b11 - a13 * b07) * det
       m02 := (a10 * b10 - a11 * b08 + a13 * b06) * det
       m03 := (a02 * b10 - a01 * b11 - a03 * b09) * det
       m04 := (a00 * b11 - a02 * b08 + a03 * b07) * det
       m05 := (a01 * b08 - a00 * b10 - a03 * b06) * det
       m06 := (a31 * b05 - a32 * b04 + a33 * b03) * det
       m07 := (a32 * b02 - a30 * b05 - a33 * b01) * det
       m08 := (a30 * b04 - a31 * b02 + a33 * b00) * det }, false⟩

end mat3

/-! ## mat4: rotation about an axis, decomposition, lookAt -/

namespace mat4

variable {α : Type} [Zero α] [One α] [Add α] [Sub α] [Mul α] [Div α] [LT α]
  [DecidableRel (fun a b : α => a < b)] [OfScientific α]

/-- Function `mat4.rotate(out, a, rad, axis)`, with `Math.sin`, `Math.cos`,
`Math.sqrt` and `Math.abs` as parameters.  Every field of `a` that is read is
cached before the first write; the test `a !== out` is the flag `inPlace`. -/
def rotate (sin cos sqrt abs : α → α) (inPlace : Bool) (out a : _mat4 α) (rad : α)
    (axis : Vec3Arg α) : Outcome (_mat4 α) :=
  let o := if inPlace then a else out
  let x := axis.m00
  let y := axis.m01
  let z := axis.m02
  let len := sqrt (x * x + y * y + z * z)
  if abs len < EPSILON then
    ⟨o, true⟩
  else
    let len := 1 / len
    let x := x * len
    let y := y * len
    let z := z * len
    let s := sin rad
    let c := cos rad
    let t := 1 - c
    let a00 := a.m00
    let a01 := a.m01
    let a02 := a.m02
    let a03 := a.m03
    let a10 := a.m04
    let a11 := a.m05
    let a12 := a.m06
    let a13 := a.m07
    let a20 := a.m08
    let a21 := a.m09
    let a22 := a.m10
    let a23 := a.m11
    let b00 := x * x * t + c
    let b01 := y * x * t + z * s
    let b02 := z * x * t - y * s
    let b10 := x * y * t - z * s
    let b11 := y * y * t + c
    let b12 := z * y * t + x * s
    let b20 := x * z * t + y * s
    let b21 := y * z * t - x * s
    let b22 := z * z * t + c
    let o := { o with
      m00 := a00 * b00 + a10 * b01 + a20 * b02
      m01 := a01 * b00 + a11 * b01 + a21 * b02
      m02 := a02 * b00 + a12 * b01 + a22 * b02
      m03 := a03 * b00 + a13 * b01 + a23 * b02
      m04 := a00 * b10 + a10 * b11 + a20 * b12
      m05 := a01 * b10 + a11 * b11 + a21 * b12
      m06 := a02 * b10 + a12 * b11 + a22 * b12
      m07 := a03 * b10 + a13 * b11 + a23 * b12
      m08 := a00 * b20 + a10 * b21 + a20 * b22
      m09 := a01 * b20 + a11 * b21 + a21 * b22
      m10 := a02 * b20 + a12 * b21 + a22 * b22
      m11 := a03 * b20 + a13 * b21 + a23 * b22 }
    let o := if inPlace then o else { o with
      m12 := a.m12
      m13 := a.m13
      m14 := a.m14
      m15 := a.m15 }
    ⟨o, false⟩

/-- Function `mat4.fromRotation(out, rad, axis)`, with `Math.sin`, `Math.cos`,
`Math.sqrt` and `Math.abs` as parameters. -/
def fromRotation (sin cos sqrt abs : α → α) (out : _mat4 α) (rad : α) (axis : Vec3Arg α) :
    Outcome (_mat4 α) :=
  let x := axis.m00
  let y := axis.m01
  let z := axis.m02
  let len := sqrt (x * x + y * y + z * z)
  if abs len < EPSILON then
    ⟨out, true⟩
  else
    let len := 1 / len
    let x := x * len
    let y := y * len
    let z := z * len
    let s := sin rad
    let c := cos rad
    let t := 1 - c
    ⟨{ out with
       m00 := x * x * t + c
       m01 := y * x * t + z * s
       m02 := z * x * t - y * s
       m03 := 0
       m04 := x * y * t - z * s
       m05 := y * y * t + c
       m06 := z * y * t + x * s
       m07 := 0
       m08 := x * z * t + y * s
       m09 := y * z * t - x * s
       m10 := z * z * t + c
       m11 := 0
       m12 := 0
       m13 := 0
       m14 := 0
       m15 := 1 }, false⟩

end mat4

namespace mat4

variable {α : Type} [Zero α] [One α] [Add α] [Sub α] [Mul α]

/-- Function `mat4.fromRotationTranslation(out, q, v)`. -/
def fromRotationTranslation (out : _mat4 α) (q : QuatArg α) (v : Vec3Arg α) : _mat4 α :=
  let x := q.m00
  let y := q.m01
  let z := q.m02
  let w := q.m03
  let x2 := x + x
  let y2 := y + y
  let z2 := z + z
  let xx := x * x2
  let xy := x * y2
  let xz := x * z2
  let yy := y * y2
  let yz := y * z2
  let zz := z * z2
  let wx := w * x2
  let wy := w * y2
  let wz := w * z2
  { out with
    m00 := 1 - (yy + zz)
    m01 := xy + wz
    m02 := xz - wy
    m03 := 0
    m04 := xy - wz
    m05 := 1 - (xx + zz)
    m06 := yz + wx
    m07 := 0
    m08 := xz + wy
    m09 := yz - wx
    m10 := 1 - (xx + yy)
    m11 := 0
    m12 := v.m00
    m13 := v.m01
    m14 := v.m02
    m15 := 1 }

end mat4

namespace mat4

variable {α : Type} [Add α] [Mul α]

/-- Function `mat4.getTranslation(out, mat)`: assigns the properties `m00`,
`m01`, `m02` of out. -/
def getTranslation (out : _vec3 α) (mat : _mat4 α) : _vec3 α :=
  { out with m00 := some mat.m12, m01 := some mat.m13, m02 := some mat.m14 }

/-- Function `mat4.getScaling(out, mat)`, with `Math.sqrt` as the parameter
`sqrt`: assigns the properties `m00`, `m01`, `m02` of out. -/
def getScaling (sqrt : α → α) (out : _vec3 α) (mat : _mat4 α) : _vec3 α :=
  let m11 := mat.m00
  let m12 := mat.m01
  let m13 := mat.m02
  let m21 := mat.m04
  let m22 := mat.m05
  let m23 := mat.m06
  let m31 := mat.m08
  let m32 := mat.m09
  let m33 := mat.m10
  { out with
    m00 := some (sqrt (m11 * m11 + m12 * m12 + m13 * m13))
    m01 := some (sqrt (m21 * m21 + m22 * m22 + m23 * m23))
    m02 := some (sqrt (m31 * m31 + m32 * m32 + m33 * m33)) }

end mat4

namespace mat4

variable {α : Type} [LinearOrderedField α]

/-- Function `mat4.lookAt(out, eye, center, up)`, with `Math.sqrt` as the
parameter `sqrt`; `!len` holds exactly when `len` is zero.  The two `if`
statements that normalise or zero a triple of locals yield that triple. -/
def lookAt (sqrt : α → α) (out : _mat4 α) (eye center up : _vec3 α) : _mat4 α :=
  let eyex := eye.x
  let eyey := eye.y
  let eyez := eye.z
  let upx := up.x
  let upy := up.y
  let upz := up.z
  let centerx := center.x
  let centery := center.y
  let centerz := center.z
  if |eyex - centerx| < EPSILON ∧ |eyey - centery| < EPSILON ∧ |eyez - centerz| < EPSILON then
    mat4.identity out
  else
    let z0 := eyex - centerx
    let z1 := eyey - centery
    let z2 := eyez - centerz
    let len := 1 / sqrt (z0 * z0 + z1 * z1 + z2 * z2)
    let z0 := z0 * len
    let z1 := z1 * len
    let z2 := z2 * len
    let x0 := upy * z2 - upz * z1
    let x1 := upz * z0 - upx * z2
    let x2 := upx * z1 - upy * z0
    let len := sqrt (x0 * x0 + x1 * x1 + x2 * x2)
    let xs : α × α × α :=
      if len = 0 then
        (0, 0, 0)
      else
        let len := 1 / len
        (x0 * len, x1 * len, x2 * len)
    let x0 := xs.1
    let x1 := xs.2.1
    let x2 := xs.2.2
    let y0 := z1 * x2 - z2 * x1
    let y1 := z2 * x0 - z0 * x2
    let y2 := z0 * x1 - z1 * x0
    let len := sqrt (y0 * y0 + y1 * y1 + y2 * y2)
    let ys : α × α × α :=
      if len = 0 then
        (0, 0, 0)
      else
        let len := 1 / len
        (y0 * len, y1 * len, y2 * len)
    let y0 := ys.1
    let y1 := ys.2.1
    let y2 := ys.2.2
    { out with
      m00 := x0
      m01 := y0
      m02 := z0
      m03 := 0
      m04 := x1
      m05 := y1
      m06 := z1
      m07 := 0
      m08 := x2
      m09 := y2
      m10 := z2
      m11 := 0
      m12 := -(x0 * eyex + x1 * eyey + x2 * eyez)
      m13 := -(y0 * eyex + y1 * eyey + y2 * eyez)
      m14 := -(z0 * eyex + z1 * eyey + z2 * eyez)
      m15 := 1 }

end mat4

/-! ## Scalar utilities: approx, powof2, lerp -/

/-- Function `approx(a, b, maxDiff)`.  The third argument is optional: `none`
is a call without it (the parameter is then `undefined`).  The line
`maxDiff = maxDiff || EPSILON` replaces a falsy value by `EPSILON`, and the
falsy numbers are `undefined` and `0`. -/
def approx {α : Type} [LinearOrderedField α] (a b : α) (maxDiff : Option α) : Bool :=
  let maxDiff :=
    match maxDiff with
    | none => EPSILON
    | some d => if d = 0 then EPSILON else d
  decide (|a - b| ≤ maxDiff)

/-- Conversion of an integer to the 32 bits the operator `&` works on: the
residue modulo `2 ^ 32`, as the natural number with that bit pattern. -/
def toInt32Bits (x : ℤ) : ℕ :=
  (x % 2 ^ 32).toNat

/-- Function `powof2(x)` on an integer `x`: `(x !== 0) && !(x & (x - 1))`.
The operator `&` is the bitwise AND of the 32-bit patterns of its operands,
and `!` of its result is true exactly when every bit of it is 0. -/
def powof2 (x : ℤ) : Bool :=
  decide (x ≠ 0) && ((toInt32Bits x &&& toInt32Bits (x - 1)) == 0)

/-- Function `lerp(from, to, ratio)` on scalars. -/
def lerp {α : Type} [Add α] [Sub α] [Mul α] (from_ to_ ratio : α) : α :=
  from_ + (to_ - from_) * ratio

/-! ## vec2, vec3, vec4: squaredLength, inverseSafe, lerp, comparisons -/

namespace vec2

variable {α : Type} [LinearOrderedField α]

/-- Function `vec2.squaredLength(a)`. -/
def squaredLength (a : _vec2 α) : α :=
  let x := a.x
  let y := a.y
  x * x + y * y

/-- Function `vec2.inverseSafe(out, a)`. -/
def inverseSafe (out a : _vec2 α) : _vec2 α :=
  let x := a.x
  let y := a.y
  let out := if |x| < EPSILON then { out with x := 0 } else { out with x := 1 / x }
  let out := if |y| < EPSILON then { out with y := 0 } else { out with y := 1 / a.y }
  out

end vec2

namespace vec2

variable {α : Type} [Add α] [Sub α] [Mul α]

/-- Function `vec2.lerp(out, a, b, t)`. -/
def lerp (out a b : _vec2 α) (t : α) : _vec2 α :=
  let ax := a.x
  let ay := a.y
  { out with
    x := ax + t * (b.x - ax)
    y := ay + t * (b.y - ay) }

end vec2

namespace vec2

variable {α : Type} [LinearOrderedField α]

/-- Function `vec2.exactEquals(a, b)`. -/
def exactEquals (a b : _vec2 α) : Bool :=
  decide (a.x = b.x) && decide (a.y = b.y)

/-- Function `vec2.equals(a, b)`. -/
def equals (a b : _vec2 α) : Bool :=
  let a0 := a.x
  let a1 := a.y
  let b0 := b.x
  let b1 := b.y
  decide (|a0 - b0| ≤ EPSILON * max (max 1 |a0|) |b0|) &&
  decide (|a1 - b1| ≤ EPSILON * max (max 1 |a1|) |b1|)

end vec2

namespace vec3

variable {α : Type} [LinearOrderedField α]

/-- Function `vec3.copy(out, a)`. -/
def copy (out a : _vec3 α) : _vec3 α :=
  { out with x := a.x, y := a.y, z := a.z }

/-- Function `vec3.squaredLength(a)`. -/
def squaredLength (a : _vec3 α) : α :=
  let x := a.x
  let y := a.y
  let z := a.z
  x * x + y * y + z * z

/-- Function `vec3.negate(out, a)`. -/
def negate (out a : _vec3 α) : _vec3 α :=
  { out with x := -a.x, y := -a.y, z := -a.z }

/-- Function `vec3.inverseSafe(out, a)`. -/
def inverseSafe (out a : _vec3 α) : _vec3 α :=
  let x := a.x
  let y := a.y
  let z := a.z
  let out := if |x| < EPSILON then { out with x := 0 } else { out with x := 1 / x }
  let out := if |y| < EPSILON then { out with y := 0 } else { out with y := 1 / y }
  let out := if |z| < EPSILON then { out with z := 0 } else { out with z := 1 / z }
  out

/-- Function `vec3.dot(a, b)`. -/
def dot (a b : _vec3 α) : α :=
  a.x * b.x + a.y * b.y + a.z * b.z

end vec3

namespace vec3

variable {α : Type} [Add α] [Sub α] [Mul α]

/-- Function `vec3.lerp(out, a, b, t)`. -/
def lerp (out a b : _vec3 α) (t : α) : _vec3 α :=
  let ax := a.x
  let ay := a.y
  let az := a.z
  { out with
    x := ax + t * (b.x - ax)
    y := ay + t * (b.y - ay)
    z := az + t * (b.z - az) }

end vec3

namespace vec3

variable {α : Type} [LinearOrderedField α]

/-- Function `vec3.transformMat4(out, a, m)`.  The line `w = w || 1.0`
replaces a `w` that is 0 by 1. -/
def transformMat4 (out a : _vec3 α) (m : _mat4 α) : _vec3 α :=
  let x := a.x
  let y := a.y
  let z := a.z
  let w := m.m03 * x + m.m07 * y + m.m11 * z + m.m15
  let w := if w = 0 then 1 else w
  { out with
    x := (m.m00 * x + m.m04 * y + m.m08 * z + m.m12) / w
    y := (m.m01 * x + m.m05 * y + m.m09 * z + m.m13) / w
    z := (m.m02 * x + m.m06 * y + m.m10 * z + m.m14) / w }

/-- Function `vec3.angle(a, b)`, with `Math.sqrt`, `Math.acos` and `Math.PI`
as the parameters `sqrt`, `acos` and `pi`.  The function keeps two temporary
vectors between calls; `tempA` and `tempB` are their contents when the call
starts. -/
def angle (sqrt acos : α → α) (pi : α) (tempA tempB a b : _vec3 α) : α :=
  let tempA := copy tempA a
  let tempB := copy tempB b
  let tempA := normalize sqrt tempA tempA
  let tempB := normalize sqrt tempB tempB
  let cosine := dot tempA tempB
  if cosine > 1 then
    0
  else if cosine < -1 then
    pi
  else
    acos cosine

/-- Function `vec3.exactEquals(a, b)`. -/
def exactEquals (a b : _vec3 α) : Bool :=
  decide (a.x = b.x) && decide (a.y = b.y) && decide (a.z = b.z)

/-- Function `vec3.equals(a, b)`. -/
def equals (a b : _vec3 α) : Bool :=
  let a0 := a.x
  let a1 := a.y
  let a2 := a.z
  let b0 := b.x
  let b1 := b.y
  let b2 := b.z
  decide (|a0 - b0| ≤ EPSILON * max (max 1 |a0|) |b0|) &&
  decide (|a1 - b1| ≤ EPSILON * max (max 1 |a1|) |b1|) &&
  decide (|a2 - b2| ≤ EPSILON * max (max 1 |a2|) |b2|)

end vec3

namespace vec4

variable {α : Type} [LinearOrderedField α]

/-- Function `vec4.squaredLength(a)`. -/
def squaredLength (a : _vec4 α) : α :=
  let x := a.x
  let y := a.y
  let z := a.z
  let w := a.w
  x * x + y * y + z * z + w * w

/-- Function `vec4.inverseSafe(out, a)`. -/
def inverseSafe (out a : _vec4 α) : _vec4 α :=
  let x := a.x
  let y := a.y
  let z := a.z
  let w := a.w
  let out := if |x| < EPSILON then { out with x := 0 } else { out with x := 1 / x }
  let out := if |y| < EPSILON then { out with y := 0 } else { out with y := 1 / y }
  let out := if |z| < EPSILON then { out with z := 0 } else { out with z := 1 / z }
  let out := if |w| < EPSILON then { out with w := 0 } else { out with w := 1 / w }
  out

end vec4

namespace vec4

variable {α : Type} [Add α] [Sub α] [Mul α]

/-- Function `vec4.lerp(out, a, b, t)`. -/
def lerp (out a b : _vec4 α) (t : α) : _vec4 α :=
  let ax := a.x
  let ay := a.y
  let az := a.z
  let aw := a.w
  { out with
    x := ax + t * (b.x - ax)
    y := ay + t * (b.y - ay)
    z := az + t * (b.z - az)
    w := aw + t * (b.w - aw) }

end vec4

namespace vec4

variable {α : Type} [LinearOrderedField α]

/-- Function `vec4.exactEquals(a, b)`. -/
def exactEquals (a b : _vec4 α) : Bool :=
  decide (a.x = b.x) && decide (a.y = b.y) && decide (a.z = b.z) && decide (a.w = b.w)

/-- Function `vec4.equals(a, b)`. -/
def equals (a b : _vec4 α) : Bool :=
  let a0 := a.x
  let a1 := a.y
  let a2 := a.z
  let a3 := a.w
  let b0 := b.x
  let b1 := b.y
  let b2 := b.z
  let b3 := b.w
  decide (|a0 - b0| ≤ EPSILON * max (max 1 |a0|) |b0|) &&
  decide (|a1 - b1| ≤ EPSILON * max (max 1 |a1|) |b1|) &&
  decide (|a2 - b2| ≤ EPSILON * max (max 1 |a2|) |b2|) &&
  decide (|a3 - b3| ≤ EPSILON * max (max 1 |a3|) |b3|)

end vec4

/-! ## Frobenius norms and the embedding of mat23 into mat3 -/

/-- Function `mat2.frob(a)`, with `Math.sqrt` as the parameter `sqrt`;
`Math.pow(v, 2)` is the square of `v`. -/
def mat2.frob {α : Type} [Field α] (sqrt : α → α) (a : _mat2 α) : α :=
  sqrt (a.m00 ^ 2 + a.m01 ^ 2 + a.m02 ^ 2 + a.m03 ^ 2)

/-- Function `mat23.frob(a)`, with `Math.sqrt` as the parameter `sqrt`. -/
def mat23.frob {α : Type} [Field α] (sqrt : α → α) (a : _mat23 α) : α :=
  sqrt (a.m00 ^ 2 + a.m01 ^ 2 + a.m02 ^ 2 + a.m03 ^ 2 + a.m04 ^ 2 + a.m05 ^ 2 + 1)

/-- Function `mat3.frob(a)`, with `Math.sqrt` as the parameter `sqrt`. -/
def mat3.frob {α : Type} [Field α] (sqrt : α → α) (a : _mat3 α) : α :=
  sqrt (a.m00 ^ 2 + a.m01 ^ 2 + a.m02 ^ 2 + a.m03 ^ 2 + a.m04 ^ 2 + a.m05 ^ 2 +
    a.m06 ^ 2 + a.m07 ^ 2 + a.m08 ^ 2)

/-- Function `mat4.frob(a)`, with `Math.sqrt` as the parameter `sqrt`. -/
def mat4.frob {α : Type} [Field α] (sqrt : α → α) (a : _mat4 α) : α :=
  sqrt (a.m00 ^ 2 + a.m01 ^ 2 + a.m02 ^ 2 + a.m03 ^ 2 + a.m04 ^ 2 + a.m05 ^ 2 +
    a.m06 ^ 2 + a.m07 ^ 2 + a.m08 ^ 2 + a.m09 ^ 2 + a.m10 ^ 2 + a.m11 ^ 2 +
    a.m12 ^ 2 + a.m13 ^ 2 + a.m14 ^ 2 + a.m15 ^ 2)

/-- Function `mat3.fromMat2d(out, a)`. -/
def mat3.fromMat2d {α : Type} [Field α] (out : _mat3 α) (a : _mat23 α) : _mat3 α :=
  { out with
    m00 := a.m00
    m01 := a.m01
    m02 := 0
    m03 := a.m02
    m04 := a.m03
    m05 := 0
    m06 := a.m04
    m07 := a.m05
    m08 := 1 }

/-! ## mat4: rotations about the coordinate axes and the single-operation factories -/

namespace mat4

variable {α : Type} [LinearOrderedField α]

/-- Function `mat4.rotateX(out, a, rad)`, with `Math.sin` and `Math.cos` as
parameters.  Every field of `a` that enters the arithmetic is cached before
the first write; the test `a !== out` is the flag `inPlace`. -/
def rotateX (sin cos : α → α) (inPlace : Bool) (out a : _mat4 α) (rad : α) : _mat4 α :=
  let s := sin rad
  let c := cos rad
  let a10 := a.m04
  let a11 := a.m05
  let a12 := a.m06
  let a13 := a.m07
  let a20 := a.m08
  let a21 := a.m09
  let a22 := a.m10
  let a23 := a.m11
  let o :=
    if inPlace then a
    else { out with
      m00 := a.m00
      m01 := a.m01
      m02 := a.m02
      m03 := a.m03
      m12 := a.m12
      m13 := a.m13
      m14 := a.m14
      m15 := a.m15 }
  { o with
    m04 := a10 * c + a20 * s
    m05 := a11 * c + a21 * s
    m06 := a12 * c + a22 * s
    m07 := a13 * c + a23 * s
    m08 := a20 * c - a10 * s
    m09 := a21 * c - a11 * s
    m10 := a22 * c - a12 * s
    m11 := a23 * c - a13 * s }

/-- Function `mat4.rotateY(out, a, rad)`, with `Math.sin` and `Math.cos` as
parameters.  Every field of `a` that enters the arithmetic is cached before
the first write; the test `a !== out` is the flag `inPlace`. -/
def rotateY (sin cos : α → α) (inPlace : Bool) (out a : _mat4 α) (rad : α) : _mat4 α :=
  let s := sin rad
  let c := cos rad
  let a00 := a.m00
  let a01 := a.m01
  let a02 := a.m02
  let a03 := a.m03
  let a20 := a.m08
  let a21 := a.m09
  let a22 := a.m10
  let a23 := a.m11
  let o :=
    if inPlace then a
    else { out with
      m04 := a.m04
      m05 := a.m05
      m06 := a.m06
      m07 := a.m07
      m12 := a.m12
      m13 := a.m13
      m14 := a.m14
      m15 := a.m15 }
  { o with
    m00 := a00 * c - a20 * s
    m01 := a01 * c - a21 * s
    m02 := a02 * c - a22 * s
    m03 := a03 * c - a23 * s
    m08 := a00 * s + a20 * c
    m09 := a01 * s + a21 * c
    m10 := a02 * s + a22 * c
    m11 := a03 * s + a23 * c }

/-- Function `mat4.rotateZ(out, a, rad)`, with `Math.sin` and `Math.cos` as
parameters.  Every field of `a` that enters the arithmetic is cached before
the first write; the test `a !== out` is the flag `inPlace`. -/
def rotateZ (sin cos : α → α) (inPlace : Bool) (out a : _mat4 α) (rad : α) : _mat4 α :=
  let s := sin rad
  let c := cos rad
  let a00 := a.m00
  let a01 := a.m01
  let a02 := a.m02
  let a03 := a.m03
  let a10 := a.m04
  let a11 := a.m05
  let a12 := a.m06
  let a13 := a.m07
  let o :=
    if inPlace then a
    else { out with
      m08 := a.m08
      m09 := a.m09
      m10 := a.m10
      m11 := a.m11
      m12 := a.m12
      m13 := a.m13
      m14 := a.m14
      m15 := a.m15 }
  { o with
    m00 := a00 * c + a10 * s
    m01 := a01 * c + a11 * s
    m02 := a02 * c + a12 * s
    m03 := a03 * c + a13 * s
    m04 := a10 * c - a00 * s
    m05 := a11 * c - a01 * s
    m06 := a12 * c - a02 * s
    m07 := a13 * c - a03 * s }

end mat4

namespace mat4

variable {α : Type} [Zero α] [One α]

/-- Function `mat4.fromTranslation(out, v)`: reads `v.m00`, `v.m01`, `v.m02`. -/
def fromTranslation (out : _mat4 α) (v : Vec3Arg α) : _mat4 α :=
  { out with
    m00 := 1
    m01 := 0
    m02 := 0
    m03 := 0
    m04 := 0
    m05 := 1
    m06 := 0
    m07 := 0
    m08 := 0
    m09 := 0
    m10 := 1
    m11 := 0
    m12 := v.m00
    m13 := v.m01
    m14 := v.m02
    m15 := 1 }

/-- Function `mat4.fromScaling(out, v)`: reads `v.m00`, `v.m01`, `v.m02`. -/
def fromScaling (out : _mat4 α) (v : Vec3Arg α) : _mat4 α :=
  { out with
    m00 := v.m00
    m01 := 0
    m02 := 0
    m03 := 0
    m04 := 0
    m05 := v.m01
    m06 := 0
    m07 := 0
    m08 := 0
    m09 := 0
    m10 := v.m02
    m11 := 0
    m12 := 0
    m13 := 0
    m14 := 0
    m15 := 1 }

end mat4

namespace mat4

variable {α : Type} [LinearOrderedField α]

/-- Function `mat4.fromXRotation(out, rad)`, with `Math.sin` and `Math.cos` as
parameters. -/
def fromXRotation (sin cos : α → α) (out : _mat4 α) (rad : α) : _mat4 α :=
  let s := sin rad
  let c := cos rad
  { out with
    m00 := 1
    m01 := 0
    m02 := 0
    m03 := 0
    m04 := 0
    m05 := c
    m06 := s
    m07 := 0
    m08 := 0
    m09 := -s
    m10 := c
    m11 := 0
    m12 := 0
    m13 := 0
    m14 := 0
    m15 := 1 }

/-- Function `mat4.fromYRotation(out, rad)`, with `Math.sin` and `Math.cos` as
parameters. -/
def fromYRotation (sin cos : α → α) (out : _mat4 α) (rad : α) : _mat4 α :=
  let s := sin rad
  let c := cos rad
  { out with
    m00 := c
    m01 := 0
    m02 := -s
    m03 := 0
    m04 := 0
    m05 := 1
    m06 := 0
    m07 := 0
    m08 := s
    m09 := 0
    m10 := c
    m11 := 0
    m12 := 0
    m13 := 0
    m14 := 0
    m15 := 1 }

/-- Function `mat4.fromZRotation(out, rad)`, with `Math.sin` and `Math.cos` as
parameters. -/
def fromZRotation (sin cos : α → α) (out : _mat4 α) (rad : α) : _mat4 α :=
  let s := sin rad
  let c := cos rad
  { out with
    m00 := c
    m01 := s
    m02 := 0
    m03 := 0
    m04 := -s
    m05 := c
    m06 := 0
    m07 := 0
    m08 := 0
    m09 := 0
    m10 := 1
    m11 := 0
    m12 := 0
    m13 := 0
    m14 := 0
    m15 := 1 }

/-- Function `mat4.frustum(out, left, right, bottom, top, near, far)`. -/
def frustum (out : _mat4 α) (left right bottom top near far : α) : _mat4 α :=
  let rl := 1 / (right - left)
  let tb := 1 / (top - bottom)
  let nf := 1 / (near - far)
  { out with
    m00 := (near * 2) * rl
    m01 := 0
    m02 := 0
    m03 := 0
    m04 := 0
    m05 := (near * 2) * tb
    m06 := 0
    m07 := 0
    m08 := (right + left) * rl
    m09 := (top + bottom) * tb
    m10 := (far + near) * nf
    m11 := -1
    m12 := 0
    m13 := 0
    m14 := (far * near * 2) * nf
    m15 := 0 }

/-- Function `mat4.perspective(out, fovy, aspect, near, far)`, with `Math.tan` as
the parameter `tan`. -/
def perspective (tan : α → α) (out : _mat4 α) (fovy aspect near far : α) : _mat4 α :=
  let f := 1 / tan (fovy / 2)
  let nf := 1 / (near - far)
  { out with
    m00 := f / aspect
    m01 := 0
    m02 := 0
    m03 := 0
    m04 := 0
    m05 := f
    m06 := 0
    m07 := 0
    m08 := 0
    m09 := 0
    m10 := (far + near) * nf
    m11 := -1
    m12 := 0
    m13 := 0
    m14 := (2 * far * near) * nf
    m15 := 0 }

end mat4

/-! ## mat2: LDU -/

/-- Function `mat2.LDU(L, D, U, a)`: returns the array `[L, D, U]`.  The four
arguments are four distinct objects; `L.m02` and `U.m01` are read back after
they have been written. -/
def mat2.LDU {α : Type} [Field α] (L D U a : _mat2 α) : _mat2 α × _mat2 α × _mat2 α :=
  let L := { L with m02 := a.m02 / a.m00 }
  let U := { U with m00 := a.m00 }
  let U := { U with m01 := a.m01 }
  let U := { U with m03 := a.m03 - L.m02 * U.m01 }
  (L, D, U)

/-! ## vec2, vec3: length, random; vec3: transformMat3, transformQuat -/

namespace vec2

variable {α : Type} [LinearOrderedField α]

/-- Function `vec2.create()`: a new zero vector. -/
def create : _vec2 α := ⟨0, 0⟩

/-- Function `vec2.length(a)`, with `Math.sqrt` as the parameter `sqrt`. -/
def length (sqrt : α → α) (a : _vec2 α) : α :=
  let x := a.x
  let y := a.y
  sqrt (x * x + y * y)

/-- Function `vec2.random(out, scale)`, with `Math.cos`, `Math.sin` and
`Math.PI` as parameters.  The argument `u` is the number the call of
`random()` returns.  The second argument of the source is optional: `none` is
a call without it; `scale = scale || 1.0` replaces an absent scale, and a
scale of 0, by 1. -/
def random (cos sin : α → α) (pi : α) (u : α) (out : _vec2 α) (scale : Option α) : _vec2 α :=
  let scale :=
    match scale with
    | none => 1
    | some s => if s = 0 then 1 else s
  let r := u * 2 * pi
  { out with
    x := cos r * scale
    y := sin r * scale }

end vec2

namespace vec3

variable {α : Type} [LinearOrderedField α]

/-- Function `vec3.length(a)`, with `Math.sqrt` as the parameter `sqrt`. -/
def length (sqrt : α → α) (a : _vec3 α) : α :=
  let x := a.x
  let y := a.y
  let z := a.z
  sqrt (x * x + y * y + z * z)

/-- Function `vec3.random(out, scale)`, with `Math.cos`, `Math.sin`,
`Math.sqrt` and `Math.PI` as parameters.  The arguments `u₁` and `u₂` are the
numbers the first and the second call of `random()` return.  The scale is
optional as in `vec2.random`. -/
def random (cos sin sqrt : α → α) (pi : α) (u₁ u₂ : α) (out : _vec3 α) (scale : Option α) :
    _vec3 α :=
  let scale :=
    match scale with
    | none => 1
    | some s => if s = 0 then 1 else s
  let r := u₁ * 2 * pi
  let z := (u₂ * 2) - 1
  let zScale := sqrt (1 - z * z) * scale
  { out with
    x := cos r * zScale
    y := sin r * zScale
    z := z * scale }

/-- Function `vec3.transformMat3(out, a, m)`. -/
def transformMat3 (out a : _vec3 α) (m : _mat3 α) : _vec3 α :=
  let x := a.x
  let y := a.y
  let z := a.z
  { out with
    x := x * m.m00 + y * m.m03 + z * m.m06
    y := x * m.m01 + y * m.m04 + z * m.m07
    z := x * m.m02 + y * m.m05 + z * m.m08 }

/-- Function `vec3.transformQuat(out, a, q)`: reads the fields x, y, z, w of
the quaternion. -/
def transformQuat (out a : _vec3 α) (q : Quat α) : _vec3 α :=
  let x := a.x
  let y := a.y
  let z := a.z
  let qx := q.x
  let qy := q.y
  let qz := q.z
  let qw := q.w
  let ix := qw * x + qy * z - qz * y
  let iy := qw * y + qz * x - qx * z
  let iz := qw * z + qx * y - qy * x
  let iw := -qx * x - qy * y - qz * z
  { out with
    x := ix * qw + iw * -qx + iy * -qz - iz * -qy
    y := iy * qw + iw * -qy + iz * -qx - ix * -qz
    z := iz * qw + iw * -qz + ix * -qy - iy * -qx }

end vec3

/-- Function `vec4.create()`: a new zero vector. -/
def vec4.create {α : Type} [Zero α] : _vec4 α := ⟨0, 0, 0, 0⟩

/-! ## forEach over a packed buffer

The buffer is an Array, modelled as the list of its elements.  Stride, offset
and count are natural numbers.  The callback is a function from the content
of the vector it is handed to the content it leaves there. -/

/-- Reading `a[i]`: the element of index `i`, and `undefined` when `i` is not
below `a.length`; `undef` stands for `undefined`. -/
def readIndex {α : Type} (undef : α) (a : List α) (i : ℕ) : α :=
  a.getD i undef

/-- The assignment `a[i] = v` on an Array: below `a.length` it replaces the
element of index `i`; at or beyond `a.length` the Array grows to the length
`i + 1`, and the indices it skips hold nothing (they read as `undefined`). -/
def writeIndex {α : Type} (undef : α) (a : List α) (i : ℕ) (v : α) : List α :=
  if i < a.length then a.set i v else a ++ List.replicate (i - a.length) undef ++ [v]

/-- What a run of `forEach` has reached: the buffer `a`, the vector `vec` the
function keeps between its calls, and the indices of `a` read or written so
far, in the order of the accesses. -/
structure ForEachState (V α : Type) where
  a : List α
  vec : V
  touched : List ℕ
deriving DecidableEq, Repr

/-- The loop `for (i = offset; i < l; i += stride) body`, started at `i`.  The
first argument bounds the number of iterations; with a stride of at least 1
the loop makes at most `l - i` of them. -/
def forEachLoop {S : Type} (body : ℕ → S → S) (stride l : ℕ) : ℕ → ℕ → S → S
  | 0, _, st => st
  | fuel + 1, i, st =>
    if i < l then forEachLoop body stride l fuel (i + stride) (body i st) else st

/-- Body of the loop of `vec2.forEach`, at index `i`, with callback `fn`. -/
def vec2.forEachBody {α : Type} (undef : α) (fn : _vec2 α → _vec2 α) (i : ℕ)
    (st : ForEachState (_vec2 α) α) : ForEachState (_vec2 α) α :=
  let vec := { st.vec with x := readIndex undef st.a i, y := readIndex undef st.a (i + 1) }
  let vec := fn vec
  let a := writeIndex undef st.a i vec.x
  let a := writeIndex undef a (i + 1) vec.y
  ⟨a, vec, st.touched ++ [i, i + 1, i, i + 1]⟩

/-- Function `vec2.forEach(a, stride, offset, count, fn, arg)`, with the
content `vec` of its vector when the call starts; `fn` stands for
`fn(vec, vec, arg)`.  The Array returned is the field `a` of the result. -/
def vec2.forEach {α : Type} (undef : α) (vec : _vec2 α) (a : List α) (stride offset count : ℕ)
    (fn : _vec2 α → _vec2 α) : ForEachState (_vec2 α) α :=
  let stride := if stride = 0 then 2 else stride
  let offset := if offset = 0 then 0 else offset
  let l := if count ≠ 0 then min (count * stride + offset) a.length else a.length
  forEachLoop (vec2.forEachBody undef fn) stride l (l - offset) offset ⟨a, vec, []⟩

/-- Body of the loop of `vec3.forEach`, at index `i`, with callback `fn`. -/
def vec3.forEachBody {α : Type} (undef : α) (fn : _vec3 α → _vec3 α) (i : ℕ)
    (st : ForEachState (_vec3 α) α) : ForEachState (_vec3 α) α :=
  let vec := { st.vec with
    x := readIndex undef st.a i
    y := readIndex undef st.a (i + 1)
    z := readIndex undef st.a (i + 2) }
  let vec := fn vec
  let a := writeIndex undef st.a i vec.x
  let a := writeIndex undef a (i + 1) vec.y
  let a := writeIndex undef a (i + 2) vec.z
  ⟨a, vec, st.touched ++ [i, i + 1, i + 2, i, i + 1, i + 2]⟩

/-- Function `vec3.forEach(a, stride, offset, count, fn, arg)`, with the
content `vec` of its vector when the call starts; `fn` stands for
`fn(vec, vec, arg)`.  The Array returned is the field `a` of the result. -/
def vec3.forEach {α : Type} (undef : α) (vec : _vec3 α) (a : List α) (stride offset count : ℕ)
    (fn : _vec3 α → _vec3 α) : ForEachState (_vec3 α) α :=
  let stride := if stride = 0 then 3 else stride
  let offset := if offset = 0 then 0 else offset
  let l := if count ≠ 0 then min (count * stride + offset) a.length else a.length
  forEachLoop (vec3.forEachBody undef fn) stride l (l - offset) offset ⟨a, vec, []⟩

/-- Body of the loop of `vec4.forEach`, at index `i`, with callback `fn`. -/
def vec4.forEachBody {α : Type} (undef : α) (fn : _vec4 α → _vec4 α) (i : ℕ)
    (st : ForEachState (_vec4 α) α) : ForEachState (_vec4 α) α :=
  let vec := { st.vec with
    x := readIndex undef st.a i
    y := readIndex undef st.a (i + 1)
    z := readIndex undef st.a (i + 2)
    w := readIndex undef st.a (i + 3) }
  let vec := fn vec
  let a := writeIndex undef st.a i vec.x
  let a := writeIndex undef a (i + 1) vec.y
  let a := writeIndex undef a (i + 2) vec.z
  let a := writeIndex undef a (i + 3) vec.w
  ⟨a, vec, st.touched ++ [i, i + 1, i + 2, i + 3, i, i + 1, i + 2, i + 3]⟩

/-- Function `vec4.forEach(a, stride, offset, count, fn, arg)`, with the
content `vec` of its vector when the call starts; `fn` stands for
`fn(vec, vec, arg)`.  The Array returned is the field `a` of the result. -/
def vec4.forEach {α : Type} (undef : α) (vec : _vec4 α) (a : List α) (stride offset count : ℕ)
    (fn : _vec4 α → _vec4 α) : ForEachState (_vec4 α) α :=
  let stride := if stride = 0 then 4 else stride
  let offset := if offset = 0 then 0 else offset
  let l := if count ≠ 0 then min (count * stride + offset) a.length else a.length
  forEachLoop (vec4.forEachBody undef fn) stride l (l - offset) offset ⟨a, vec, []⟩

/-- The buffer the specification of `vec3.forEach` describes for tightly
packed vectors: the first `m` consecutive triples of the buffer are replaced,
in index order, by the triple the callback leaves in the vector; the vector
is carried from one call to the next. -/
def replaceTriples {α : Type} (fn : _vec3 α → _vec3 α) : ℕ → _vec3 α → List α → List α
  | m + 1, vec, x :: y :: z :: rest =>
    let v := fn { vec with x := x, y := y, z := z }
    v.x :: v.y :: v.z :: replaceTriples fn m v rest
  | _, _, a => a

/-! ## mat4: exactEquals -/

/-- Function `mat4.exactEquals(a, b)`; the operator `===` is the `==` of the
scalars, which on numbers that may be NaN is false when an operand is NaN. -/
def mat4.exactEquals {α : Type} [BEq α] (a b : _mat4 α) : Bool :=
  a.m00 == b.m00 && a.m01 == b.m01 && a.m02 == b.m02 && a.m03 == b.m03 &&
    a.m04 == b.m04 && a.m05 == b.m05 && a.m06 == b.m06 && a.m07 == b.m07 &&
    a.m08 == b.m08 && a.m09 == b.m09 && a.m10 == b.m10 && a.m11 == b.m11 &&
    a.m12 == b.m12 && a.m13 == b.m13 && a.m14 == b.m14 && a.m15 == b.m15

/-! ## Integers in double arithmetic -/

/-- The number of low bits that a natural number `m` loses when it is kept to
53 significant bits: the least `s` with `m / 2 ^ s < 2 ^ 53`, searched up to
`fuel`. -/
def droppedBits : ℕ → ℕ → ℕ
  | 0, _ => 0
  | fuel + 1, m => if m < 2 ^ 53 then 0 else droppedBits fuel (m / 2) + 1

/-- The double nearest to the integer `n`: `n` rounded to 53 significant bits,
a tie going to the even significand (magnitudes below `2 ^ 1024`). -/
def roundToDouble (n : ℤ) : ℤ :=
  let m := n.natAbs
  let s := droppedBits 1024 m
  let q := m / 2 ^ s
  let r := m % 2 ^ s
  let q := if 2 * r > 2 ^ s ∨ (2 * r = 2 ^ s ∧ q % 2 = 1) then q + 1 else q
  n.sign * ((q * 2 ^ s : ℕ) : ℤ)

/-- A JavaScript number whose value is an integer, with the arithmetic of
doubles: the sum, difference and product of two such numbers is the exact
integer result rounded to the nearest double. -/
structure IntegerDouble where
  val : ℤ
deriving DecidableEq, Repr

instance : Add IntegerDouble := ⟨fun a b => ⟨roundToDouble (a.val + b.val)⟩⟩

instance : Sub IntegerDouble := ⟨fun a b => ⟨roundToDouble (a.val - b.val)⟩⟩

instance : Mul IntegerDouble := ⟨fun a b => ⟨roundToDouble (a.val * b.val)⟩⟩

/-! # Theorems -/

/-! ## Shared lemmas on inverses and adjugates -/

/-- With a nonzero determinant `mat2.invert` returns out holding the adjugate scaled by `1 / det`. -/
theorem mat2_invert_eq_of_ne {α : Type} [Field α] [DecidableEq α] (o o₁ o₂ M : _mat2 α)
    (h : mat2.determinant M ≠ 0) :
    mat2.invert o M =
      ⟨mat2.multiplyScalar o₁ (mat2.adjoint o₂ M) (1 / mat2.determinant M), false⟩ := by
  obtain ⟨a, b, c, d⟩ := M
  simp only [mat2.determinant] at h
  simp only [mat2.invert, if_neg h, mat2.multiplyScalar, mat2.adjoint, mat2.determinant]

/-- With a nonzero determinant `mat3.invert` returns out holding the adjugate scaled by `1 / det`. -/
theorem mat3_invert_eq_of_ne {α : Type} [Field α] [DecidableEq α] (o o₁ o₂ M : _mat3 α)
    (h : mat3.determinant M ≠ 0) :
    mat3.invert o M =
      ⟨mat3.multiplyScalar o₁ (mat3.adjoint o₂ M) (1 / mat3.determinant M), false⟩ := by
  obtain ⟨a, b, c, d, e, f, g, k, l⟩ := M
  simp only [mat3.determinant] at h
  simp only [mat3.invert, if_neg h, mat3.multiplyScalar, mat3.adjoint, mat3.determinant]
  congr 2 <;> ring

/-- With a nonzero determinant `mat4.invert` returns out holding the adjugate scaled by `1 / det`. -/
theorem mat4_invert_eq_of_ne {α : Type} [Field α] [DecidableEq α] (o o₁ o₂ M : _mat4 α)
    (h : mat4.determinant M ≠ 0) :
    mat4.invert o M =
      ⟨mat4.multiplyScalar o₁ (mat4.adjoint o₂ M) (1 / mat4.determinant M), false⟩ := by
  obtain ⟨a00, a01, a02, a03, a10, a11, a12, a13, a20, a21, a22, a23, a30, a31, a32, a33⟩ := M
  simp only [mat4.determinant] at h
  simp only [mat4.invert, if_neg h, mat4.multiplyScalar, mat4.adjoint, mat4.determinant]
  congr 2 <;> ring

/-- The adjugate of a Mat3 scaled by an inverse of the determinant is a two-sided inverse. -/
theorem mat3_adjoint_scaled_mul {α : Type} [Field α] (o₁ o₂ o₃ o₄ M : _mat3 α) (s : α)
    (hs : mat3.determinant M * s = 1) :
    mat3.multiply o₁ (mat3.multiplyScalar o₂ (mat3.adjoint o₃ M) s) M = mat3.create ∧
    mat3.multiply o₄ M (mat3.multiplyScalar o₂ (mat3.adjoint o₃ M) s) = mat3.create := by
  obtain ⟨a, b, c, d, e, f, g, k, l⟩ := M
  simp only [mat3.determinant] at hs
  constructor <;> ext <;>
    simp only [mat3.multiply, mat3.multiplyScalar, mat3.adjoint, mat3.create] <;>
    first | ring1 | linear_combination hs

/-- The adjugate of a Mat4 scaled by an inverse of the determinant is a two-sided inverse. -/
theorem mat4_adjoint_scaled_mul {α : Type} [Field α] (o₁ o₂ o₃ o₄ M : _mat4 α) (s : α)
    (hs : mat4.determinant M * s = 1) :
    mat4.multiply o₁ (mat4.multiplyScalar o₂ (mat4.adjoint o₃ M) s) M = mat4.create ∧
    mat4.multiply o₄ M (mat4.multiplyScalar o₂ (mat4.adjoint o₃ M) s) = mat4.create := by
  obtain ⟨a00, a01, a02, a03, a10, a11, a12, a13, a20, a21, a22, a23, a30, a31, a32, a33⟩ := M
  simp only [mat4.determinant] at hs
  constructor <;> ext <;>
    simp only [mat4.multiply, mat4.multiplyScalar, mat4.adjoint, mat4.create] <;>
    first | ring1 | linear_combination hs

/-- The tolerance is not negative. -/
theorem EPSILON_nonneg {α : Type} [LinearOrderedField α] : (0 : α) ≤ EPSILON := by
  unfold EPSILON
  norm_num

/-- A scalar is within the mixed tolerance of itself. -/
theorem equals_self_scalar {α : Type} [LinearOrderedField α] (a : α) :
    |a - a| ≤ EPSILON * max (max 1 |a|) |a| := by
  rw [sub_self, abs_zero]
  exact mul_nonneg EPSILON_nonneg (le_trans zero_le_one (le_trans (le_max_left _ _) (le_max_left _ _)))

/-- Function `mat4.equals` is reflexive. -/
theorem mat4_equals_self {α : Type} [LinearOrderedField α] (a : _mat4 α) :
    mat4.equals a a = true := by
  simp only [mat4.equals, equals_self_scalar, decide_True, Bool.and_self]

/-! ## Inverses -/

/-- C1: for every Mat4 `M` with nonzero determinant, `mat4.invert(out, M)` does
not return null and the matrix it returns is a left and a right inverse of `M`
for `mat4.multiply`: both products are the identity of `mat4.create()`, hence
also equal to it for `mat4.equals`. -/
theorem mat4_invert_multiply_create {α : Type} [LinearOrderedField α]
    (o₁ o₂ o₃ M : _mat4 α) (h : mat4.determinant M ≠ 0) :
    (mat4.invert o₁ M).null = false ∧
    mat4.multiply o₂ (mat4.invert o₁ M).out M = mat4.create ∧
    mat4.multiply o₃ M (mat4.invert o₁ M).out = mat4.create ∧
    mat4.equals (mat4.multiply o₂ (mat4.invert o₁ M).out M) mat4.create = true ∧
    mat4.equals (mat4.multiply o₃ M (mat4.invert o₁ M).out) mat4.create = true := by
  have hs : mat4.determinant M * (1 / mat4.determinant M) = 1 := mul_one_div_cancel h
  have hm := mat4_adjoint_scaled_mul o₂ o₁ o₁ o₃ M _ hs
  rw [mat4_invert_eq_of_ne o₁ o₁ o₁ M h]
  refine ⟨rfl, hm.1, hm.2, ?_, ?_⟩
  · rw [hm.1]; exact mat4_equals_self _
  · rw [hm.2]; exact mat4_equals_self _

/-- Witness of C1 at a matrix with determinant 2. -/
theorem mat4_invert_multiply_create_witness :
    mat4.determinant (⟨2, 0, 0, 0, 0, 1, 0, 0, 1, 0, 1, 0, 3, 4, 5, 1⟩ : _mat4 ℚ) ≠ 0 ∧
    ((mat4.invert mat4.create (⟨2, 0, 0, 0, 0, 1, 0, 0, 1, 0, 1, 0, 3, 4, 5, 1⟩ : _mat4 ℚ)).null
        = false ∧
      mat4.multiply mat4.create
        (mat4.invert mat4.create (⟨2, 0, 0, 0, 0, 1, 0, 0, 1, 0, 1, 0, 3, 4, 5, 1⟩ : _mat4 ℚ)).out
        ⟨2, 0, 0, 0, 0, 1, 0, 0, 1, 0, 1, 0, 3, 4, 5, 1⟩ = mat4.create ∧
      mat4.multiply mat4.create ⟨2, 0, 0, 0, 0, 1, 0, 0, 1, 0, 1, 0, 3, 4, 5, 1⟩
        (mat4.invert mat4.create (⟨2, 0, 0, 0, 0, 1, 0, 0, 1, 0, 1, 0, 3, 4, 5, 1⟩ : _mat4 ℚ)).out
        = mat4.create ∧
      mat4.equals (mat4.multiply mat4.create
        (mat4.invert mat4.create (⟨2, 0, 0, 0, 0, 1, 0, 0, 1, 0, 1, 0, 3, 4, 5, 1⟩ : _mat4 ℚ)).out
        ⟨2, 0, 0, 0, 0, 1, 0, 0, 1, 0, 1, 0, 3, 4, 5, 1⟩) mat4.create = true ∧
      mat4.equals (mat4.multiply mat4.create ⟨2, 0, 0, 0, 0, 1, 0, 0, 1, 0, 1, 0, 3, 4, 5, 1⟩
        (mat4.invert mat4.create (⟨2, 0, 0, 0, 0, 1, 0, 0, 1, 0, 1, 0, 3, 4, 5, 1⟩ : _mat4 ℚ)).out)
        mat4.create = true) :=
  ⟨by norm_num [mat4.determinant],
   mat4_invert_multiply_create _ _ _ _ (by norm_num [mat4.determinant])⟩

/-- C2: for every Mat3 `M` with nonzero determinant, `mat3.invert(out, M)` does
not return null and the matrix it returns is a left and a right inverse of `M`
for `mat3.multiply`: both products are the identity of `mat3.create()`. -/
theorem mat3_invert_multiply_create {α : Type} [Field α] [DecidableEq α]
    (o₁ o₂ o₃ M : _mat3 α) (h : mat3.determinant M ≠ 0) :
    (mat3.invert o₁ M).null = false ∧
    mat3.multiply o₂ (mat3.invert o₁ M).out M = mat3.create ∧
    mat3.multiply o₃ M (mat3.invert o₁ M).out = mat3.create := by
  have hs : mat3.determinant M * (1 / mat3.determinant M) = 1 := mul_one_div_cancel h
  have hm := mat3_adjoint_scaled_mul o₂ o₁ o₁ o₃ M _ hs
  rw [mat3_invert_eq_of_ne o₁ o₁ o₁ M h]
  exact ⟨rfl, hm.1, hm.2⟩

/-- Witness of C2 at a matrix with determinant 2. -/
theorem mat3_invert_multiply_create_witness :
    mat3.determinant (⟨2, 0, 0, 1, 1, 0, 3, 4, 1⟩ : _mat3 ℚ) ≠ 0 ∧
    ((mat3.invert mat3.create (⟨2, 0, 0, 1, 1, 0, 3, 4, 1⟩ : _mat3 ℚ)).null = false ∧
      mat3.multiply mat3.create
        (mat3.invert mat3.create (⟨2, 0, 0, 1, 1, 0, 3, 4, 1⟩ : _mat3 ℚ)).out
        ⟨2, 0, 0, 1, 1, 0, 3, 4, 1⟩ = mat3.create ∧
      mat3.multiply mat3.create ⟨2, 0, 0, 1, 1, 0, 3, 4, 1⟩
        (mat3.invert mat3.create (⟨2, 0, 0, 1, 1, 0, 3, 4, 1⟩ : _mat3 ℚ)).out = mat3.create) :=
  ⟨by norm_num [mat3.determinant],
   mat3_invert_multiply_create _ _ _ _ (by norm_num [mat3.determinant])⟩

/-- C3: for every Mat23 `M` with nonzero determinant `m00*m03 - m01*m02`,
`mat23.invert(out, M)` does not return null and the matrix it returns is a left
and a right inverse of `M` for `mat23.multiply`: both products are the identity
(1, 0, 0, 1, 0, 0), the translation scalars m04 and m05 included. -/
theorem mat23_invert_multiply_create {α : Type} [Field α] [DecidableEq α]
    (o₁ o₂ o₃ M : _mat23 α) (h : mat23.determinant M ≠ 0) :
    (mat23.invert o₁ M).null = false ∧
    mat23.multiply o₂ (mat23.invert o₁ M).out M = ⟨1, 0, 0, 1, 0, 0⟩ ∧
    mat23.multiply o₃ M (mat23.invert o₁ M).out = ⟨1, 0, 0, 1, 0, 0⟩ ∧
    (mat23.create : _mat23 α) = ⟨1, 0, 0, 1, 0, 0⟩ := by
  obtain ⟨a, b, c, d, tx, ty⟩ := M
  simp only [mat23.determinant] at h
  simp only [mat23.invert, if_neg h]
  refine ⟨trivial, ?_, ?_, rfl⟩ <;> ext <;> simp only [mat23.multiply] <;> field_simp <;> ring

/-- Witness of C3 at a matrix with determinant 2 and a translation. -/
theorem mat23_invert_multiply_create_witness :
    mat23.determinant (⟨2, 0, 1, 1, 3, 4⟩ : _mat23 ℚ) ≠ 0 ∧
    ((mat23.invert mat23.create (⟨2, 0, 1, 1, 3, 4⟩ : _mat23 ℚ)).null = false ∧
      mat23.multiply mat23.create (mat23.invert mat23.create (⟨2, 0, 1, 1, 3, 4⟩ : _mat23 ℚ)).out
        ⟨2, 0, 1, 1, 3, 4⟩ = ⟨1, 0, 0, 1, 0, 0⟩ ∧
      mat23.multiply mat23.create ⟨2, 0, 1, 1, 3, 4⟩
        (mat23.invert mat23.create (⟨2, 0, 1, 1, 3, 4⟩ : _mat23 ℚ)).out = ⟨1, 0, 0, 1, 0, 0⟩ ∧
      (mat23.create : _mat23 ℚ) = ⟨1, 0, 0, 1, 0, 0⟩) :=
  ⟨by norm_num [mat23.determinant],
   mat23_invert_multiply_create _ _ _ _ (by norm_num [mat23.determinant])⟩

/-- C4: for mat2, mat23, mat3 and mat4, `invert(out, a)` returns null exactly
when the value of the same type's `determinant(a)` is zero; when it returns
null no field of `out` has been written; it returns null in particular for
the all-zero matrix and for every matrix with a zero row. -/
theorem invert_null_iff_determinant_zero {α : Type} [Field α] [DecidableEq α]
    (o₂ a₂ : _mat2 α) (o₂₃ a₂₃ : _mat23 α) (o₃ a₃ : _mat3 α) (o₄ a₄ : _mat4 α) :
    (((mat2.invert o₂ a₂).null = true ↔ mat2.determinant a₂ = 0) ∧
      ((mat23.invert o₂₃ a₂₃).null = true ↔ mat23.determinant a₂₃ = 0) ∧
      ((mat3.invert o₃ a₃).null = true ↔ mat3.determinant a₃ = 0) ∧
      ((mat4.invert o₄ a₄).null = true ↔ mat4.determinant a₄ = 0)) ∧
    (((mat2.invert o₂ a₂).null = true → (mat2.invert o₂ a₂).out = o₂) ∧
      ((mat23.invert o₂₃ a₂₃).null = true → (mat23.invert o₂₃ a₂₃).out = o₂₃) ∧
      ((mat3.invert o₃ a₃).null = true → (mat3.invert o₃ a₃).out = o₃) ∧
      ((mat4.invert o₄ a₄).null = true → (mat4.invert o₄ a₄).out = o₄)) ∧
    ((mat2.invert o₂ ⟨0, 0, 0, 0⟩).null = true ∧
      (mat23.invert o₂₃ ⟨0, 0, 0, 0, 0, 0⟩).null = true ∧
      (mat3.invert o₃ ⟨0, 0, 0, 0, 0, 0, 0, 0, 0⟩).null = true ∧
      (mat4.invert o₄ ⟨0, 0, 0, 0, 0, 0, 0, 0, 0, 0, 0, 0, 0, 0, 0, 0⟩).null = true) ∧
    ((a₂.m00 = 0 ∧ a₂.m02 = 0 ∨ a₂.m01 = 0 ∧ a₂.m03 = 0 → (mat2.invert o₂ a₂).null = true) ∧
      (a₂₃.m00 = 0 ∧ a₂₃.m02 = 0 ∧ a₂₃.m04 = 0 ∨ a₂₃.m01 = 0 ∧ a₂₃.m03 = 0 ∧ a₂₃.m05 = 0 →
        (mat23.invert o₂₃ a₂₃).null = true) ∧
      (a₃.m00 = 0 ∧ a₃.m03 = 0 ∧ a₃.m06 = 0 ∨ a₃.m01 = 0 ∧ a₃.m04 = 0 ∧ a₃.m07 = 0 ∨
          a₃.m02 = 0 ∧ a₃.m05 = 0 ∧ a₃.m08 = 0 → (mat3.invert o₃ a₃).null = true) ∧
      (a₄.m00 = 0 ∧ a₄.m04 = 0 ∧ a₄.m08 = 0 ∧ a₄.m12 = 0 ∨
          a₄.m01 = 0 ∧ a₄.m05 = 0 ∧ a₄.m09 = 0 ∧ a₄.m13 = 0 ∨
          a₄.m02 = 0 ∧ a₄.m06 = 0 ∧ a₄.m10 = 0 ∧ a₄.m14 = 0 ∨
          a₄.m03 = 0 ∧ a₄.m07 = 0 ∧ a₄.m11 = 0 ∧ a₄.m15 = 0 →
        (mat4.invert o₄ a₄).null = true)) := by
  have k2 : ∀ o a : _mat2 α, ((mat2.invert o a).null = true ↔ mat2.determinant a = 0) ∧
      ((mat2.invert o a).null = true → (mat2.invert o a).out = o) := by
    intro o a
    simp only [mat2.invert, mat2.determinant]
    split
    · next h => exact ⟨⟨fun _ => h, fun _ => rfl⟩, fun _ => rfl⟩
    · next h => exact ⟨⟨fun hf => Bool.noConfusion hf, fun hd => absurd hd h⟩,
        fun hf => Bool.noConfusion hf⟩
  have k23 : ∀ o a : _mat23 α, ((mat23.invert o a).null = true ↔ mat23.determinant a = 0) ∧
      ((mat23.invert o a).null = true → (mat23.invert o a).out = o) := by
    intro o a
    simp only [mat23.invert, mat23.determinant]
    split
    · next h => exact ⟨⟨fun _ => h, fun _ => rfl⟩, fun _ => rfl⟩
    · next h => exact ⟨⟨fun hf => Bool.noConfusion hf, fun hd => absurd hd h⟩,
        fun hf => Bool.noConfusion hf⟩
  have k3 : ∀ o a : _mat3 α, ((mat3.invert o a).null = true ↔ mat3.determinant a = 0) ∧
      ((mat3.invert o a).null = true → (mat3.invert o a).out = o) := by
    intro o a
    simp only [mat3.invert, mat3.determinant]
    split
    · next h => exact ⟨⟨fun _ => h, fun _ => rfl⟩, fun _ => rfl⟩
    · next h => exact ⟨⟨fun hf => Bool.noConfusion hf, fun hd => absurd hd h⟩,
        fun hf => Bool.noConfusion hf⟩
  have k4 : ∀ o a : _mat4 α, ((mat4.invert o a).null = true ↔ mat4.determinant a = 0) ∧
      ((mat4.invert o a).null = true → (mat4.invert o a).out = o) := by
    intro o a
    simp only [mat4.invert, mat4.determinant]
    split
    · next h => exact ⟨⟨fun _ => h, fun _ => rfl⟩, fun _ => rfl⟩
    · next h => exact ⟨⟨fun hf => Bool.noConfusion hf, fun hd => absurd hd h⟩,
        fun hf => Bool.noConfusion hf⟩
  refine ⟨⟨(k2 _ _).1, (k23 _ _).1, (k3 _ _).1, (k4 _ _).1⟩,
    ⟨(k2 _ _).2, (k23 _ _).2, (k3 _ _).2, (k4 _ _).2⟩, ⟨?_, ?_, ?_, ?_⟩, ⟨?_, ?_, ?_, ?_⟩⟩
  · exact (k2 _ _).1.mpr (by simp [mat2.determinant])
  · exact (k23 _ _).1.mpr (by simp [mat23.determinant])
  · exact (k3 _ _).1.mpr (by simp [mat3.determinant])
  · exact (k4 _ _).1.mpr (by simp [mat4.determinant])
  · intro hr
    refine (k2 _ _).1.mpr ?_
    rcases hr with ⟨h1, h2⟩ | ⟨h1, h2⟩ <;> simp [mat2.determinant, h1, h2]
  · intro hr
    refine (k23 _ _).1.mpr ?_
    rcases hr with ⟨h1, h2, _⟩ | ⟨h1, h2, _⟩ <;> simp [mat23.determinant, h1, h2]
  · intro hr
    refine (k3 _ _).1.mpr ?_
    rcases hr with ⟨h1, h2, h3⟩ | ⟨h1, h2, h3⟩ | ⟨h1, h2, h3⟩ <;>
      simp [mat3.determinant, h1, h2, h3]
  · intro hr
    refine (k4 _ _).1.mpr ?_
    rcases hr with ⟨h1, h2, h3, h4⟩ | ⟨h1, h2, h3, h4⟩ | ⟨h1, h2, h3, h4⟩ | ⟨h1, h2, h3, h4⟩ <;>
      simp only [mat4.determinant, h1, h2, h3, h4] <;> ring

/-- Witness of C4: a matrix of each type with a zero first row is refused with
null and the out object, preloaded with sevens, is left as it was. -/
theorem invert_null_iff_determinant_zero_witness :
    ((mat2.invert (⟨7, 7, 7, 7⟩ : _mat2 ℚ) ⟨0, 1, 0, 2⟩).null = true ∧
      (mat2.invert (⟨7, 7, 7, 7⟩ : _mat2 ℚ) ⟨0, 1, 0, 2⟩).out = ⟨7, 7, 7, 7⟩) ∧
    ((mat23.invert (⟨7, 7, 7, 7, 7, 7⟩ : _mat23 ℚ) ⟨0, 1, 0, 2, 0, 3⟩).null = true ∧
      (mat23.invert (⟨7, 7, 7, 7, 7, 7⟩ : _mat23 ℚ) ⟨0, 1, 0, 2, 0, 3⟩).out
        = ⟨7, 7, 7, 7, 7, 7⟩) ∧
    ((mat3.invert (⟨7, 7, 7, 7, 7, 7, 7, 7, 7⟩ : _mat3 ℚ) ⟨0, 1, 2, 0, 3, 4, 0, 5, 6⟩).null = true ∧
      (mat3.invert (⟨7, 7, 7, 7, 7, 7, 7, 7, 7⟩ : _mat3 ℚ) ⟨0, 1, 2, 0, 3, 4, 0, 5, 6⟩).out
        = ⟨7, 7, 7, 7, 7, 7, 7, 7, 7⟩) ∧
    ((mat4.invert (⟨7, 7, 7, 7, 7, 7, 7, 7, 7, 7, 7, 7, 7, 7, 7, 7⟩ : _mat4 ℚ)
        ⟨0, 1, 2, 3, 0, 4, 5, 6, 0, 7, 8, 9, 0, 1, 2, 3⟩).null = true ∧
      (mat4.invert (⟨7, 7, 7, 7, 7, 7, 7, 7, 7, 7, 7, 7, 7, 7, 7, 7⟩ : _mat4 ℚ)
        ⟨0, 1, 2, 3, 0, 4, 5, 6, 0, 7, 8, 9, 0, 1, 2, 3⟩).out
        = ⟨7, 7, 7, 7, 7, 7, 7, 7, 7, 7, 7, 7, 7, 7, 7, 7⟩) :=
  have h := invert_null_iff_determinant_zero
    (⟨7, 7, 7, 7⟩ : _mat2 ℚ) ⟨0, 1, 0, 2⟩
    (⟨7, 7, 7, 7, 7, 7⟩ : _mat23 ℚ) ⟨0, 1, 0, 2, 0, 3⟩
    (⟨7, 7, 7, 7, 7, 7, 7, 7, 7⟩ : _mat3 ℚ) ⟨0, 1, 2, 0, 3, 4, 0, 5, 6⟩
    (⟨7, 7, 7, 7, 7, 7, 7, 7, 7, 7, 7, 7, 7, 7, 7, 7⟩ : _mat4 ℚ)
    ⟨0, 1, 2, 3, 0, 4, 5, 6, 0, 7, 8, 9, 0, 1, 2, 3⟩
  have n2 := h.2.2.2.1 (Or.inl ⟨rfl, rfl⟩)
  have n23 := h.2.2.2.2.1 (Or.inl ⟨rfl, rfl, rfl⟩)
  have n3 := h.2.2.2.2.2.1 (Or.inl ⟨rfl, rfl, rfl⟩)
  have n4 := h.2.2.2.2.2.2 (Or.inl ⟨rfl, rfl, rfl, rfl⟩)
  ⟨⟨n2, h.2.1.1 n2⟩, ⟨n23, h.2.1.2.1 n23⟩, ⟨n3, h.2.1.2.2.1 n3⟩, ⟨n4, h.2.1.2.2.2 n4⟩⟩

/-- C5: for mat2, mat3 and mat4 and every matrix `a` with nonzero determinant,
`invert(out, a)` returns the out object (not null) holding the adjugate written
by `adjoint`, every element multiplied by `1 / determinant(a)`. -/
theorem invert_eq_adjoint_over_determinant {α : Type} [Field α] [DecidableEq α]
    (o₂ p₂ r₂ a₂ : _mat2 α) (o₃ p₃ r₃ a₃ : _mat3 α) (o₄ p₄ r₄ a₄ : _mat4 α) :
    (mat2.determinant a₂ ≠ 0 →
      mat2.invert o₂ a₂ =
        ⟨mat2.multiplyScalar p₂ (mat2.adjoint r₂ a₂) (1 / mat2.determinant a₂), false⟩) ∧
    (mat3.determinant a₃ ≠ 0 →
      mat3.invert o₃ a₃ =
        ⟨mat3.multiplyScalar p₃ (mat3.adjoint r₃ a₃) (1 / mat3.determinant a₃), false⟩) ∧
    (mat4.determinant a₄ ≠ 0 →
      mat4.invert o₄ a₄ =
        ⟨mat4.multiplyScalar p₄ (mat4.adjoint r₄ a₄) (1 / mat4.determinant a₄), false⟩) :=
  ⟨mat2_invert_eq_of_ne o₂ p₂ r₂ a₂, mat3_invert_eq_of_ne o₃ p₃ r₃ a₃,
    mat4_invert_eq_of_ne o₄ p₄ r₄ a₄⟩

/-- Witness of C5 at three matrices with determinant 2. -/
theorem invert_eq_adjoint_over_determinant_witness :
    mat2.invert mat2.create (⟨2, 0, 1, 1⟩ : _mat2 ℚ) =
      ⟨mat2.multiplyScalar mat2.create (mat2.adjoint mat2.create ⟨2, 0, 1, 1⟩)
        (1 / mat2.determinant (⟨2, 0, 1, 1⟩ : _mat2 ℚ)), false⟩ ∧
    mat3.invert mat3.create (⟨2, 0, 0, 1, 1, 0, 3, 4, 1⟩ : _mat3 ℚ) =
      ⟨mat3.multiplyScalar mat3.create (mat3.adjoint mat3.create ⟨2, 0, 0, 1, 1, 0, 3, 4, 1⟩)
        (1 / mat3.determinant (⟨2, 0, 0, 1, 1, 0, 3, 4, 1⟩ : _mat3 ℚ)), false⟩ ∧
    mat4.invert mat4.create (⟨2, 0, 0, 0, 0, 1, 0, 0, 1, 0, 1, 0, 3, 4, 5, 1⟩ : _mat4 ℚ) =
      ⟨mat4.multiplyScalar mat4.create
        (mat4.adjoint mat4.create ⟨2, 0, 0, 0, 0, 1, 0, 0, 1, 0, 1, 0, 3, 4, 5, 1⟩)
        (1 / mat4.determinant (⟨2, 0, 0, 0, 0, 1, 0, 0, 1, 0, 1, 0, 3, 4, 5, 1⟩ : _mat4 ℚ)),
        false⟩ :=
  have h := invert_eq_adjoint_over_determinant
    mat2.create mat2.create mat2.create (⟨2, 0, 1, 1⟩ : _mat2 ℚ)
    mat3.create mat3.create mat3.create (⟨2, 0, 0, 1, 1, 0, 3, 4, 1⟩ : _mat3 ℚ)
    mat4.create mat4.create mat4.create
    (⟨2, 0, 0, 0, 0, 1, 0, 0, 1, 0, 1, 0, 3, 4, 5, 1⟩ : _mat4 ℚ)
  ⟨h.1 (by norm_num [mat2.determinant]), h.2.1 (by norm_num [mat3.determinant]),
    h.2.2 (by norm_num [mat4.determinant])⟩

/-! ## Products and transposes -/

/-- C6: `mat4.multiply(out, a, b)` is the product `a * b` for the convention of
`vec4.transformMat4`: transforming `v` by `multiply(a, b)` is transforming it
by `b` and then by `a`, for every `a`, `b` and `v`. -/
theorem mat4_multiply_transformMat4 {α : Type} [Field α]
    (o₁ o₂ o₃ v : _vec4 α) (o a b : _mat4 α) :
    vec4.transformMat4 o₁ v (mat4.multiply o a b) =
      vec4.transformMat4 o₂ (vec4.transformMat4 o₃ v b) a := by
  ext <;> simp only [vec4.transformMat4, mat4.multiply] <;> ring

/-- C7: for mat2, mat3 and mat4, transposing twice gives back exactly `M`,
when each call writes a distinct out object and when each call is made in
place (`out === a`). -/
theorem transpose_transpose {α : Type}
    (o₂ p₂ M₂ : _mat2 α) (o₃ p₃ M₃ : _mat3 α) (o₄ p₄ M₄ : _mat4 α) :
    (mat2.transpose false p₂ (mat2.transpose false o₂ M₂) = M₂ ∧
      mat2.transpose true (mat2.transpose true M₂ M₂) (mat2.transpose true M₂ M₂) = M₂) ∧
    (mat3.transpose false p₃ (mat3.transpose false o₃ M₃) = M₃ ∧
      mat3.transpose true (mat3.transpose true M₃ M₃) (mat3.transpose true M₃ M₃) = M₃) ∧
    (mat4.transpose false p₄ (mat4.transpose false o₄ M₄) = M₄ ∧
      mat4.transpose true (mat4.transpose true M₄ M₄) (mat4.transpose true M₄ M₄) = M₄) :=
  ⟨⟨rfl, rfl⟩, ⟨rfl, rfl⟩, ⟨rfl, rfl⟩⟩

/-! ## Arithmetic on values that are not numbers -/

namespace JSValue

variable {α : Type}

/-- A sum is `NaN` when its left operand is `NaN`. -/
theorem NaN_add [Add α] (x : JSValue α) : NaN + x = NaN := by cases x <;> rfl

/-- A sum is `NaN` when its right operand is `NaN`. -/
theorem add_NaN [Add α] (x : JSValue α) : x + NaN = NaN := by cases x <;> rfl

/-- A sum is `NaN` when its left operand is `undefined`. -/
theorem undefined_add [Add α] (x : JSValue α) : undefined + x = NaN := by cases x <;> rfl

/-- A sum is `NaN` when its right operand is `undefined`. -/
theorem add_undefined [Add α] (x : JSValue α) : x + undefined = NaN := by cases x <;> rfl

/-- A difference is `NaN` when its left operand is `NaN`. -/
theorem NaN_sub [Sub α] (x : JSValue α) : NaN - x = NaN := by cases x <;> rfl

/-- A difference is `NaN` when its right operand is `NaN`. -/
theorem sub_NaN [Sub α] (x : JSValue α) : x - NaN = NaN := by cases x <;> rfl

/-- A difference is `NaN` when its left operand is `undefined`. -/
theorem undefined_sub [Sub α] (x : JSValue α) : undefined - x = NaN := by cases x <;> rfl

/-- A difference is `NaN` when its right operand is `undefined`. -/
theorem sub_undefined [Sub α] (x : JSValue α) : x - undefined = NaN := by cases x <;> rfl

/-- A product is `NaN` when its left operand is `NaN`. -/
theorem NaN_mul [Mul α] (x : JSValue α) : NaN * x = NaN := by cases x <;> rfl

/-- A product is `NaN` when its right operand is `NaN`, also when the left one is 0. -/
theorem mul_NaN [Mul α] (x : JSValue α) : x * NaN = NaN := by cases x <;> rfl

/-- A product is `NaN` when its left operand is `undefined`. -/
theorem undefined_mul [Mul α] (x : JSValue α) : undefined * x = NaN := by cases x <;> rfl

/-- A product is `NaN` when its right operand is `undefined`. -/
theorem mul_undefined [Mul α] (x : JSValue α) : x * undefined = NaN := by cases x <;> rfl

/-- A quotient is `NaN` when its left operand is `NaN`. -/
theorem NaN_div [Div α] [Zero α] [DecidableEq α] (x : JSValue α) : NaN / x = NaN := by
  cases x <;> rfl

/-- A quotient is `NaN` when its right operand is `NaN`. -/
theorem div_NaN [Div α] [Zero α] [DecidableEq α] (x : JSValue α) : x / NaN = NaN := by
  cases x <;> rfl

/-- The comparison `NaN < x` is false. -/
theorem NaN_lt [LT α] (x : JSValue α) : (NaN < x) ↔ False := by
  cases x <;> exact Iff.rfl

/-- The comparison `x < NaN` is false. -/
theorem lt_NaN [LT α] (x : JSValue α) : (x < NaN) ↔ False := by
  cases x <;> exact Iff.rfl

/-- The comparison `NaN === x` is false. -/
theorem NaN_beq [DecidableEq α] (x : JSValue α) : (NaN == x) = false := by
  cases x <;> rfl

end JSValue

/-! ## Fused factories against the sequence of operations -/

/-- Both branches of `mat4.translate` leave the same sixteen fields in out. -/
theorem mat4_translate_eq {α : Type} [Add α] [Mul α] (inPlace : Bool) (o a : _mat4 α)
    (v : Vec3Arg α) :
    mat4.translate inPlace o a v =
      ⟨a.m00, a.m01, a.m02, a.m03, a.m04, a.m05, a.m06, a.m07, a.m08, a.m09, a.m10, a.m11,
        a.m00 * v.m00 + a.m04 * v.m01 + a.m08 * v.m02 + a.m12,
        a.m01 * v.m00 + a.m05 * v.m01 + a.m09 * v.m02 + a.m13,
        a.m02 * v.m00 + a.m06 * v.m01 + a.m10 * v.m02 + a.m14,
        a.m03 * v.m00 + a.m07 * v.m01 + a.m11 * v.m02 + a.m15⟩ := by
  cases inPlace <;> rfl

/-- The sixteen fields that `mat4.multiply` leaves in out. -/
theorem mat4_multiply_eq {α : Type} [Add α] [Mul α] (o a b : _mat4 α) :
    mat4.multiply o a b =
      ⟨b.m00 * a.m00 + b.m01 * a.m04 + b.m02 * a.m08 + b.m03 * a.m12,
        b.m00 * a.m01 + b.m01 * a.m05 + b.m02 * a.m09 + b.m03 * a.m13,
        b.m00 * a.m02 + b.m01 * a.m06 + b.m02 * a.m10 + b.m03 * a.m14,
        b.m00 * a.m03 + b.m01 * a.m07 + b.m02 * a.m11 + b.m03 * a.m15,
        b.m04 * a.m00 + b.m05 * a.m04 + b.m06 * a.m08 + b.m07 * a.m12,
        b.m04 * a.m01 + b.m05 * a.m05 + b.m06 * a.m09 + b.m07 * a.m13,
        b.m04 * a.m02 + b.m05 * a.m06 + b.m06 * a.m10 + b.m07 * a.m14,
        b.m04 * a.m03 + b.m05 * a.m07 + b.m06 * a.m11 + b.m07 * a.m15,
        b.m08 * a.m00 + b.m09 * a.m04 + b.m10 * a.m08 + b.m11 * a.m12,
        b.m08 * a.m01 + b.m09 * a.m05 + b.m10 * a.m09 + b.m11 * a.m13,
        b.m08 * a.m02 + b.m09 * a.m06 + b.m10 * a.m10 + b.m11 * a.m14,
        b.m08 * a.m03 + b.m09 * a.m07 + b.m10 * a.m11 + b.m11 * a.m15,
        b.m12 * a.m00 + b.m13 * a.m04 + b.m14 * a.m08 + b.m15 * a.m12,
        b.m12 * a.m01 + b.m13 * a.m05 + b.m14 * a.m09 + b.m15 * a.m13,
        b.m12 * a.m02 + b.m13 * a.m06 + b.m14 * a.m10 + b.m15 * a.m14,
        b.m12 * a.m03 + b.m13 * a.m07 + b.m14 * a.m11 + b.m15 * a.m15⟩ := rfl

/-- On operands that carry the properties `m00`, `m01`, ... which the code
reads, over a field: `mat4.fromRotationTranslationScale(out, q, v, s)` is the
matrix obtained from the identity by `mat4.translate` with `v`, then
`mat4.multiply` on the right by `mat4.fromQuat(q)`, then `mat4.scale` with
`s`, whether `translate` runs in place or into another object. -/
theorem fromRotationTranslationScale_eq_sequence {α : Type} [Field α]
    (inPlace : Bool) (out o₀ o₁ o₂ o₃ o₄ : _mat4 α) (q : QuatArg α) (v s : Vec3Arg α) :
    mat4.fromRotationTranslationScale out q v s =
      mat4.scale o₃
        (mat4.multiply o₂ (mat4.translate inPlace o₁ (mat4.identity o₀) v) (mat4.fromQuat o₄ q))
        s := by
  simp only [mat4_translate_eq, mat4_multiply_eq, mat4.identity, mat4.fromQuat, mat4.scale,
    mat4.fromRotationTranslationScale]
  congr 1 <;> ring

/-- On operands that carry the properties `m00`, `m01`, ... which the code
reads, over a field: `mat4.fromRotationTranslationScaleOrigin(out, q, v, s, o)`
is the matrix obtained from the identity by `mat4.translate` with `v`,
`mat4.translate` with `o`, `mat4.multiply` on the right by `mat4.fromQuat(q)`,
`mat4.scale` with `s`, then `mat4.translate` with `-o`, whether the calls of
`translate` run in place or into another object. -/
theorem fromRotationTranslationScaleOrigin_eq_sequence {α : Type} [Field α]
    (i₁ i₂ i₃ : Bool) (out o₀ o₁ o₂ o₃ o₄ o₅ o₆ : _mat4 α) (q : QuatArg α) (v s o : Vec3Arg α) :
    mat4.fromRotationTranslationScaleOrigin out q v s o =
      mat4.translate i₃ o₆
        (mat4.scale o₅
          (mat4.multiply o₄
            (mat4.translate i₂ o₂ (mat4.translate i₁ o₁ (mat4.identity o₀) v) o)
            (mat4.fromQuat o₃ q))
          s)
        ⟨-o.m00, -o.m01, -o.m02⟩ := by
  simp only [mat4_translate_eq, mat4_multiply_eq, mat4.identity, mat4.fromQuat, mat4.scale,
    mat4.fromRotationTranslationScaleOrigin]
  congr 1 <;> ring

/-- C8 (code at the failing input): on the operands the documentation names, a
quaternion with the fields x, y, z, w and vectors built by `vec3.new`, the
reads of `m00`, `m01`, ... yield `undefined`.
`mat4.fromRotationTranslationScale(out, q, v, s)` then stores `undefined` in
m12 and the literal 1 in m15, while the identity after `mat4.translate` with
`v`, `mat4.multiply` by `mat4.fromQuat(q)` and `mat4.scale` with `s` holds
`NaN` in m15: the two matrices differ, whatever `q`, `v` and `s` are, in
particular for q = (0, 0, 0, 1), v = vec3.new(1, 2, 3), s = vec3.new(1, 1, 1). -/
theorem fromRotationTranslationScale_vec3_operands {α : Type} [Zero α] [One α] [Add α]
    [Sub α] [Mul α] (inPlace : Bool) (out o₀ o₁ o₂ o₃ o₄ : _mat4 (JSValue α))
    (q : Quat (JSValue α)) (vx vy vz sx sy sz : JSValue α) :
    (mat4.fromRotationTranslationScale out (Quat.asArg JSValue.undefined q)
        (_vec3.asArg JSValue.undefined (vec3.new vx vy vz))
        (_vec3.asArg JSValue.undefined (vec3.new sx sy sz))).m12 = JSValue.undefined ∧
    (mat4.fromRotationTranslationScale out (Quat.asArg JSValue.undefined q)
        (_vec3.asArg JSValue.undefined (vec3.new vx vy vz))
        (_vec3.asArg JSValue.undefined (vec3.new sx sy sz))).m15 = 1 ∧
    (mat4.scale o₃
        (mat4.multiply o₂
          (mat4.translate inPlace o₁ (mat4.identity o₀)
            (_vec3.asArg JSValue.undefined (vec3.new vx vy vz)))
          (mat4.fromQuat o₄ (Quat.asArg JSValue.undefined q)))
        (_vec3.asArg JSValue.undefined (vec3.new sx sy sz))).m15 = JSValue.NaN ∧
    mat4.fromRotationTranslationScale out (Quat.asArg JSValue.undefined q)
        (_vec3.asArg JSValue.undefined (vec3.new vx vy vz))
        (_vec3.asArg JSValue.undefined (vec3.new sx sy sz)) ≠
      mat4.scale o₃
        (mat4.multiply o₂
          (mat4.translate inPlace o₁ (mat4.identity o₀)
            (_vec3.asArg JSValue.undefined (vec3.new vx vy vz)))
          (mat4.fromQuat o₄ (Quat.asArg JSValue.undefined q)))
        (_vec3.asArg JSValue.undefined (vec3.new sx sy sz)) := by
  have h15 : (mat4.scale o₃
        (mat4.multiply o₂
          (mat4.translate inPlace o₁ (mat4.identity o₀)
            (_vec3.asArg JSValue.undefined (vec3.new vx vy vz)))
          (mat4.fromQuat o₄ (Quat.asArg JSValue.undefined q)))
        (_vec3.asArg JSValue.undefined (vec3.new sx sy sz))).m15 = JSValue.NaN := by
    simp only [mat4_translate_eq, mat4_multiply_eq, mat4.identity, mat4.fromQuat, mat4.scale,
      _vec3.asArg, Quat.asArg, readProp, vec3.new, Option.getD_none, JSValue.mul_undefined,
      JSValue.NaN_add, JSValue.add_NaN, JSValue.mul_NaN]
  refine ⟨rfl, rfl, h15, ?_⟩
  intro h
  have h' := congrArg _mat4.m15 h
  rw [h15] at h'
  exact JSValue.noConfusion h'

/-- C9 (code at the failing input): on a quaternion with the fields x, y, z, w
and vectors built by `vec3.new`, whose reads of `m00`, `m01`, ... yield
`undefined`, `mat4.fromRotationTranslationScaleOrigin(out, q, v, s, o)` stores
the literal 1 in m15, while the identity after `mat4.translate` with `v`,
`mat4.translate` with `o`, `mat4.multiply` by `mat4.fromQuat(q)`, `mat4.scale`
with `s` and `mat4.translate` with `-o` holds `NaN` in m15: the two matrices
differ, whatever `q`, `v`, `s` and `o` are. -/
theorem fromRotationTranslationScaleOrigin_vec3_operands {α : Type} [Zero α] [One α] [Add α]
    [Sub α] [Mul α] [Neg α] (i₁ i₂ i₃ : Bool) (out o₀ o₁ o₂ o₃ o₄ o₅ o₆ : _mat4 (JSValue α))
    (q : Quat (JSValue α)) (vx vy vz sx sy sz ox oy oz : JSValue α) :
    (mat4.fromRotationTranslationScaleOrigin out (Quat.asArg JSValue.undefined q)
        (_vec3.asArg JSValue.undefined (vec3.new vx vy vz))
        (_vec3.asArg JSValue.undefined (vec3.new sx sy sz))
        (_vec3.asArg JSValue.undefined (vec3.new ox oy oz))).m15 = 1 ∧
    (mat4.translate i₃ o₆
        (mat4.scale o₅
          (mat4.multiply o₄
            (mat4.translate i₂ o₂
              (mat4.translate i₁ o₁ (mat4.identity o₀)
                (_vec3.asArg JSValue.undefined (vec3.new vx vy vz)))
              (_vec3.asArg JSValue.undefined (vec3.new ox oy oz)))
            (mat4.fromQuat o₃ (Quat.asArg JSValue.undefined q)))
          (_vec3.asArg JSValue.undefined (vec3.new sx sy sz)))
        (_vec3.asArg JSValue.undefined (vec3.new (-ox) (-oy) (-oz)))).m15 = JSValue.NaN ∧
    mat4.fromRotationTranslationScaleOrigin out (Quat.asArg JSValue.undefined q)
        (_vec3.asArg JSValue.undefined (vec3.new vx vy vz))
        (_vec3.asArg JSValue.undefined (vec3.new sx sy sz))
        (_vec3.asArg JSValue.undefined (vec3.new ox oy oz)) ≠
      mat4.translate i₃ o₆
        (mat4.scale o₅
          (mat4.multiply o₄
            (mat4.translate i₂ o₂
              (mat4.translate i₁ o₁ (mat4.identity o₀)
                (_vec3.asArg JSValue.undefined (vec3.new vx vy vz)))
              (_vec3.asArg JSValue.undefined (vec3.new ox oy oz)))
            (mat4.fromQuat o₃ (Quat.asArg JSValue.undefined q)))
          (_vec3.asArg JSValue.undefined (vec3.new sx sy sz)))
        (_vec3.asArg JSValue.undefined (vec3.new (-ox) (-oy) (-oz))) := by
  have h15 : (mat4.translate i₃ o₆
        (mat4.scale o₅
          (mat4.multiply o₄
            (mat4.translate i₂ o₂
              (mat4.translate i₁ o₁ (mat4.identity o₀)
                (_vec3.asArg JSValue.undefined (vec3.new vx vy vz)))
              (_vec3.asArg JSValue.undefined (vec3.new ox oy oz)))
            (mat4.fromQuat o₃ (Quat.asArg JSValue.undefined q)))
          (_vec3.asArg JSValue.undefined (vec3.new sx sy sz)))
        (_vec3.asArg JSValue.undefined (vec3.new (-ox) (-oy) (-oz)))).m15 = JSValue.NaN := by
    simp only [mat4_translate_eq, mat4_multiply_eq, mat4.identity, mat4.fromQuat, mat4.scale,
      _vec3.asArg, Quat.asArg, readProp, vec3.new, Option.getD_none, JSValue.mul_undefined,
      JSValue.NaN_add, JSValue.add_NaN, JSValue.mul_NaN]
  refine ⟨rfl, h15, ?_⟩
  intro h
  have h' := congrArg _mat4.m15 h
  rw [h15] at h'
  exact JSValue.noConfusion h'

/-! ## Quaternion round trip -/

/-- The value of `Math.sqrt(t) * 2` when `t` is the square of `2 * c`. -/
theorem sqrt_four_sq (t c : ℝ) (ht : t = (2 * c) ^ 2) : Real.sqrt t * 2 = 4 * |c| := by
  rw [ht, Real.sqrt_sq_eq_abs, abs_mul, abs_two]; ring

/-- What `mat4.getRotation` assigns for a matrix whose upper-left block is the
rotation matrix of a unit quaternion (x, y, z, w), over the reals with the
real square root: the properties `m00` .. `m03` of out receive that quaternion
or its opposite, and the fields x, y, z, w of out stay as they were. -/
theorem getRotation_of_unit_block (out : QuatObject ℝ) (M : _mat4 ℝ) (x y z w : ℝ)
    (h : x ^ 2 + y ^ 2 + z ^ 2 + w ^ 2 = 1)
    (h00 : M.m00 = 1 - 2 * y ^ 2 - 2 * z ^ 2) (h01 : M.m01 = 2 * x * y + 2 * w * z)
    (h02 : M.m02 = 2 * x * z - 2 * w * y) (h04 : M.m04 = 2 * x * y - 2 * w * z)
    (h05 : M.m05 = 1 - 2 * x ^ 2 - 2 * z ^ 2) (h06 : M.m06 = 2 * y * z + 2 * w * x)
    (h08 : M.m08 = 2 * x * z + 2 * w * y) (h09 : M.m09 = 2 * y * z - 2 * w * x)
    (h10 : M.m10 = 1 - 2 * x ^ 2 - 2 * y ^ 2) :
    mat4.getRotation Real.sqrt out M =
      { out with m00 := some x, m01 := some y, m02 := some z, m03 := some w } ∨
    mat4.getRotation Real.sqrt out M =
      { out with m00 := some (-x), m01 := some (-y), m02 := some (-z), m03 := some (-w) } := by
  simp only [mat4.getRotation, h00, h01, h02, h04, h05, h06, h08, h09, h10]
  split_ifs with h1 h2 h3
  · have hw : w ≠ 0 := by rintro rfl; nlinarith
    rw [sqrt_four_sq (1 - 2 * y ^ 2 - 2 * z ^ 2 + (1 - 2 * x ^ 2 - 2 * z ^ 2) +
      (1 - 2 * x ^ 2 - 2 * y ^ 2) + 1) w (by linear_combination (-4) * h)]
    rcases lt_or_gt_of_ne hw with hn | hp
    · right
      rw [abs_of_neg hn]
      congr 2 <;> field_simp <;> ring
    · left
      rw [abs_of_pos hp]
      congr 2 <;> first | (field_simp; ring1) | (norm_num; done) | (norm_num; ring1)
  · have hx : x ≠ 0 := by rintro rfl; nlinarith [h2.1, sq_nonneg y]
    rw [sqrt_four_sq (1 + (1 - 2 * y ^ 2 - 2 * z ^ 2) - (1 - 2 * x ^ 2 - 2 * z ^ 2) -
      (1 - 2 * x ^ 2 - 2 * y ^ 2)) x (by ring)]
    rcases lt_or_gt_of_ne hx with hn | hp
    · right
      rw [abs_of_neg hn]
      congr 2 <;> field_simp <;> ring
    · left
      rw [abs_of_pos hp]
      congr 2 <;> first | (field_simp; ring1) | (norm_num; done) | (norm_num; ring1)
  · have hy : y ≠ 0 := by rintro rfl; nlinarith [h3, sq_nonneg z]
    rw [sqrt_four_sq (1 + (1 - 2 * x ^ 2 - 2 * z ^ 2) - (1 - 2 * y ^ 2 - 2 * z ^ 2) -
      (1 - 2 * x ^ 2 - 2 * y ^ 2)) y (by ring)]
    rcases lt_or_gt_of_ne hy with hn | hp
    · right
      rw [abs_of_neg hn]
      congr 2 <;> field_simp <;> ring
    · left
      rw [abs_of_pos hp]
      congr 2 <;> first | (field_simp; ring1) | (norm_num; done) | (norm_num; ring1)
  · have hz : z ≠ 0 := by
      rintro rfl
      have hy : y = 0 := by
        have hy2 : y ^ 2 ≤ 0 := by nlinarith
        exact pow_eq_zero_iff two_ne_zero |>.mp (le_antisymm hy2 (sq_nonneg y))
      subst hy
      have hx : x ^ 2 ≤ 0 := by
        by_contra hc
        apply h2
        constructor <;> nlinarith
      have hx0 : x = 0 := pow_eq_zero_iff two_ne_zero |>.mp (le_antisymm hx (sq_nonneg x))
      subst hx0
      apply h1
      nlinarith
    rw [sqrt_four_sq (1 + (1 - 2 * x ^ 2 - 2 * y ^ 2) - (1 - 2 * y ^ 2 - 2 * z ^ 2) -
      (1 - 2 * x ^ 2 - 2 * z ^ 2)) z (by ring)]
    rcases lt_or_gt_of_ne hz with hn | hp
    · right
      rw [abs_of_neg hn]
      congr 2 <;> field_simp <;> ring
    · left
      rw [abs_of_pos hp]
      congr 2 <;> first | (field_simp; ring1) | (norm_num; done) | (norm_num; ring1)

/-- On an object that carries the properties `m00` .. `m03` of a unit
quaternion, which `mat4.fromQuat` reads: over the reals with the real square
root, `mat4.getRotation` applied to the matrix of `mat4.fromQuat` assigns that
quaternion or its opposite to the properties `m00` .. `m03` of out, in each of
its four branches. -/
theorem getRotation_fromQuat (o : _mat4 ℝ) (out : QuatObject ℝ) (q : QuatArg ℝ)
    (h : q.m00 ^ 2 + q.m01 ^ 2 + q.m02 ^ 2 + q.m03 ^ 2 = 1) :
    mat4.getRotation Real.sqrt out (mat4.fromQuat o q) =
      { out with
        m00 := some q.m00, m01 := some q.m01, m02 := some q.m02, m03 := some q.m03 } ∨
    mat4.getRotation Real.sqrt out (mat4.fromQuat o q) =
      { out with
        m00 := some (-q.m00), m01 := some (-q.m01), m02 := some (-q.m02),
        m03 := some (-q.m03) } := by
  obtain ⟨x, y, z, w⟩ := q
  apply getRotation_of_unit_block out _ x y z w h <;>
    simp only [mat4.fromQuat] <;> ring

/-- On an object that carries the properties `m00` .. `m03` of a unit
quaternion, which `mat4.fromRotationTranslation` reads: over the reals with
the real square root, `mat4.getRotation` applied to the matrix of
`mat4.fromRotationTranslation` assigns that quaternion or its opposite to the
properties `m00` .. `m03` of out. -/
theorem getRotation_fromRotationTranslation (o : _mat4 ℝ) (out : QuatObject ℝ)
    (q : QuatArg ℝ) (v : Vec3Arg ℝ)
    (h : q.m00 ^ 2 + q.m01 ^ 2 + q.m02 ^ 2 + q.m03 ^ 2 = 1) :
    mat4.getRotation Real.sqrt out (mat4.fromRotationTranslation o q v) =
      { out with
        m00 := some q.m00, m01 := some q.m01, m02 := some q.m02, m03 := some q.m03 } ∨
    mat4.getRotation Real.sqrt out (mat4.fromRotationTranslation o q v) =
      { out with
        m00 := some (-q.m00), m01 := some (-q.m01), m02 := some (-q.m02),
        m03 := some (-q.m03) } := by
  obtain ⟨x, y, z, w⟩ := q
  apply getRotation_of_unit_block out _ x y z w h <;>
    simp only [mat4.fromRotationTranslation] <;> ring

/-- The opposite quaternion does occur: on an object that carries the
properties (0, 0, 0, -1), `mat4.getRotation` applied to the matrix of
`mat4.fromRotationTranslation` assigns 1 and not -1 to the property `m03`. -/
theorem getRotation_fromRotationTranslation_opposite :
    (mat4.getRotation Real.sqrt ⟨7, 7, 7, 7, none, none, none, none⟩
        (mat4.fromRotationTranslation mat4.create ⟨0, 0, 0, -1⟩ ⟨0, 0, 0⟩)).m03 = some 1 := by
  have h4 : Real.sqrt 4 = 2 := by
    rw [show (4 : ℝ) = 2 ^ 2 by norm_num, Real.sqrt_sq (by norm_num)]
  norm_num [mat4.getRotation, mat4.fromRotationTranslation, h4]

/-- C10 (code at the failing input): on a quaternion with the fields x, y, z,
w, whose reads of `m00` .. `m03` yield `undefined`, the matrix of
`mat4.fromQuat` holds `NaN`, every comparison of `mat4.getRotation` is false
and its last branch runs: it leaves the fields x, y, z, w of out as they were
and assigns `NaN` to the properties `m00`, `m01` and `m03`, whatever
`Math.sqrt` returns.  The value assigned to `m00` is not the first component
of `q` nor of `-q`, for any numbers x, y, z, w, in particular for
q = (1, 0, 0, 0). -/
theorem getRotation_fromQuat_xyzw {α : Type} [LinearOrderedField α]
    (sqrt : JSValue α → JSValue α) (o : _mat4 (JSValue α)) (out : QuatObject (JSValue α))
    (x y z w : α) :
    mat4.getRotation sqrt out (mat4.fromQuat o (Quat.asArg JSValue.undefined
        ⟨JSValue.num x, JSValue.num y, JSValue.num z, JSValue.num w⟩)) =
      { out with
        m00 := some JSValue.NaN
        m01 := some JSValue.NaN
        m02 := some (0.25 * (sqrt JSValue.NaN * 2))
        m03 := some JSValue.NaN } ∧
    (mat4.getRotation sqrt out (mat4.fromQuat o (Quat.asArg JSValue.undefined
        ⟨JSValue.num x, JSValue.num y, JSValue.num z, JSValue.num w⟩))).m00 ≠
      some (JSValue.num x) ∧
    (mat4.getRotation sqrt out (mat4.fromQuat o (Quat.asArg JSValue.undefined
        ⟨JSValue.num x, JSValue.num y, JSValue.num z, JSValue.num w⟩))).m00 ≠
      some (JSValue.num (-x)) := by
  have key : mat4.getRotation sqrt out (mat4.fromQuat o (Quat.asArg JSValue.undefined
        ⟨JSValue.num x, JSValue.num y, JSValue.num z, JSValue.num w⟩)) =
      { out with
        m00 := some JSValue.NaN
        m01 := some JSValue.NaN
        m02 := some (0.25 * (sqrt JSValue.NaN * 2))
        m03 := some JSValue.NaN } := by
    simp only [mat4.getRotation, mat4.fromQuat, Quat.asArg, readProp, Option.getD_none,
      JSValue.undefined_add, JSValue.undefined_mul, JSValue.NaN_add, JSValue.add_NaN,
      JSValue.NaN_sub, JSValue.sub_NaN, JSValue.NaN_mul, JSValue.mul_NaN, JSValue.NaN_div,
      gt_iff_lt, JSValue.NaN_lt, JSValue.lt_NaN, false_and, if_false]
  rw [key]
  exact ⟨rfl, by simp, by simp⟩

/-- C11 (code at the failing input): on a quaternion with the fields x, y, z,
w and a vector built by `vec3.new`, whose reads of `m00`, `m01`, ... yield
`undefined`, the rotation block of `mat4.fromRotationTranslation` holds `NaN`
and `mat4.getRotation` runs its last branch: it leaves the fields x, y, z, w
of out as they were and assigns `NaN` to the properties `m00`, `m01` and
`m03`, whatever `Math.sqrt` returns.  The value assigned to `m00` is not the
first component of `q`, for any numbers x, y, z, w, in particular for
q = (0, 0, 0, 1) and v = vec3.new(1, 2, 3). -/
theorem getRotation_fromRotationTranslation_xyzw {α : Type} [LinearOrderedField α]
    (sqrt : JSValue α → JSValue α) (o : _mat4 (JSValue α)) (out : QuatObject (JSValue α))
    (x y z w : α) (vx vy vz : JSValue α) :
    mat4.getRotation sqrt out (mat4.fromRotationTranslation o
        (Quat.asArg JSValue.undefined
          ⟨JSValue.num x, JSValue.num y, JSValue.num z, JSValue.num w⟩)
        (_vec3.asArg JSValue.undefined (vec3.new vx vy vz))) =
      { out with
        m00 := some JSValue.NaN
        m01 := some JSValue.NaN
        m02 := some (0.25 * (sqrt JSValue.NaN * 2))
        m03 := some JSValue.NaN } ∧
    (mat4.getRotation sqrt out (mat4.fromRotationTranslation o
        (Quat.asArg JSValue.undefined
          ⟨JSValue.num x, JSValue.num y, JSValue.num z, JSValue.num w⟩)
        (_vec3.asArg JSValue.undefined (vec3.new vx vy vz)))).m00 ≠ some (JSValue.num x) := by
  have key : mat4.getRotation sqrt out (mat4.fromRotationTranslation o
        (Quat.asArg JSValue.undefined
          ⟨JSValue.num x, JSValue.num y, JSValue.num z, JSValue.num w⟩)
        (_vec3.asArg JSValue.undefined (vec3.new vx vy vz))) =
      { out with
        m00 := some JSValue.NaN
        m01 := some JSValue.NaN
        m02 := some (0.25 * (sqrt JSValue.NaN * 2))
        m03 := some JSValue.NaN } := by
    simp only [mat4.getRotation, mat4.fromRotationTranslation, Quat.asArg, readProp,
      Option.getD_none, JSValue.undefined_add, JSValue.undefined_mul, JSValue.NaN_add,
      JSValue.add_NaN, JSValue.NaN_sub, JSValue.sub_NaN, JSValue.NaN_mul, JSValue.mul_NaN,
      JSValue.NaN_div, gt_iff_lt, JSValue.NaN_lt, JSValue.lt_NaN, false_and, if_false]
  rw [key]
  exact ⟨rfl, by simp⟩

/-! ## Decomposition of a transform -/

/-- The real square root of a square is the absolute value. -/
theorem sqrt_eq_abs_of_eq_sq (t c : ℝ) (ht : t = c ^ 2) : Real.sqrt t = |c| := by
  rw [ht, Real.sqrt_sq_eq_abs]

/-- A negative scale is not recovered: on objects that carry the properties
`m00`, `m01`, ... of the unit quaternion (0, 0, 0, 1) and of the scaling vector
(-1, 1, 1), the value that `mat4.getScaling` assigns to the property `m00` for
the matrix of `mat4.fromRotationTranslationScale` is not -1. -/
theorem getScaling_fromRotationTranslationScale_ne :
    (0 : ℝ) ^ 2 + (0 : ℝ) ^ 2 + (0 : ℝ) ^ 2 + (1 : ℝ) ^ 2 = 1 ∧
    (mat4.getScaling Real.sqrt (vec3.new 0 0 0)
        (mat4.fromRotationTranslationScale mat4.create ⟨0, 0, 0, 1⟩ ⟨0, 0, 0⟩
          (⟨-1, 1, 1⟩ : Vec3Arg ℝ))).m00 ≠ some (-1) := by
  refine ⟨by norm_num, ?_⟩
  intro h
  simp only [mat4.getScaling, mat4.fromRotationTranslationScale, Option.some.injEq] at h
  have hs := Real.sqrt_nonneg
    ((1 - (0 * (0 + 0) + 0 * (0 + 0))) * -1 * ((1 - (0 * (0 + 0) + 0 * (0 + 0))) * -1) +
      (0 * (0 + 0) + 1 * (0 + 0)) * -1 * ((0 * (0 + 0) + 1 * (0 + 0)) * -1) +
      (0 * (0 + 0) - 1 * (0 + 0)) * -1 * ((0 * (0 + 0) - 1 * (0 + 0)) * -1) : ℝ)
  linarith

/-- On objects that carry the properties `m00`, `m01`, ... which the code
reads, over the reals with the real square root: for every unit quaternion
`q`, translation `v` and scaling vector `s`, `mat4.getScaling` applied to the
matrix built by `mat4.fromRotationTranslationScale(out, q, v, s)` assigns the
absolute values of the components of `s` to the properties `m00`, `m01`, `m02`
of out, which are the components of `s` when none of them is negative. -/
theorem getScaling_fromRotationTranslationScale (o : _mat4 ℝ) (out : _vec3 ℝ) (q : QuatArg ℝ)
    (v s : Vec3Arg ℝ) (h : q.m00 ^ 2 + q.m01 ^ 2 + q.m02 ^ 2 + q.m03 ^ 2 = 1) :
    mat4.getScaling Real.sqrt out (mat4.fromRotationTranslationScale o q v s) =
      { out with m00 := some |s.m00|, m01 := some |s.m01|, m02 := some |s.m02| } ∧
    (0 ≤ s.m00 ∧ 0 ≤ s.m01 ∧ 0 ≤ s.m02 →
      mat4.getScaling Real.sqrt out (mat4.fromRotationTranslationScale o q v s) =
        { out with m00 := some s.m00, m01 := some s.m01, m02 := some s.m02 }) := by
  obtain ⟨x, y, z, w⟩ := q
  obtain ⟨sx, sy, sz⟩ := s
  simp only at h
  have key : mat4.getScaling Real.sqrt out
      (mat4.fromRotationTranslationScale o ⟨x, y, z, w⟩ v ⟨sx, sy, sz⟩) =
      { out with m00 := some |sx|, m01 := some |sy|, m02 := some |sz| } := by
    simp only [mat4.getScaling, mat4.fromRotationTranslationScale]
    refine _vec3.ext rfl rfl rfl ?_ ?_ ?_
    · exact congrArg some (sqrt_eq_abs_of_eq_sq _ _
        (by linear_combination 4 * (y ^ 2 + z ^ 2) * sx ^ 2 * h))
    · exact congrArg some (sqrt_eq_abs_of_eq_sq _ _
        (by linear_combination 4 * (x ^ 2 + z ^ 2) * sy ^ 2 * h))
    · exact congrArg some (sqrt_eq_abs_of_eq_sq _ _
        (by linear_combination 4 * (x ^ 2 + y ^ 2) * sz ^ 2 * h))
  refine ⟨key, ?_⟩
  rintro ⟨h0, h1, h2⟩
  rw [key]
  simp only [abs_of_nonneg h0, abs_of_nonneg h1, abs_of_nonneg h2]

/-- Instance of the statement above at the unit quaternion (0, 0, 0, 1) and the
scaling vector (2, 3, 4). -/
theorem getScaling_fromRotationTranslationScale_witness :
    (0 : ℝ) ^ 2 + (0 : ℝ) ^ 2 + (0 : ℝ) ^ 2 + (1 : ℝ) ^ 2 = 1 ∧
    mat4.getScaling Real.sqrt (vec3.new 0 0 0)
        (mat4.fromRotationTranslationScale mat4.create ⟨0, 0, 0, 1⟩ ⟨5, 6, 7⟩
          (⟨2, 3, 4⟩ : Vec3Arg ℝ)) =
      { (vec3.new 0 0 0 : _vec3 ℝ) with m00 := some 2, m01 := some 3, m02 := some 4 } :=
  ⟨by norm_num,
   (getScaling_fromRotationTranslationScale mat4.create (vec3.new 0 0 0) ⟨0, 0, 0, 1⟩
      ⟨5, 6, 7⟩ ⟨2, 3, 4⟩ (by norm_num)).2 ⟨by norm_num, by norm_num, by norm_num⟩⟩

/-- C12 (code at the failing input): `mat4.getScaling(out, M)` assigns the
properties `m00`, `m01`, `m02` of out and leaves its fields x, y, z as they
were, whatever `M` is.  On a quaternion with the fields x, y, z, w and vectors
built by `vec3.new`, whose reads of `m00`, `m01`, ... yield `undefined`, the
rotation block of `mat4.fromRotationTranslationScale` holds `NaN` and the
three properties receive `Math.sqrt(NaN)`.  So with `out = vec3.new(0, 0, 0)`
and `s = vec3.new(2, 3, 4)`, out keeps x = y = z = 0 and does not become
(2, 3, 4). -/
theorem getScaling_leaves_x_y_z {α : Type} [LinearOrderedField α]
    (sqrt : JSValue α → JSValue α) (out : _vec3 (JSValue α)) (M o : _mat4 (JSValue α))
    (q : Quat (JSValue α)) (vx vy vz sx sy sz : JSValue α) :
    ((mat4.getScaling sqrt out M).x = out.x ∧ (mat4.getScaling sqrt out M).y = out.y ∧
      (mat4.getScaling sqrt out M).z = out.z) ∧
    mat4.getScaling sqrt out
        (mat4.fromRotationTranslationScale o (Quat.asArg JSValue.undefined q)
          (_vec3.asArg JSValue.undefined (vec3.new vx vy vz))
          (_vec3.asArg JSValue.undefined (vec3.new sx sy sz))) =
      { out with
        m00 := some (sqrt JSValue.NaN)
        m01 := some (sqrt JSValue.NaN)
        m02 := some (sqrt JSValue.NaN) } ∧
    (mat4.getScaling sqrt (vec3.new 0 0 0)
        (mat4.fromRotationTranslationScale o (Quat.asArg JSValue.undefined q)
          (_vec3.asArg JSValue.undefined (vec3.new vx vy vz))
          (_vec3.asArg JSValue.undefined (vec3.new 2 3 4)))).x = 0 ∧
    (mat4.getScaling sqrt (vec3.new 0 0 0)
        (mat4.fromRotationTranslationScale o (Quat.asArg JSValue.undefined q)
          (_vec3.asArg JSValue.undefined (vec3.new vx vy vz))
          (_vec3.asArg JSValue.undefined (vec3.new 2 3 4)))).x ≠
      (vec3.new 2 3 4 : _vec3 (JSValue α)).x := by
  refine ⟨⟨rfl, rfl, rfl⟩, ?_, rfl, ?_⟩
  · simp only [mat4.getScaling, mat4.fromRotationTranslationScale, Quat.asArg, _vec3.asArg,
      vec3.new, readProp, Option.getD_none, JSValue.undefined_add, JSValue.undefined_mul,
      JSValue.NaN_add, JSValue.add_NaN, JSValue.NaN_sub, JSValue.sub_NaN, JSValue.NaN_mul,
      JSValue.mul_NaN]
  · show (JSValue.num 0 : JSValue α) ≠ JSValue.num 2
    intro h
    exact two_ne_zero (JSValue.num.inj h).symm

/-- C13 (code at the failing input): `mat4.getTranslation(out, M)` assigns the
properties `m00`, `m01`, `m02` of out and leaves its fields x, y, z as they
were, whatever `M` is.  So with `out = vec3.new(0, 0, 0)` and `M` built by
`mat4.fromRotationTranslation` from `v = vec3.new(1, 2, 3)`, whatever the
reads of the absent `v.m00`, `v.m01`, `v.m02` yield, out keeps x = y = z = 0
and does not become (1, 2, 3). -/
theorem getTranslation_leaves_x_y_z {α : Type} [LinearOrderedField α]
    (out : _vec3 α) (M o : _mat4 α) (q : QuatArg α) (undef : α) :
    ((mat4.getTranslation out M).x = out.x ∧ (mat4.getTranslation out M).y = out.y ∧
      (mat4.getTranslation out M).z = out.z) ∧
    (mat4.getTranslation out M).m00 = some M.m12 ∧
    (mat4.getTranslation (vec3.new 0 0 0)
        (mat4.fromRotationTranslation o q (_vec3.asArg undef (vec3.new 1 2 3)))).x = 0 ∧
    (mat4.getTranslation (vec3.new 0 0 0)
        (mat4.fromRotationTranslation o q (_vec3.asArg undef (vec3.new 1 2 3)))).x
      ≠ (vec3.new 1 2 3 : _vec3 α).x := by
  refine ⟨⟨rfl, rfl, rfl⟩, rfl, rfl, ?_⟩
  show (0 : α) ≠ 1
  exact zero_ne_one

/-! ## Quaternion factories -/

/-- C14 (code at the failing input): for the quaternion `{x: 1, y: 0, z: 0,
w: 0}`, whatever the reads of its absent properties `m00` .. `m03` yield, the
upper-left 3x3 block of `mat4.fromQuat` is not the matrix of `mat3.fromQuat`:
`mat4.fromQuat` does not read the fields x, y, z, w. -/
theorem mat4_fromQuat_block_ne_mat3_fromQuat {α : Type} [LinearOrderedField α]
    (undef : α) (o₁ o₃ : _mat3 α) (o₂ : _mat4 α) :
    mat3.fromMat4 o₁ (mat4.fromQuat o₂ (Quat.asArg undef ⟨1, 0, 0, 0⟩)) ≠
      mat3.fromQuat o₃ ⟨1, 0, 0, 0⟩ := by
  intro h
  have h0 := congrArg _mat3.m00 h
  have h4 := congrArg _mat3.m04 h
  simp only [mat3.fromMat4, mat4.fromQuat, mat3.fromQuat, Quat.asArg, readProp,
    Option.getD_none] at h0 h4
  linarith

/-! ## Normal matrix -/

/-- C15 (counterexample): the Mat4 diag(1, 1, 1, 0) has an upper-left block of
determinant 1 and `mat3.normalFromMat4` returns null for it; the Mat4 with
m00 = m05 = m10 = 1, m03 = m12 = 1, m15 = 2 has the identity as upper-left
block, whose transposed inverse has m00 = 1, and `mat3.normalFromMat4` writes
m00 = 2. -/
theorem normalFromMat4_not_block_inverse :
    (mat3.determinant
        (mat3.fromMat4 mat3.create (⟨1, 0, 0, 0, 0, 1, 0, 0, 0, 0, 1, 0, 0, 0, 0, 0⟩ : _mat4 ℚ))
        ≠ 0 ∧
      (mat3.normalFromMat4 mat3.create
        (⟨1, 0, 0, 0, 0, 1, 0, 0, 0, 0, 1, 0, 0, 0, 0, 0⟩ : _mat4 ℚ)).null = true) ∧
    (mat3.determinant
        (mat3.fromMat4 mat3.create (⟨1, 0, 0, 1, 0, 1, 0, 0, 0, 0, 1, 0, 1, 0, 0, 2⟩ : _mat4 ℚ))
        ≠ 0 ∧
      (mat3.normalFromMat4 mat3.create
        (⟨1, 0, 0, 1, 0, 1, 0, 0, 0, 0, 1, 0, 1, 0, 0, 2⟩ : _mat4 ℚ)).out ≠
      mat3.transpose false mat3.create
        (mat3.invert mat3.create
          (mat3.fromMat4 mat3.create
            (⟨1, 0, 0, 1, 0, 1, 0, 0, 0, 0, 1, 0, 1, 0, 0, 2⟩ : _mat4 ℚ))).out) := by
  refine ⟨⟨?_, ?_⟩, ?_, ?_⟩
  · norm_num [mat3.determinant, mat3.fromMat4]
  · norm_num [mat3.normalFromMat4]
  · norm_num [mat3.determinant, mat3.fromMat4]
  · intro h
    have h0 := congrArg _mat3.m00 h
    norm_num [mat3.normalFromMat4, mat3.transpose, mat3.invert, mat3.fromMat4] at h0

/-- C15 (amended): `mat3.normalFromMat4(out, a)` returns null exactly when the
4x4 determinant `mat4.determinant(a)` is zero, leaving out as it was, and
otherwise returns out holding the upper-left 3x3 block of the transpose of
`mat4.invert(a)`.  When the fourth row of `a` is (0, 0, 0, m15) with m15
nonzero, as in every affine matrix, it returns null exactly when the
determinant of the upper-left block is zero and otherwise
`mat3.transpose(mat3.invert(mat3.fromMat4(a)))`. -/
theorem normalFromMat4_eq_block_of_transpose_invert {α : Type} [Field α] [DecidableEq α]
    (out o₁ o₂ o₃ o₄ : _mat3 α) (p₁ p₂ : _mat4 α) (a : _mat4 α) :
    ((mat3.normalFromMat4 out a).null = true ↔ mat4.determinant a = 0) ∧
    ((mat3.normalFromMat4 out a).null = true → (mat3.normalFromMat4 out a).out = out) ∧
    (mat4.determinant a ≠ 0 →
      (mat3.normalFromMat4 out a).out =
        mat3.fromMat4 o₁ (mat4.transpose false p₁ (mat4.invert p₂ a).out)) ∧
    (a.m03 = 0 ∧ a.m07 = 0 ∧ a.m11 = 0 ∧ a.m15 ≠ 0 →
      ((mat3.normalFromMat4 out a).null = true ↔
        mat3.determinant (mat3.fromMat4 o₂ a) = 0) ∧
      (mat3.determinant (mat3.fromMat4 o₂ a) ≠ 0 →
        (mat3.normalFromMat4 out a).out =
          mat3.transpose false o₃ (mat3.invert o₄ (mat3.fromMat4 o₂ a)).out)) := by
  obtain ⟨a00, a01, a02, a03, a10, a11, a12, a13, a20, a21, a22, a23, a30, a31, a32, a33⟩ := a
  have hnull : (mat3.normalFromMat4 out
      ⟨a00, a01, a02, a03, a10, a11, a12, a13, a20, a21, a22, a23, a30, a31, a32, a33⟩).null
        = true ↔
      mat4.determinant
        ⟨a00, a01, a02, a03, a10, a11, a12, a13, a20, a21, a22, a23, a30, a31, a32, a33⟩ = 0 := by
    simp only [mat3.normalFromMat4, mat4.determinant]
    split
    · next h => exact ⟨fun _ => h, fun _ => rfl⟩
    · next h => exact ⟨fun hf => Bool.noConfusion hf, fun hd => absurd hd h⟩
  refine ⟨hnull, ?_, ?_, ?_⟩
  · simp only [mat3.normalFromMat4]
    split
    · next h => exact fun _ => rfl
    · next h => exact fun hf => Bool.noConfusion hf
  · intro hd
    simp only [mat4.determinant] at hd
    simp only [mat3.normalFromMat4, mat4.invert, if_neg hd, mat3.fromMat4, mat4.transpose,
      Bool.false_eq_true, if_false]
  · rintro ⟨h03, h07, h11, h15⟩
    simp only at h03 h07 h11 h15
    subst h03 h07 h11
    have hdet : mat4.determinant
        ⟨a00, a01, a02, 0, a10, a11, a12, 0, a20, a21, a22, 0, a30, a31, a32, a33⟩ =
        a33 * mat3.determinant
          (mat3.fromMat4 o₂
            ⟨a00, a01, a02, 0, a10, a11, a12, 0, a20, a21, a22, 0, a30, a31, a32, a33⟩) := by
      simp only [mat4.determinant, mat3.determinant, mat3.fromMat4]
      ring
    constructor
    · rw [hnull, hdet, mul_eq_zero]
      exact ⟨fun h => h.resolve_left h15, Or.inr⟩
    · intro hd3
      have hd4 : mat4.determinant
          ⟨a00, a01, a02, 0, a10, a11, a12, 0, a20, a21, a22, 0, a30, a31, a32, a33⟩ ≠ 0 := by
        rw [hdet]
        exact mul_ne_zero h15 hd3
      simp only [mat4.determinant] at hd4
      simp only [mat3.determinant, mat3.fromMat4] at hd3
      have e : (a00 * a11 - a01 * a10) * (a22 * a33 - 0 * a32) -
            (a00 * a12 - a02 * a10) * (a21 * a33 - 0 * a31) +
            (a00 * 0 - 0 * a10) * (a21 * a32 - a22 * a31) +
            (a01 * a12 - a02 * a11) * (a20 * a33 - 0 * a30) -
            (a01 * 0 - 0 * a11) * (a20 * a32 - a22 * a30) +
            (a02 * 0 - 0 * a12) * (a20 * a31 - a21 * a30) =
          a33 * (a00 * (a22 * a11 - a12 * a21) + a01 * (-a22 * a10 + a12 * a20) +
            a02 * (a21 * a10 - a11 * a20)) := by ring
      simp only [mat3.normalFromMat4, if_neg hd4, mat3.invert, mat3.fromMat4, if_neg hd3,
        mat3.transpose, Bool.false_eq_true, if_false]
      rw [e]
      generalize a00 * (a22 * a11 - a12 * a21) + a01 * (-a22 * a10 + a12 * a20) +
        a02 * (a21 * a10 - a11 * a20) = d at hd3 ⊢
      congr 1 <;> field_simp <;> ring

/-- Witness of C15 (amended) at an affine matrix of determinant 2. -/
theorem normalFromMat4_eq_block_of_transpose_invert_witness :
    (mat3.normalFromMat4 mat3.create
        (⟨2, 0, 0, 0, 0, 1, 0, 0, 1, 0, 1, 0, 3, 4, 5, 1⟩ : _mat4 ℚ)).out =
      mat3.fromMat4 mat3.create (mat4.transpose false mat4.create
        (mat4.invert mat4.create
          (⟨2, 0, 0, 0, 0, 1, 0, 0, 1, 0, 1, 0, 3, 4, 5, 1⟩ : _mat4 ℚ)).out) ∧
    (mat3.normalFromMat4 mat3.create
        (⟨2, 0, 0, 0, 0, 1, 0, 0, 1, 0, 1, 0, 3, 4, 5, 1⟩ : _mat4 ℚ)).out =
      mat3.transpose false mat3.create
        (mat3.invert mat3.create
          (mat3.fromMat4 mat3.create
            (⟨2, 0, 0, 0, 0, 1, 0, 0, 1, 0, 1, 0, 3, 4, 5, 1⟩ : _mat4 ℚ))).out ∧
    ((mat3.normalFromMat4 (⟨7, 7, 7, 7, 7, 7, 7, 7, 7⟩ : _mat3 ℚ)
        ⟨1, 0, 0, 0, 0, 1, 0, 0, 0, 0, 1, 0, 0, 0, 0, 0⟩).null = true ∧
      (mat3.normalFromMat4 (⟨7, 7, 7, 7, 7, 7, 7, 7, 7⟩ : _mat3 ℚ)
        ⟨1, 0, 0, 0, 0, 1, 0, 0, 0, 0, 1, 0, 0, 0, 0, 0⟩).out = ⟨7, 7, 7, 7, 7, 7, 7, 7, 7⟩) :=
  have h := normalFromMat4_eq_block_of_transpose_invert
    mat3.create mat3.create mat3.create mat3.create mat3.create mat4.create mat4.create
    (⟨2, 0, 0, 0, 0, 1, 0, 0, 1, 0, 1, 0, 3, 4, 5, 1⟩ : _mat4 ℚ)
  have k := normalFromMat4_eq_block_of_transpose_invert
    (⟨7, 7, 7, 7, 7, 7, 7, 7, 7⟩ : _mat3 ℚ) mat3.create mat3.create mat3.create mat3.create
    mat4.create mat4.create ⟨1, 0, 0, 0, 0, 1, 0, 0, 0, 0, 1, 0, 0, 0, 0, 0⟩
  have kn := k.1.mpr (by norm_num [mat4.determinant])
  ⟨h.2.2.1 (by norm_num [mat4.determinant]),
   (h.2.2.2 ⟨rfl, rfl, rfl, by norm_num⟩).2 (by norm_num [mat3.determinant, mat3.fromMat4]),
   kn, k.2.1 kn⟩

/-! ## Degenerate inputs -/

/-- On an axis object that carries the properties `m00`, `m01`, `m02` which the
code reads, over the reals with the real square root and absolute value:
`mat4.rotate(out, a, rad, axis)` and `mat4.fromRotation(out, rad, axis)`
return null exactly when the Euclidean length of (m00, m01, m02) is below
`EPSILON`, and then no field of out has been written (in place, out is `a`). -/
theorem rotate_null_iff_axis_short (sin cos : ℝ → ℝ) (inPlace : Bool) (out a : _mat4 ℝ)
    (rad : ℝ) (axis : Vec3Arg ℝ) :
    ((mat4.rotate sin cos Real.sqrt (fun t => |t|) inPlace out a rad axis).null = true ↔
      Real.sqrt (axis.m00 ^ 2 + axis.m01 ^ 2 + axis.m02 ^ 2) < EPSILON) ∧
    ((mat4.rotate sin cos Real.sqrt (fun t => |t|) inPlace out a rad axis).null = true →
      (mat4.rotate sin cos Real.sqrt (fun t => |t|) inPlace out a rad axis).out
        = if inPlace then a else out) ∧
    ((mat4.fromRotation sin cos Real.sqrt (fun t => |t|) out rad axis).null = true ↔
      Real.sqrt (axis.m00 ^ 2 + axis.m01 ^ 2 + axis.m02 ^ 2) < EPSILON) ∧
    ((mat4.fromRotation sin cos Real.sqrt (fun t => |t|) out rad axis).null = true →
      (mat4.fromRotation sin cos Real.sqrt (fun t => |t|) out rad axis).out = out) := by
  have e : axis.m00 ^ 2 + axis.m01 ^ 2 + axis.m02 ^ 2 =
      axis.m00 * axis.m00 + axis.m01 * axis.m01 + axis.m02 * axis.m02 := by ring
  rw [e]
  have habs : |Real.sqrt (axis.m00 * axis.m00 + axis.m01 * axis.m01 + axis.m02 * axis.m02)| =
      Real.sqrt (axis.m00 * axis.m00 + axis.m01 * axis.m01 + axis.m02 * axis.m02) :=
    abs_of_nonneg (Real.sqrt_nonneg _)
  refine ⟨?_, ?_, ?_, ?_⟩
  · simp only [mat4.rotate, habs]
    split
    · next h => exact ⟨fun _ => h, fun _ => rfl⟩
    · next h => exact ⟨fun hf => Bool.noConfusion hf, fun hd => absurd hd h⟩
  · simp only [mat4.rotate]
    split
    · next h => exact fun _ => rfl
    · next h => exact fun hf => Bool.noConfusion hf
  · simp only [mat4.fromRotation, habs]
    split
    · next h => exact ⟨fun _ => h, fun _ => rfl⟩
    · next h => exact ⟨fun hf => Bool.noConfusion hf, fun hd => absurd hd h⟩
  · simp only [mat4.fromRotation]
    split
    · next h => exact fun _ => rfl
    · next h => exact fun hf => Bool.noConfusion hf

/-- Instance of the statement above: an axis object with m00 = m01 = m02 = 0 is
refused by both functions and out, preloaded with sevens, is left as it was. -/
theorem rotate_null_iff_axis_short_witness :
    ((mat4.rotate Real.sin Real.cos Real.sqrt (fun t => |t|) false
        ⟨7, 7, 7, 7, 7, 7, 7, 7, 7, 7, 7, 7, 7, 7, 7, 7⟩ mat4.create 1 ⟨0, 0, 0⟩).null = true ∧
      (mat4.rotate Real.sin Real.cos Real.sqrt (fun t => |t|) false
        ⟨7, 7, 7, 7, 7, 7, 7, 7, 7, 7, 7, 7, 7, 7, 7, 7⟩ mat4.create 1 ⟨0, 0, 0⟩).out
        = ⟨7, 7, 7, 7, 7, 7, 7, 7, 7, 7, 7, 7, 7, 7, 7, 7⟩) ∧
    ((mat4.fromRotation Real.sin Real.cos Real.sqrt (fun t => |t|)
        ⟨7, 7, 7, 7, 7, 7, 7, 7, 7, 7, 7, 7, 7, 7, 7, 7⟩ 1 ⟨0, 0, 0⟩).null = true ∧
      (mat4.fromRotation Real.sin Real.cos Real.sqrt (fun t => |t|)
        ⟨7, 7, 7, 7, 7, 7, 7, 7, 7, 7, 7, 7, 7, 7, 7, 7⟩ 1 ⟨0, 0, 0⟩).out
        = ⟨7, 7, 7, 7, 7, 7, 7, 7, 7, 7, 7, 7, 7, 7, 7, 7⟩) :=
  have h := rotate_null_iff_axis_short Real.sin Real.cos false
    ⟨7, 7, 7, 7, 7, 7, 7, 7, 7, 7, 7, 7, 7, 7, 7, 7⟩ mat4.create 1 ⟨0, 0, 0⟩
  have hs : Real.sqrt ((0 : ℝ) ^ 2 + (0 : ℝ) ^ 2 + (0 : ℝ) ^ 2) < EPSILON := by
    norm_num [EPSILON]
  have n₁ := h.1.mpr hs
  have n₂ := h.2.2.1.mpr hs
  ⟨⟨n₁, h.2.1 n₁⟩, ⟨n₂, h.2.2.2 n₂⟩⟩

/-- C16 (code at the failing input): on an axis built by `vec3.new`, the zero
axis included, the reads of `m00`, `m01`, `m02` yield `undefined`, the length
that `mat4.rotate` and `mat4.fromRotation` compute is `NaN` and the test
`Math.abs(len) < EPSILON` is false: neither function returns null, and both
write `NaN` into out.  `Math.sqrt` and `Math.abs` are any functions that send
`NaN` to `NaN`. -/
theorem rotate_vec3_axis_not_null {α : Type} [Zero α] [One α] [Add α] [Sub α] [Mul α]
    [Div α] [DecidableEq α] [LT α] [DecidableRel (fun a b : α => a < b)] [OfScientific α]
    (sin cos sqrt abs : JSValue α → JSValue α)
    (hsqrt : sqrt JSValue.NaN = JSValue.NaN) (habs : abs JSValue.NaN = JSValue.NaN)
    (inPlace : Bool) (out a : _mat4 (JSValue α)) (rad x y z : JSValue α) :
    ((mat4.rotate sin cos sqrt abs inPlace out a rad
        (_vec3.asArg JSValue.undefined (vec3.new x y z))).null = false ∧
      (mat4.rotate sin cos sqrt abs inPlace out a rad
        (_vec3.asArg JSValue.undefined (vec3.new x y z))).out.m00 = JSValue.NaN) ∧
    ((mat4.fromRotation sin cos sqrt abs out rad
        (_vec3.asArg JSValue.undefined (vec3.new x y z))).null = false ∧
      (mat4.fromRotation sin cos sqrt abs out rad
        (_vec3.asArg JSValue.undefined (vec3.new x y z))).out.m00 = JSValue.NaN) := by
  refine ⟨?_, ?_⟩
  · cases inPlace <;>
      simp only [mat4.rotate, _vec3.asArg, readProp, vec3.new, Option.getD_none,
        JSValue.mul_undefined, JSValue.NaN_add, JSValue.add_NaN, JSValue.mul_NaN,
        JSValue.NaN_mul, JSValue.undefined_mul, JSValue.div_NaN, hsqrt, habs, JSValue.NaN_lt,
        if_false, if_true, Bool.false_eq_true, and_self]
  · simp only [mat4.fromRotation, _vec3.asArg, readProp, vec3.new, Option.getD_none,
      JSValue.mul_undefined, JSValue.NaN_add, JSValue.add_NaN, JSValue.mul_NaN,
      JSValue.NaN_mul, JSValue.undefined_mul, JSValue.div_NaN, hsqrt, habs, JSValue.NaN_lt,
      if_false, and_self]

/-- Instance of the statement on C16 at the zero axis `vec3.new(0, 0, 0)`, with
the identity of the rationals for every function of `Math`. -/
theorem rotate_vec3_axis_not_null_witness :
    ((mat4.rotate (fun t => t) (fun t => t) (fun t => t) (fun t => t) false mat4.create
        mat4.create (1 : JSValue ℚ)
        (_vec3.asArg JSValue.undefined (vec3.new 0 0 0))).null = false ∧
      (mat4.rotate (fun t => t) (fun t => t) (fun t => t) (fun t => t) false mat4.create
        mat4.create (1 : JSValue ℚ)
        (_vec3.asArg JSValue.undefined (vec3.new 0 0 0))).out.m00 = JSValue.NaN) ∧
    ((mat4.fromRotation (fun t => t) (fun t => t) (fun t => t) (fun t => t) mat4.create
        (1 : JSValue ℚ) (_vec3.asArg JSValue.undefined (vec3.new 0 0 0))).null = false ∧
      (mat4.fromRotation (fun t => t) (fun t => t) (fun t => t) (fun t => t) mat4.create
        (1 : JSValue ℚ) (_vec3.asArg JSValue.undefined (vec3.new 0 0 0))).out.m00 =
        JSValue.NaN) :=
  rotate_vec3_axis_not_null (fun t => t) (fun t => t) (fun t => t) (fun t => t) rfl rfl false
    mat4.create mat4.create 1 0 0 0

/-- C17: when eye and center are within `EPSILON` of each other in all three
coordinates, `mat4.lookAt(out, eye, center, up)` returns out set to the
identity matrix, whatever `up` and the prior content of out are; in
particular whenever center is eye. -/
theorem lookAt_identity_of_close {α : Type} [LinearOrderedField α] (sqrt : α → α)
    (out : _mat4 α) (eye center up : _vec3 α)
    (hx : |eye.x - center.x| < EPSILON) (hy : |eye.y - center.y| < EPSILON)
    (hz : |eye.z - center.z| < EPSILON) :
    mat4.lookAt sqrt out eye center up = mat4.create ∧
    mat4.lookAt sqrt out eye center up = mat4.identity out ∧
    mat4.lookAt sqrt out eye eye up = mat4.create := by
  have hpos : (0 : α) < EPSILON := by
    unfold EPSILON
    norm_num
  have hself : ∀ t : α, |t - t| < EPSILON := by
    intro t
    rw [sub_self, abs_zero]
    exact hpos
  refine ⟨?_, ?_, ?_⟩
  · simp only [mat4.lookAt, if_pos (And.intro hx (And.intro hy hz))]
    rfl
  · simp only [mat4.lookAt, if_pos (And.intro hx (And.intro hy hz))]
  · simp only [mat4.lookAt, if_pos (And.intro (hself eye.x) (And.intro (hself eye.y) (hself eye.z)))]
    rfl

/-- Witness of C17 with center equal to eye and out preloaded with sevens. -/
theorem lookAt_identity_of_close_witness :
    mat4.lookAt (fun t : ℚ => t) ⟨7, 7, 7, 7, 7, 7, 7, 7, 7, 7, 7, 7, 7, 7, 7, 7⟩
        (vec3.new 1 2 3) (vec3.new 1 2 3) (vec3.new 0 1 0) = mat4.create ∧
    mat4.lookAt (fun t : ℚ => t) ⟨7, 7, 7, 7, 7, 7, 7, 7, 7, 7, 7, 7, 7, 7, 7, 7⟩
        (vec3.new 1 2 3) (vec3.new 1 2 3) (vec3.new 0 1 0)
      = mat4.identity ⟨7, 7, 7, 7, 7, 7, 7, 7, 7, 7, 7, 7, 7, 7, 7, 7⟩ ∧
    mat4.lookAt (fun t : ℚ => t) ⟨7, 7, 7, 7, 7, 7, 7, 7, 7, 7, 7, 7, 7, 7, 7, 7⟩
        (vec3.new 1 2 3) (vec3.new 1 2 3) (vec3.new 0 1 0) = mat4.create :=
  lookAt_identity_of_close (fun t : ℚ => t) ⟨7, 7, 7, 7, 7, 7, 7, 7, 7, 7, 7, 7, 7, 7, 7, 7⟩
    (vec3.new 1 2 3) (vec3.new 1 2 3) (vec3.new 0 1 0)
    (by norm_num [vec3.new, EPSILON]) (by norm_num [vec3.new, EPSILON])
    (by norm_num [vec3.new, EPSILON])

/-! ## lookAt -/

/-- The matrix that `mat4.lookAt` writes when eye and center are not within
`EPSILON` of each other, in terms of the values its locals take: `L` the first
`len`, `z0 z1 z2` the normalised view direction, `a0 a1 a2` the cross product
of up and z, `X` its length (the second `len`), `xs` the triple x0, x1, x2
after the first test, `b0 b1 b2` the cross product of z and x, `Y` its length
(the third `len`), `ys` the triple y0, y1, y2 after the second test. -/
theorem lookAt_far_eq (out : _mat4 ℝ) (eye center up : _vec3 ℝ)
    (hfar : ¬(|eye.x - center.x| < EPSILON ∧ |eye.y - center.y| < EPSILON ∧
      |eye.z - center.z| < EPSILON))
    (L z0 z1 z2 a0 a1 a2 X : ℝ) (xs : ℝ × ℝ × ℝ) (b0 b1 b2 Y : ℝ) (ys : ℝ × ℝ × ℝ)
    (hL : L = 1 / Real.sqrt ((eye.x - center.x) * (eye.x - center.x) +
      (eye.y - center.y) * (eye.y - center.y) + (eye.z - center.z) * (eye.z - center.z)))
    (hz0 : z0 = (eye.x - center.x) * L) (hz1 : z1 = (eye.y - center.y) * L)
    (hz2 : z2 = (eye.z - center.z) * L)
    (ha0 : a0 = up.y * z2 - up.z * z1) (ha1 : a1 = up.z * z0 - up.x * z2)
    (ha2 : a2 = up.x * z1 - up.y * z0)
    (hX : X = Real.sqrt (a0 * a0 + a1 * a1 + a2 * a2))
    (hxs : xs = if X = 0 then (0, 0, 0) else (a0 * (1 / X), a1 * (1 / X), a2 * (1 / X)))
    (hb0 : b0 = z1 * xs.2.2 - z2 * xs.2.1) (hb1 : b1 = z2 * xs.1 - z0 * xs.2.2)
    (hb2 : b2 = z0 * xs.2.1 - z1 * xs.1)
    (hY : Y = Real.sqrt (b0 * b0 + b1 * b1 + b2 * b2))
    (hys : ys = if Y = 0 then (0, 0, 0) else (b0 * (1 / Y), b1 * (1 / Y), b2 * (1 / Y))) :
    mat4.lookAt Real.sqrt out eye center up =
      ⟨xs.1, ys.1, z0, 0, xs.2.1, ys.2.1, z1, 0, xs.2.2, ys.2.2, z2, 0,
        -(xs.1 * eye.x + xs.2.1 * eye.y + xs.2.2 * eye.z),
        -(ys.1 * eye.x + ys.2.1 * eye.y + ys.2.2 * eye.z),
        -(z0 * eye.x + z1 * eye.y + z2 * eye.z), 1⟩ := by
  subst hys hY hb2 hb1 hb0 hxs hX ha2 ha1 ha0 hz2 hz1 hz0 hL
  exact if_neg hfar

/-- Over exact real arithmetic, with the real square root: when eye and center
are not within `EPSILON` of each other and up is parallel to the view
direction (the cross product of up and eye - center is zero), the length that
`mat4.lookAt` tests before normalising its horizontal vector is exactly zero,
so the zeroing branch runs instead of the division, and the matrix written
has m00 = m04 = m08 = 0.  The statement rests on products and quotients that
are exact: it says nothing of the same test on rounded doubles. -/
theorem lookAt_parallel_up (out : _mat4 ℝ) (eye center up : _vec3 ℝ)
    (hfar : ¬(|eye.x - center.x| < EPSILON ∧ |eye.y - center.y| < EPSILON ∧
      |eye.z - center.z| < EPSILON))
    (hpar : up.y * (eye.z - center.z) - up.z * (eye.y - center.y) = 0 ∧
      up.z * (eye.x - center.x) - up.x * (eye.z - center.z) = 0 ∧
      up.x * (eye.y - center.y) - up.y * (eye.x - center.x) = 0) :
    ((mat4.lookAt Real.sqrt out eye center up).m00 = 0 ∧
      (mat4.lookAt Real.sqrt out eye center up).m04 = 0 ∧
      (mat4.lookAt Real.sqrt out eye center up).m08 = 0) ∧
    ∀ L z0 z1 z2 x0 x1 x2 : ℝ,
      L = 1 / Real.sqrt ((eye.x - center.x) * (eye.x - center.x) +
        (eye.y - center.y) * (eye.y - center.y) + (eye.z - center.z) * (eye.z - center.z)) →
      z0 = (eye.x - center.x) * L → z1 = (eye.y - center.y) * L →
      z2 = (eye.z - center.z) * L →
      x0 = up.y * z2 - up.z * z1 → x1 = up.z * z0 - up.x * z2 → x2 = up.x * z1 - up.y * z0 →
      Real.sqrt (x0 * x0 + x1 * x1 + x2 * x2) = 0 := by
  have key : ∀ L z0 z1 z2 x0 x1 x2 : ℝ,
      z0 = (eye.x - center.x) * L → z1 = (eye.y - center.y) * L →
      z2 = (eye.z - center.z) * L →
      x0 = up.y * z2 - up.z * z1 → x1 = up.z * z0 - up.x * z2 → x2 = up.x * z1 - up.y * z0 →
      Real.sqrt (x0 * x0 + x1 * x1 + x2 * x2) = 0 := by
    intro L z0 z1 z2 x0 x1 x2 hz0 hz1 hz2 hx0 hx1 hx2
    have e0 : x0 = 0 := by rw [hx0, hz2, hz1]; linear_combination L * hpar.1
    have e1 : x1 = 0 := by rw [hx1, hz0, hz2]; linear_combination L * hpar.2.1
    have e2 : x2 = 0 := by rw [hx2, hz1, hz0]; linear_combination L * hpar.2.2
    rw [e0, e1, e2]
    norm_num
  refine ⟨?_, fun L z0 z1 z2 x0 x1 x2 _ => key L z0 z1 z2 x0 x1 x2⟩
  have hX := key (1 / Real.sqrt ((eye.x - center.x) * (eye.x - center.x) +
    (eye.y - center.y) * (eye.y - center.y) + (eye.z - center.z) * (eye.z - center.z)))
    _ _ _ _ _ _ rfl rfl rfl rfl rfl rfl
  rw [lookAt_far_eq out eye center up hfar _ _ _ _ _ _ _ _ _ _ _ _ _ _
    rfl rfl rfl rfl rfl rfl rfl rfl rfl rfl rfl rfl rfl rfl]
  simp only [hX, if_true]
  exact ⟨trivial, trivial, trivial⟩

/-- Instance of the statement above with eye (0, 0, 1), center the origin and
up (0, 0, 2). -/
theorem lookAt_parallel_up_witness :
    (mat4.lookAt Real.sqrt mat4.create (vec3.new 0 0 1) (vec3.new 0 0 0) (vec3.new 0 0 2)).m00
      = 0 ∧
    (mat4.lookAt Real.sqrt mat4.create (vec3.new 0 0 1) (vec3.new 0 0 0) (vec3.new 0 0 2)).m04
      = 0 ∧
    (mat4.lookAt Real.sqrt mat4.create (vec3.new 0 0 1) (vec3.new 0 0 0) (vec3.new 0 0 2)).m08
      = 0 :=
  (lookAt_parallel_up mat4.create (vec3.new 0 0 1) (vec3.new 0 0 0) (vec3.new 0 0 2)
    (by norm_num [vec3.new, EPSILON]) (by norm_num [vec3.new])).1

/-- Three reals whose squares do not sum to a positive number are all zero. -/
theorem eq_zero_of_sum_mul_self_not_pos (a b c : ℝ) (h : ¬0 < a * a + b * b + c * c) :
    a = 0 ∧ b = 0 ∧ c = 0 := by
  have ha := mul_self_nonneg a
  have hb := mul_self_nonneg b
  have hc := mul_self_nonneg c
  have hle : a * a + b * b + c * c ≤ 0 := not_lt.mp h
  refine ⟨?_, ?_, ?_⟩
  · exact mul_self_eq_zero.mp (by linarith)
  · exact mul_self_eq_zero.mp (by linarith)
  · exact mul_self_eq_zero.mp (by linarith)

/-- C18: when eye and center are not within `EPSILON` of each other and up is
not parallel to eye - center (their cross product is not zero), the matrix
that `mat4.lookAt` writes holds an orthonormal basis: x = (m00, m04, m08),
y = (m01, m05, m09) and z = (m02, m06, m10) have length 1 and are pairwise
orthogonal, over the reals. -/
theorem lookAt_orthonormal (out : _mat4 ℝ) (eye center up : _vec3 ℝ)
    (hfar : ¬(|eye.x - center.x| < EPSILON ∧ |eye.y - center.y| < EPSILON ∧
      |eye.z - center.z| < EPSILON))
    (hnpar : ¬(up.y * (eye.z - center.z) - up.z * (eye.y - center.y) = 0 ∧
      up.z * (eye.x - center.x) - up.x * (eye.z - center.z) = 0 ∧
      up.x * (eye.y - center.y) - up.y * (eye.x - center.x) = 0))
    (M : _mat4 ℝ) (hM : M = mat4.lookAt Real.sqrt out eye center up) :
    (Real.sqrt (M.m00 ^ 2 + M.m04 ^ 2 + M.m08 ^ 2) = 1 ∧
      Real.sqrt (M.m01 ^ 2 + M.m05 ^ 2 + M.m09 ^ 2) = 1 ∧
      Real.sqrt (M.m02 ^ 2 + M.m06 ^ 2 + M.m10 ^ 2) = 1) ∧
    (M.m00 * M.m01 + M.m04 * M.m05 + M.m08 * M.m09 = 0 ∧
      M.m00 * M.m02 + M.m04 * M.m06 + M.m08 * M.m10 = 0 ∧
      M.m01 * M.m02 + M.m05 * M.m06 + M.m09 * M.m10 = 0) := by
  -- the view direction is not zero
  have hpos : (0 : ℝ) < EPSILON := by unfold EPSILON; norm_num
  have hD : 0 < (eye.x - center.x) * (eye.x - center.x) +
      (eye.y - center.y) * (eye.y - center.y) + (eye.z - center.z) * (eye.z - center.z) := by
    by_contra hc
    apply hfar
    obtain ⟨h0, h1, h2⟩ := eq_zero_of_sum_mul_self_not_pos _ _ _ hc
    rw [h0, h1, h2, abs_zero]
    exact ⟨hpos, hpos, hpos⟩
  -- the locals of the source
  obtain ⟨S, hS⟩ : ∃ S, S = Real.sqrt ((eye.x - center.x) * (eye.x - center.x) +
      (eye.y - center.y) * (eye.y - center.y) + (eye.z - center.z) * (eye.z - center.z)) :=
    ⟨_, rfl⟩
  obtain ⟨L, hL⟩ : ∃ L, L = 1 / S := ⟨_, rfl⟩
  obtain ⟨z0, hz0⟩ : ∃ z0, z0 = (eye.x - center.x) * L := ⟨_, rfl⟩
  obtain ⟨z1, hz1⟩ : ∃ z1, z1 = (eye.y - center.y) * L := ⟨_, rfl⟩
  obtain ⟨z2, hz2⟩ : ∃ z2, z2 = (eye.z - center.z) * L := ⟨_, rfl⟩
  obtain ⟨a0, ha0⟩ : ∃ a0, a0 = up.y * z2 - up.z * z1 := ⟨_, rfl⟩
  obtain ⟨a1, ha1⟩ : ∃ a1, a1 = up.z * z0 - up.x * z2 := ⟨_, rfl⟩
  obtain ⟨a2, ha2⟩ : ∃ a2, a2 = up.x * z1 - up.y * z0 := ⟨_, rfl⟩
  obtain ⟨X, hX⟩ : ∃ X, X = Real.sqrt (a0 * a0 + a1 * a1 + a2 * a2) := ⟨_, rfl⟩
  obtain ⟨xs, hxs⟩ : ∃ xs : ℝ × ℝ × ℝ,
      xs = if X = 0 then (0, 0, 0) else (a0 * (1 / X), a1 * (1 / X), a2 * (1 / X)) := ⟨_, rfl⟩
  obtain ⟨b0, hb0⟩ : ∃ b0, b0 = z1 * xs.2.2 - z2 * xs.2.1 := ⟨_, rfl⟩
  obtain ⟨b1, hb1⟩ : ∃ b1, b1 = z2 * xs.1 - z0 * xs.2.2 := ⟨_, rfl⟩
  obtain ⟨b2, hb2⟩ : ∃ b2, b2 = z0 * xs.2.1 - z1 * xs.1 := ⟨_, rfl⟩
  obtain ⟨Y, hY⟩ : ∃ Y, Y = Real.sqrt (b0 * b0 + b1 * b1 + b2 * b2) := ⟨_, rfl⟩
  obtain ⟨ys, hys⟩ : ∃ ys : ℝ × ℝ × ℝ,
      ys = if Y = 0 then (0, 0, 0) else (b0 * (1 / Y), b1 * (1 / Y), b2 * (1 / Y)) := ⟨_, rfl⟩
  rw [lookAt_far_eq out eye center up hfar L z0 z1 z2 a0 a1 a2 X xs b0 b1 b2 Y ys
    (by rw [hL, hS]) hz0 hz1 hz2 ha0 ha1 ha2 hX hxs hb0 hb1 hb2 hY hys] at hM
  subst hM
  simp only
  -- z is a unit vector
  have hSpos : 0 < S := by rw [hS]; exact Real.sqrt_pos.mpr hD
  have hSS : S * S = (eye.x - center.x) * (eye.x - center.x) +
      (eye.y - center.y) * (eye.y - center.y) + (eye.z - center.z) * (eye.z - center.z) := by
    rw [hS]; exact Real.mul_self_sqrt hD.le
  have hLS : L * S = 1 := by rw [hL]; field_simp
  have hLpos : 0 < L := by rw [hL]; positivity
  have hzz : z0 * z0 + z1 * z1 + z2 * z2 = 1 := by
    rw [hz0, hz1, hz2]
    linear_combination (L * L) * (-hSS) + (L * S + 1) * hLS
  -- the cross product of up and z is not zero
  have hA : 0 < a0 * a0 + a1 * a1 + a2 * a2 := by
    by_contra hc
    apply hnpar
    obtain ⟨e0, e1, e2⟩ := eq_zero_of_sum_mul_self_not_pos _ _ _ hc
    have hLne : L ≠ 0 := ne_of_gt hLpos
    refine ⟨?_, ?_, ?_⟩
    · have h := e0
      rw [ha0, hz2, hz1] at h
      have h2 : L * (up.y * (eye.z - center.z) - up.z * (eye.y - center.y)) = 0 := by
        linear_combination h
      exact (mul_eq_zero.mp h2).resolve_left hLne
    · have h := e1
      rw [ha1, hz0, hz2] at h
      have h2 : L * (up.z * (eye.x - center.x) - up.x * (eye.z - center.z)) = 0 := by
        linear_combination h
      exact (mul_eq_zero.mp h2).resolve_left hLne
    · have h := e2
      rw [ha2, hz1, hz0] at h
      have h2 : L * (up.x * (eye.y - center.y) - up.y * (eye.x - center.x)) = 0 := by
        linear_combination h
      exact (mul_eq_zero.mp h2).resolve_left hLne
  have hXpos : 0 < X := by rw [hX]; exact Real.sqrt_pos.mpr hA
  have hXX : X * X = a0 * a0 + a1 * a1 + a2 * a2 := by
    rw [hX]; exact Real.mul_self_sqrt hA.le
  have hXne : X ≠ 0 := ne_of_gt hXpos
  rw [if_neg hXne] at hxs
  obtain ⟨K, hK⟩ : ∃ K, K = 1 / X := ⟨_, rfl⟩
  have hKX : K * X = 1 := by rw [hK]; field_simp
  have hx0 : xs.1 = a0 * K := by rw [hxs, hK]
  have hx1 : xs.2.1 = a1 * K := by rw [hxs, hK]
  have hx2 : xs.2.2 = a2 * K := by rw [hxs, hK]
  have hxx : xs.1 * xs.1 + xs.2.1 * xs.2.1 + xs.2.2 * xs.2.2 = 1 := by
    rw [hx0, hx1, hx2]
    linear_combination (K * K) * (-hXX) + (K * X + 1) * hKX
  have hxz : xs.1 * z0 + xs.2.1 * z1 + xs.2.2 * z2 = 0 := by
    rw [hx0, hx1, hx2, ha0, ha1, ha2]
    ring
  -- the cross product of z and x is a unit vector
  have hbb : b0 * b0 + b1 * b1 + b2 * b2 = 1 := by
    rw [hb0, hb1, hb2]
    linear_combination (xs.1 * xs.1 + xs.2.1 * xs.2.1 + xs.2.2 * xs.2.2) * hzz + hxx -
      (xs.1 * z0 + xs.2.1 * z1 + xs.2.2 * z2) * hxz
  have hY1 : Y = 1 := by rw [hY, hbb, Real.sqrt_one]
  rw [hY1, if_neg one_ne_zero] at hys
  have hy0 : ys.1 = b0 := by rw [hys]; simp
  have hy1 : ys.2.1 = b1 := by rw [hys]; simp
  have hy2 : ys.2.2 = b2 := by rw [hys]; simp
  have hyx : xs.1 * b0 + xs.2.1 * b1 + xs.2.2 * b2 = 0 := by
    rw [hb0, hb1, hb2]; ring
  have hyz : b0 * z0 + b1 * z1 + b2 * z2 = 0 := by
    rw [hb0, hb1, hb2]; ring
  rw [hy0, hy1, hy2]
  refine ⟨⟨?_, ?_, ?_⟩, ?_, ?_, ?_⟩
  · rw [show xs.1 ^ 2 + xs.2.1 ^ 2 + xs.2.2 ^ 2 = 1 by linear_combination hxx, Real.sqrt_one]
  · rw [show b0 ^ 2 + b1 ^ 2 + b2 ^ 2 = 1 by linear_combination hbb, Real.sqrt_one]
  · rw [show z0 ^ 2 + z1 ^ 2 + z2 ^ 2 = 1 by linear_combination hzz, Real.sqrt_one]
  · exact hyx
  · exact hxz
  · exact hyz

/-- Witness of C18 with eye (0, 0, 1), center the origin and up (0, 1, 0). -/
theorem lookAt_orthonormal_witness :
    (Real.sqrt
        ((mat4.lookAt Real.sqrt mat4.create (vec3.new 0 0 1) (vec3.new 0 0 0)
            (vec3.new 0 1 0)).m00 ^ 2 +
          (mat4.lookAt Real.sqrt mat4.create (vec3.new 0 0 1) (vec3.new 0 0 0)
            (vec3.new 0 1 0)).m04 ^ 2 +
          (mat4.lookAt Real.sqrt mat4.create (vec3.new 0 0 1) (vec3.new 0 0 0)
            (vec3.new 0 1 0)).m08 ^ 2) = 1) :=
  (lookAt_orthonormal mat4.create (vec3.new 0 0 1) (vec3.new 0 0 0) (vec3.new 0 1 0)
    (by norm_num [vec3.new, EPSILON]) (by norm_num [vec3.new]) _ rfl).1.1

/-! ## normalize -/

/-- C20: for vec2, vec3 and vec4, when the squared length of `a` is exactly
zero, `normalize(out, a)` returns out with every component as it was before
the call. -/
theorem normalize_zero_leaves_out {α : Type} [LinearOrderedField α] (sqrt : α → α)
    (o₂ a₂ : _vec2 α) (o₃ a₃ : _vec3 α) (o₄ a₄ : _vec4 α) :
    (a₂.x * a₂.x + a₂.y * a₂.y = 0 → vec2.normalize sqrt o₂ a₂ = o₂) ∧
    (a₃.x * a₃.x + a₃.y * a₃.y + a₃.z * a₃.z = 0 → vec3.normalize sqrt o₃ a₃ = o₃) ∧
    (a₄.x * a₄.x + a₄.y * a₄.y + a₄.z * a₄.z + a₄.w * a₄.w = 0 →
      vec4.normalize sqrt o₄ a₄ = o₄) := by
  refine ⟨fun h => ?_, fun h => ?_, fun h => ?_⟩
  · simp only [vec2.normalize, h, gt_iff_lt, lt_self_iff_false, if_false]
  · simp only [vec3.normalize, h, gt_iff_lt, lt_self_iff_false, if_false]
  · simp only [vec4.normalize, h, gt_iff_lt, lt_self_iff_false, if_false]

/-- Witness of C20: normalizing the zero vector into an out preloaded with
sevens leaves the sevens. -/
theorem normalize_zero_leaves_out_witness :
    vec2.normalize (fun t : ℚ => t) ⟨7, 7⟩ ⟨0, 0⟩ = ⟨7, 7⟩ ∧
    vec3.normalize (fun t : ℚ => t) (vec3.new 7 7 7) (vec3.new 0 0 0) = vec3.new 7 7 7 ∧
    vec4.normalize (fun t : ℚ => t) ⟨7, 7, 7, 7⟩ ⟨0, 0, 0, 0⟩ = ⟨7, 7, 7, 7⟩ :=
  have h := normalize_zero_leaves_out (fun t : ℚ => t) ⟨7, 7⟩ ⟨0, 0⟩
    (vec3.new 7 7 7) (vec3.new 0 0 0) ⟨7, 7, 7, 7⟩ ⟨0, 0, 0, 0⟩
  ⟨h.1 (by norm_num), h.2.1 (by norm_num [vec3.new]), h.2.2 (by norm_num)⟩

/-! ## Interpolation -/

/-- C22 (counterexample): in the arithmetic of doubles, `lerp(2 ^ 54, 1, 1)` is
0 and not 1: the difference `1 - 2 ^ 54` is not a double and rounds to
`-2 ^ 54`.  On the same operands each component that `vec2.lerp`, `vec3.lerp`
and `vec4.lerp` write at ratio 1 is 0 and not 1. -/
theorem lerp_ratio_one_double_ne :
    lerp (⟨2 ^ 54⟩ : IntegerDouble) ⟨1⟩ ⟨1⟩ = ⟨0⟩ ∧
    lerp (⟨2 ^ 54⟩ : IntegerDouble) ⟨1⟩ ⟨1⟩ ≠ ⟨1⟩ ∧
    (vec2.lerp ⟨⟨7⟩, ⟨7⟩⟩ ⟨⟨2 ^ 54⟩, ⟨2 ^ 54⟩⟩ ⟨⟨1⟩, ⟨1⟩⟩ (⟨1⟩ : IntegerDouble)).x ≠ ⟨1⟩ ∧
    (vec3.lerp (vec3.new ⟨7⟩ ⟨7⟩ ⟨7⟩) (vec3.new ⟨2 ^ 54⟩ ⟨2 ^ 54⟩ ⟨2 ^ 54⟩)
      (vec3.new ⟨1⟩ ⟨1⟩ ⟨1⟩) (⟨1⟩ : IntegerDouble)).x ≠ ⟨1⟩ ∧
    (vec4.lerp ⟨⟨7⟩, ⟨7⟩, ⟨7⟩, ⟨7⟩⟩ ⟨⟨2 ^ 54⟩, ⟨2 ^ 54⟩, ⟨2 ^ 54⟩, ⟨2 ^ 54⟩⟩
      ⟨⟨1⟩, ⟨1⟩, ⟨1⟩, ⟨1⟩⟩ (⟨1⟩ : IntegerDouble)).x ≠ ⟨1⟩ := by
  decide

/-- C22 (amended): over exact arithmetic, that of any ordered field, the scalar
`lerp` and `vec2.lerp`, `vec3.lerp`, `vec4.lerp` return their first operand at
ratio 0 and their second operand at ratio 1, for all operands (the vector
functions write those components into out). -/
theorem lerp_endpoints {α : Type} [LinearOrderedField α] (a b : α)
    (o₂ a₂ b₂ : _vec2 α) (o₃ a₃ b₃ : _vec3 α) (o₄ a₄ b₄ : _vec4 α) :
    (lerp a b 0 = a ∧ lerp a b 1 = b) ∧
    (vec2.lerp o₂ a₂ b₂ 0 = a₂ ∧ vec2.lerp o₂ a₂ b₂ 1 = b₂) ∧
    (vec3.lerp o₃ a₃ b₃ 0 = { o₃ with x := a₃.x, y := a₃.y, z := a₃.z } ∧
      vec3.lerp o₃ a₃ b₃ 1 = { o₃ with x := b₃.x, y := b₃.y, z := b₃.z }) ∧
    (vec4.lerp o₄ a₄ b₄ 0 = a₄ ∧ vec4.lerp o₄ a₄ b₄ 1 = b₄) := by
  refine ⟨⟨?_, ?_⟩, ⟨?_, ?_⟩, ⟨?_, ?_⟩, ⟨?_, ?_⟩⟩
  · simp only [lerp]; ring
  · simp only [lerp]; ring
  · ext <;> simp only [vec2.lerp] <;> ring
  · ext <;> simp only [vec2.lerp] <;> ring
  · simp only [vec3.lerp]; congr 1 <;> ring
  · simp only [vec3.lerp]; congr 1 <;> ring
  · ext <;> simp only [vec4.lerp] <;> ring
  · ext <;> simp only [vec4.lerp] <;> ring

/-! ## Guarded reciprocals and the perspective divide -/

/-- C24: for vec2, vec3 and vec4, each component of `inverseSafe(out, a)` is 0
when the absolute value of the matching component of `a` is below `EPSILON`
and is `1 / a_i` otherwise; and a component that is divided by is never zero,
since its absolute value is at least `EPSILON`, which is positive. -/
theorem inverseSafe_components {α : Type} [LinearOrderedField α]
    (o₂ a₂ : _vec2 α) (o₃ a₃ : _vec3 α) (o₄ a₄ : _vec4 α) :
    vec2.inverseSafe o₂ a₂ =
      ⟨if |a₂.x| < EPSILON then 0 else 1 / a₂.x, if |a₂.y| < EPSILON then 0 else 1 / a₂.y⟩ ∧
    vec3.inverseSafe o₃ a₃ =
      { o₃ with
        x := if |a₃.x| < EPSILON then 0 else 1 / a₃.x
        y := if |a₃.y| < EPSILON then 0 else 1 / a₃.y
        z := if |a₃.z| < EPSILON then 0 else 1 / a₃.z } ∧
    vec4.inverseSafe o₄ a₄ =
      ⟨if |a₄.x| < EPSILON then 0 else 1 / a₄.x, if |a₄.y| < EPSILON then 0 else 1 / a₄.y,
       if |a₄.z| < EPSILON then 0 else 1 / a₄.z, if |a₄.w| < EPSILON then 0 else 1 / a₄.w⟩ ∧
    (∀ t : α, ¬ |t| < EPSILON → t ≠ 0) := by
  refine ⟨?_, ?_, ?_, ?_⟩
  · simp only [vec2.inverseSafe]
    split <;> split <;> rfl
  · simp only [vec3.inverseSafe]
    split <;> split <;> split <;> rfl
  · simp only [vec4.inverseSafe]
    split <;> split <;> split <;> split <;> rfl
  · intro t ht h0
    apply ht
    rw [h0, abs_zero]
    unfold EPSILON
    norm_num

/-- Witness of C24: on a vector with one component below `EPSILON` in absolute
value and one above, the small one gives 0 and the other its reciprocal, which
divides by a nonzero number. -/
theorem inverseSafe_components_witness :
    vec2.inverseSafe (⟨7, 7⟩ : _vec2 ℚ) ⟨0, 4⟩ = ⟨0, 1 / 4⟩ ∧ (4 : ℚ) ≠ 0 :=
  have h := inverseSafe_components (⟨7, 7⟩ : _vec2 ℚ) ⟨0, 4⟩ (vec3.new 7 7 7) (vec3.new 0 4 0)
    ⟨7, 7, 7, 7⟩ ⟨0, 4, 0, 4⟩
  ⟨by rw [h.1]; norm_num [EPSILON], h.2.2.2 4 (by norm_num [EPSILON])⟩

/-- C25: `vec3.transformMat4(out, a, m)` with `a = (x, y, z)` writes the first
three coordinates of the homogeneous product `m * (x, y, z, 1)` divided by
`w = m03*x + m07*y + m11*z + m15`, the fourth coordinate of that product, with
the divisor 1 in place of `w` when `w` is 0; the divisor is never 0. -/
theorem vec3_transformMat4_homogeneous {α : Type} [LinearOrderedField α]
    (out a : _vec3 α) (m : _mat4 α) (o₄ : _vec4 α) :
    (vec4.transformMat4 o₄ ⟨a.x, a.y, a.z, 1⟩ m).w =
      m.m03 * a.x + m.m07 * a.y + m.m11 * a.z + m.m15 ∧
    vec3.transformMat4 out a m =
      { out with
        x := (vec4.transformMat4 o₄ ⟨a.x, a.y, a.z, 1⟩ m).x /
          (if (vec4.transformMat4 o₄ ⟨a.x, a.y, a.z, 1⟩ m).w = 0 then 1
            else (vec4.transformMat4 o₄ ⟨a.x, a.y, a.z, 1⟩ m).w)
        y := (vec4.transformMat4 o₄ ⟨a.x, a.y, a.z, 1⟩ m).y /
          (if (vec4.transformMat4 o₄ ⟨a.x, a.y, a.z, 1⟩ m).w = 0 then 1
            else (vec4.transformMat4 o₄ ⟨a.x, a.y, a.z, 1⟩ m).w)
        z := (vec4.transformMat4 o₄ ⟨a.x, a.y, a.z, 1⟩ m).z /
          (if (vec4.transformMat4 o₄ ⟨a.x, a.y, a.z, 1⟩ m).w = 0 then 1
            else (vec4.transformMat4 o₄ ⟨a.x, a.y, a.z, 1⟩ m).w) } ∧
    (if (vec4.transformMat4 o₄ ⟨a.x, a.y, a.z, 1⟩ m).w = 0 then (1 : α)
      else (vec4.transformMat4 o₄ ⟨a.x, a.y, a.z, 1⟩ m).w) ≠ 0 := by
  refine ⟨?_, ?_, ?_⟩
  · simp only [vec4.transformMat4, mul_one]
  · simp only [vec3.transformMat4, vec4.transformMat4, mul_one]
  · split
    · exact one_ne_zero
    · assumption

/-! ## Comparisons -/

/-- C28: for every vector `v` of each arity (vec2, vec3, vec4), `equals(v, v)`
is true and `exactEquals(v, v)` is true. -/
theorem vec_equals_refl {α : Type} [LinearOrderedField α]
    (v₂ : _vec2 α) (v₃ : _vec3 α) (v₄ : _vec4 α) :
    (vec2.equals v₂ v₂ = true ∧ vec2.exactEquals v₂ v₂ = true) ∧
    (vec3.equals v₃ v₃ = true ∧ vec3.exactEquals v₃ v₃ = true) ∧
    (vec4.equals v₄ v₄ = true ∧ vec4.exactEquals v₄ v₄ = true) := by
  refine ⟨⟨?_, ?_⟩, ⟨?_, ?_⟩, ⟨?_, ?_⟩⟩
  · simp only [vec2.equals, equals_self_scalar, decide_True, Bool.and_self]
  · simp only [vec2.exactEquals, decide_True, Bool.and_self]
  · simp only [vec3.equals, equals_self_scalar, decide_True, Bool.and_self]
  · simp only [vec3.exactEquals, decide_True, Bool.and_self]
  · simp only [vec4.equals, equals_self_scalar, decide_True, Bool.and_self]
  · simp only [vec4.exactEquals, decide_True, Bool.and_self]

/-! ## mat23 as a short form of mat3 -/

/-- C30: with `E = mat3.fromMat2d`, which completes a mat23 by the row
(0, 0, 1), `mat3.multiply(E(a), E(b))` equals `E(mat23.multiply(a, b))` for all
mat23 `a` and `b`, whatever the out arguments held. -/
theorem fromMat2d_multiply {α : Type} [Field α] (o o₁ o₂ o₃ : _mat3 α) (o₄ a b : _mat23 α) :
    mat3.multiply o (mat3.fromMat2d o₁ a) (mat3.fromMat2d o₂ b) =
      mat3.fromMat2d o₃ (mat23.multiply o₄ a b) := by
  ext <;> simp only [mat3.multiply, mat3.fromMat2d, mat23.multiply] <;> ring

/-! ## approx -/

/-- The tolerance `approx` uses: for a supplied maxDiff other than 0,
`approx(a, b, maxDiff)` is true if and only if `|a - b| ≤ maxDiff`; when
maxDiff is omitted, or supplied as 0, it is true if and only if
`|a - b| ≤ EPSILON`. -/
theorem approx_tolerance {α : Type} [LinearOrderedField α] (a b : α) :
    (∀ maxDiff : α, maxDiff ≠ 0 → (approx a b (some maxDiff) = true ↔ |a - b| ≤ maxDiff)) ∧
    (approx a b none = true ↔ |a - b| ≤ EPSILON) ∧
    (approx a b (some 0) = true ↔ |a - b| ≤ EPSILON) := by
  refine ⟨fun d hd => ?_, ?_, ?_⟩
  · simp only [approx, if_neg hd, decide_eq_true_eq]
  · simp only [approx, decide_eq_true_eq]
  · simp only [approx, if_true, decide_eq_true_eq]

/-- C27 (code at the failing input): with the supplied maxDiff 0,
`approx(0, 0.0000005, 0)` is true although `|0 - 0.0000005|` is not `≤ 0`: the
supplied 0 is replaced by `EPSILON`. -/
theorem approx_zero_maxDiff :
    approx (0 : ℚ) 0.0000005 (some 0) = true ∧ ¬ |(0 : ℚ) - 0.0000005| ≤ 0 := by
  constructor
  · simp only [approx, EPSILON, if_true, decide_eq_true_eq]
    norm_num [abs_of_nonneg]
  · norm_num [abs_of_nonneg]

/-! ## Frobenius norms -/

/-- Counterexample to C29: for the mat23 whose six stored elements are all 0,
`mat23.frob` returns 1, while the square root of the sum of the squares of the
six stored elements is 0. -/
theorem mat23_frob_zero_ne :
    mat23.frob Real.sqrt ⟨0, 0, 0, 0, 0, 0⟩ = 1 ∧
    mat23.frob Real.sqrt ⟨0, 0, 0, 0, 0, 0⟩ ≠
      Real.sqrt ((0 : ℝ) ^ 2 + 0 ^ 2 + 0 ^ 2 + 0 ^ 2 + 0 ^ 2 + 0 ^ 2) := by
  have h : mat23.frob Real.sqrt ⟨0, 0, 0, 0, 0, 0⟩ = 1 := by
    simp only [mat23.frob]
    norm_num
  refine ⟨h, ?_⟩
  rw [h]
  norm_num

/-- C29, amended: over the reals, `mat2.frob`, `mat3.frob` and `mat4.frob`
return the nonnegative number whose square is the sum of the squares of the 4,
9 and 16 stored elements; `mat23.frob` returns the nonnegative number whose
square is the sum of the squares of the 6 stored elements plus 1, which is
`mat3.frob` of the 3x3 matrix `mat3.fromMat2d` completes it to. -/
theorem frob_sq (a₂ : _mat2 ℝ) (a₂₃ : _mat23 ℝ) (a₃ o₃ : _mat3 ℝ) (a₄ : _mat4 ℝ) :
    (0 ≤ mat2.frob Real.sqrt a₂ ∧
      mat2.frob Real.sqrt a₂ ^ 2 = a₂.m00 ^ 2 + a₂.m01 ^ 2 + a₂.m02 ^ 2 + a₂.m03 ^ 2) ∧
    (0 ≤ mat3.frob Real.sqrt a₃ ∧
      mat3.frob Real.sqrt a₃ ^ 2 =
        a₃.m00 ^ 2 + a₃.m01 ^ 2 + a₃.m02 ^ 2 + a₃.m03 ^ 2 + a₃.m04 ^ 2 + a₃.m05 ^ 2 +
        a₃.m06 ^ 2 + a₃.m07 ^ 2 + a₃.m08 ^ 2) ∧
    (0 ≤ mat4.frob Real.sqrt a₄ ∧
      mat4.frob Real.sqrt a₄ ^ 2 =
        a₄.m00 ^ 2 + a₄.m01 ^ 2 + a₄.m02 ^ 2 + a₄.m03 ^ 2 + a₄.m04 ^ 2 + a₄.m05 ^ 2 +
        a₄.m06 ^ 2 + a₄.m07 ^ 2 + a₄.m08 ^ 2 + a₄.m09 ^ 2 + a₄.m10 ^ 2 + a₄.m11 ^ 2 +
        a₄.m12 ^ 2 + a₄.m13 ^ 2 + a₄.m14 ^ 2 + a₄.m15 ^ 2) ∧
    (0 ≤ mat23.frob Real.sqrt a₂₃ ∧
      mat23.frob Real.sqrt a₂₃ ^ 2 =
        a₂₃.m00 ^ 2 + a₂₃.m01 ^ 2 + a₂₃.m02 ^ 2 + a₂₃.m03 ^ 2 + a₂₃.m04 ^ 2 + a₂₃.m05 ^ 2 + 1 ∧
      mat23.frob Real.sqrt a₂₃ = mat3.frob Real.sqrt (mat3.fromMat2d o₃ a₂₃)) := by
  refine ⟨⟨Real.sqrt_nonneg _, ?_⟩, ⟨Real.sqrt_nonneg _, ?_⟩, ⟨Real.sqrt_nonneg _, ?_⟩,
    ⟨Real.sqrt_nonneg _, ?_, ?_⟩⟩
  · exact Real.sq_sqrt (by positivity)
  · exact Real.sq_sqrt (by positivity)
  · exact Real.sq_sqrt (by positivity)
  · exact Real.sq_sqrt (by positivity)
  · simp only [mat23.frob, mat3.frob, mat3.fromMat2d]
    congr 1
    ring

/-! ## normalize on vectors of nonzero length -/

/-- The square of `1 / √n` times `n` is 1 for positive `n`. -/
theorem inv_sqrt_sq_mul (n : ℝ) (hn : 0 < n) : n * (1 / Real.sqrt n) * (1 / Real.sqrt n) = 1 := by
  have hs : Real.sqrt n ≠ 0 := (Real.sqrt_pos.mpr hn).ne'
  have h2 : Real.sqrt n * Real.sqrt n = n := Real.mul_self_sqrt hn.le
  calc n * (1 / Real.sqrt n) * (1 / Real.sqrt n)
      = Real.sqrt n * Real.sqrt n * (1 / Real.sqrt n) * (1 / Real.sqrt n) := by rw [h2]
    _ = 1 := by field_simp

/-- C21: for vec2, vec3 and vec4 over the reals and every vector `a` with
squared length > 0, `normalize(out, a)` writes each component of `a` times
`1 / sqrt(squaredLength(a))`, for every out and in particular when out is `a`
itself, and the result has squaredLength exactly 1. -/
theorem normalize_unit (o₂ a₂ : _vec2 ℝ) (o₃ a₃ : _vec3 ℝ) (o₄ a₄ : _vec4 ℝ) :
    (vec2.squaredLength a₂ > 0 →
      vec2.normalize Real.sqrt o₂ a₂ =
        ⟨a₂.x * (1 / Real.sqrt (vec2.squaredLength a₂)),
         a₂.y * (1 / Real.sqrt (vec2.squaredLength a₂))⟩ ∧
      vec2.normalize Real.sqrt a₂ a₂ =
        ⟨a₂.x * (1 / Real.sqrt (vec2.squaredLength a₂)),
         a₂.y * (1 / Real.sqrt (vec2.squaredLength a₂))⟩ ∧
      vec2.squaredLength (vec2.normalize Real.sqrt o₂ a₂) = 1) ∧
    (vec3.squaredLength a₃ > 0 →
      vec3.normalize Real.sqrt o₃ a₃ =
        { o₃ with
          x := a₃.x * (1 / Real.sqrt (vec3.squaredLength a₃))
          y := a₃.y * (1 / Real.sqrt (vec3.squaredLength a₃))
          z := a₃.z * (1 / Real.sqrt (vec3.squaredLength a₃)) } ∧
      vec3.normalize Real.sqrt a₃ a₃ =
        { a₃ with
          x := a₃.x * (1 / Real.sqrt (vec3.squaredLength a₃))
          y := a₃.y * (1 / Real.sqrt (vec3.squaredLength a₃))
          z := a₃.z * (1 / Real.sqrt (vec3.squaredLength a₃)) } ∧
      vec3.squaredLength (vec3.normalize Real.sqrt o₃ a₃) = 1) ∧
    (vec4.squaredLength a₄ > 0 →
      vec4.normalize Real.sqrt o₄ a₄ =
        ⟨a₄.x * (1 / Real.sqrt (vec4.squaredLength a₄)),
         a₄.y * (1 / Real.sqrt (vec4.squaredLength a₄)),
         a₄.z * (1 / Real.sqrt (vec4.squaredLength a₄)),
         a₄.w * (1 / Real.sqrt (vec4.squaredLength a₄))⟩ ∧
      vec4.normalize Real.sqrt a₄ a₄ =
        ⟨a₄.x * (1 / Real.sqrt (vec4.squaredLength a₄)),
         a₄.y * (1 / Real.sqrt (vec4.squaredLength a₄)),
         a₄.z * (1 / Real.sqrt (vec4.squaredLength a₄)),
         a₄.w * (1 / Real.sqrt (vec4.squaredLength a₄))⟩ ∧
      vec4.squaredLength (vec4.normalize Real.sqrt o₄ a₄) = 1) := by
  refine ⟨fun h => ?_, fun h => ?_, fun h => ?_⟩
  · have e : ∀ o : _vec2 ℝ, vec2.normalize Real.sqrt o a₂ =
        ⟨a₂.x * (1 / Real.sqrt (vec2.squaredLength a₂)),
         a₂.y * (1 / Real.sqrt (vec2.squaredLength a₂))⟩ := fun o => if_pos h
    refine ⟨e _, e _, ?_⟩
    rw [e]
    have k := inv_sqrt_sq_mul _ h
    simp only [vec2.squaredLength] at k ⊢
    linear_combination k
  · have e : ∀ o : _vec3 ℝ, vec3.normalize Real.sqrt o a₃ =
        { o with
          x := a₃.x * (1 / Real.sqrt (vec3.squaredLength a₃))
          y := a₃.y * (1 / Real.sqrt (vec3.squaredLength a₃))
          z := a₃.z * (1 / Real.sqrt (vec3.squaredLength a₃)) } := fun o => if_pos h
    refine ⟨e _, e _, ?_⟩
    rw [e]
    have k := inv_sqrt_sq_mul _ h
    simp only [vec3.squaredLength] at k ⊢
    linear_combination k
  · have e : ∀ o : _vec4 ℝ, vec4.normalize Real.sqrt o a₄ =
        ⟨a₄.x * (1 / Real.sqrt (vec4.squaredLength a₄)),
         a₄.y * (1 / Real.sqrt (vec4.squaredLength a₄)),
         a₄.z * (1 / Real.sqrt (vec4.squaredLength a₄)),
         a₄.w * (1 / Real.sqrt (vec4.squaredLength a₄))⟩ := fun o => if_pos h
    refine ⟨e _, e _, ?_⟩
    rw [e]
    have k := inv_sqrt_sq_mul _ h
    simp only [vec4.squaredLength] at k ⊢
    linear_combination k

/-- Witness of C21: the vectors (3, 4), (3, 4, 0) and (3, 4, 0, 0) have squared
length 25 > 0 and normalize to vectors of squared length 1. -/
theorem normalize_unit_witness :
    vec2.squaredLength (vec2.normalize Real.sqrt ⟨7, 7⟩ ⟨3, 4⟩) = 1 ∧
    vec3.squaredLength (vec3.normalize Real.sqrt (vec3.new 7 7 7) (vec3.new 3 4 0)) = 1 ∧
    vec4.squaredLength (vec4.normalize Real.sqrt ⟨7, 7, 7, 7⟩ ⟨3, 4, 0, 0⟩) = 1 :=
  have h := normalize_unit ⟨7, 7⟩ ⟨3, 4⟩ (vec3.new 7 7 7) (vec3.new 3 4 0)
    ⟨7, 7, 7, 7⟩ ⟨3, 4, 0, 0⟩
  ⟨(h.1 (by norm_num [vec2.squaredLength])).2.2,
   (h.2.1 (by norm_num [vec3.squaredLength, vec3.new])).2.2,
   (h.2.2 (by norm_num [vec4.squaredLength])).2.2⟩

/-! ## vec3.angle -/

/-- The value `vec3.angle` returns when both operands have positive squared
length: the clamped arc cosine of the dot product of the scaled operands. -/
theorem vec3_angle_eq_of_pos {α : Type} [LinearOrderedField α] (sqrt acos : α → α) (pi : α)
    (tA tB a b : _vec3 α) (ha : a.x * a.x + a.y * a.y + a.z * a.z > 0)
    (hb : b.x * b.x + b.y * b.y + b.z * b.z > 0) (c : α)
    (hc : c = a.x * (1 / sqrt (a.x * a.x + a.y * a.y + a.z * a.z)) *
            (b.x * (1 / sqrt (b.x * b.x + b.y * b.y + b.z * b.z))) +
          a.y * (1 / sqrt (a.x * a.x + a.y * a.y + a.z * a.z)) *
            (b.y * (1 / sqrt (b.x * b.x + b.y * b.y + b.z * b.z))) +
          a.z * (1 / sqrt (a.x * a.x + a.y * a.y + a.z * a.z)) *
            (b.z * (1 / sqrt (b.x * b.x + b.y * b.y + b.z * b.z)))) :
    vec3.angle sqrt acos pi tA tB a b =
      if c > 1 then 0 else if c < -1 then pi else acos c := by
  subst hc
  simp only [vec3.angle, vec3.copy, vec3.normalize, vec3.dot, if_pos ha, if_pos hb]

/-- Counterexample to C23: for the zero vector `a`, `vec3.angle(a, a)` returns
`acos(0) = π / 2`, not 0: `normalize` leaves the zero temporaries as they are
and their dot product is 0. -/
theorem vec3_angle_zero_ne :
    vec3.angle Real.sqrt Real.arccos Real.pi vec3.create vec3.create
      (vec3.new 0 0 0) (vec3.new 0 0 0) = Real.pi / 2 ∧
    vec3.angle Real.sqrt Real.arccos Real.pi vec3.create vec3.create
      (vec3.new 0 0 0) (vec3.new 0 0 0) ≠ 0 := by
  have h : vec3.angle Real.sqrt Real.arccos Real.pi vec3.create vec3.create
      (vec3.new 0 0 0) (vec3.new 0 0 0) = Real.pi / 2 := by
    simp only [vec3.angle, vec3.copy, vec3.normalize, vec3.dot, vec3.new, vec3.create,
      mul_zero, add_zero, gt_iff_lt, lt_self_iff_false, if_false]
    norm_num
  refine ⟨h, ?_⟩
  rw [h]
  exact (div_pos Real.pi_pos two_pos).ne'

/-- C23, amended: for every Vec3 `a` of nonzero length, over the reals,
`vec3.angle(a, a)` returns 0 and `vec3.angle(a, negate(a))` returns π,
whatever the temporaries and the out of `negate` held. -/
theorem vec3_angle_self_neg (tA tB o a : _vec3 ℝ) (h : vec3.squaredLength a > 0) :
    vec3.angle Real.sqrt Real.arccos Real.pi tA tB a a = 0 ∧
    vec3.angle Real.sqrt Real.arccos Real.pi tA tB a (vec3.negate o a) = Real.pi := by
  have ha : a.x * a.x + a.y * a.y + a.z * a.z > 0 := h
  have k := inv_sqrt_sq_mul _ ha
  constructor
  · rw [vec3_angle_eq_of_pos Real.sqrt Real.arccos Real.pi tA tB a a ha ha 1
      (by linear_combination (-1 : ℝ) * k)]
    norm_num
  · have e : (vec3.negate o a).x * (vec3.negate o a).x + (vec3.negate o a).y * (vec3.negate o a).y
        + (vec3.negate o a).z * (vec3.negate o a).z = a.x * a.x + a.y * a.y + a.z * a.z := by
      simp only [vec3.negate]
      ring
    have hb : (vec3.negate o a).x * (vec3.negate o a).x
        + (vec3.negate o a).y * (vec3.negate o a).y
        + (vec3.negate o a).z * (vec3.negate o a).z > 0 := by
      rw [e]
      exact ha
    rw [vec3_angle_eq_of_pos Real.sqrt Real.arccos Real.pi tA tB a (vec3.negate o a) ha hb (-1)
      (by
        rw [e]
        simp only [vec3.negate]
        linear_combination k)]
    norm_num

/-- Witness of C23, amended: the vector (3, 4, 0) has squared length 25. -/
theorem vec3_angle_self_neg_witness :
    vec3.angle Real.sqrt Real.arccos Real.pi vec3.create vec3.create
      (vec3.new 3 4 0) (vec3.new 3 4 0) = 0 ∧
    vec3.angle Real.sqrt Real.arccos Real.pi vec3.create vec3.create
      (vec3.new 3 4 0) (vec3.negate vec3.create (vec3.new 3 4 0)) = Real.pi :=
  vec3_angle_self_neg vec3.create vec3.create vec3.create (vec3.new 3 4 0)
    (by norm_num [vec3.squaredLength, vec3.new])

/-! ## powof2 -/

/-- A positive natural number that shares no bit with its predecessor is a
power of two. -/
theorem exists_pow_of_and_pred_eq_zero (n : ℕ) (hn : 0 < n) (h : n &&& (n - 1) = 0) :
    ∃ k : ℕ, n = 2 ^ k := by
  induction n using Nat.strong_induction_on with
  | _ n ih =>
    by_cases h1 : n = 1
    · exact ⟨0, by rw [h1, pow_zero]⟩
    · have hdiv : n / 2 &&& (n - 1) / 2 = 0 := by
        rw [← Nat.and_div_two, h]
      rcases Nat.mod_two_eq_zero_or_one n with h0 | h0
      · have e : (n - 1) / 2 = n / 2 - 1 := by omega
        rw [e] at hdiv
        obtain ⟨k, hk⟩ := ih (n / 2) (by omega) (by omega) hdiv
        exact ⟨k + 1, by rw [pow_succ, ← hk]; omega⟩
      · have e : (n - 1) / 2 = n / 2 := by omega
        rw [e, Nat.and_self] at hdiv
        omega

/-- A power of two shares no bit with its predecessor. -/
theorem two_pow_and_pred (k : ℕ) : 2 ^ k &&& (2 ^ k - 1) = 0 := by
  rw [Nat.and_pow_two_sub_one_eq_mod, Nat.mod_self]

/-- C26: for every integer `x` with `0 ≤ x < 2^31`, `powof2(x)` is true if and
only if `x = 2^k` for some `k ≥ 0`, with `&` the bitwise AND of 32-bit
patterns; it is false for 0, true for 1 and 1024, false for 1023. -/
theorem powof2_iff (x : ℤ) (h0 : 0 ≤ x) (h31 : x < 2 ^ 31) :
    (powof2 x = true ↔ ∃ k : ℕ, x = 2 ^ k) ∧
    powof2 0 = false ∧ powof2 1 = true ∧ powof2 1024 = true ∧ powof2 1023 = false := by
  refine ⟨?_, by decide, by decide, by decide, by decide⟩
  obtain ⟨n, rfl⟩ := Int.eq_ofNat_of_zero_le h0
  have hn : n < 2 ^ 31 := by exact_mod_cast h31
  by_cases hz : n = 0
  · subst hz
    constructor
    · intro h
      exact absurd h (by decide)
    · rintro ⟨k, hk⟩
      exact absurd hk.symm (by positivity)
  · have b1 : toInt32Bits (n : ℤ) = n := by
      unfold toInt32Bits
      omega
    have b2 : toInt32Bits ((n : ℤ) - 1) = n - 1 := by
      unfold toInt32Bits
      omega
    have hx : ((n : ℤ) ≠ 0) := by exact_mod_cast hz
    simp only [powof2, b1, b2, hx, ne_eq, not_false_eq_true, decide_True, Bool.true_and,
      beq_iff_eq]
    constructor
    · intro h
      obtain ⟨k, hk⟩ := exists_pow_of_and_pred_eq_zero n (Nat.pos_of_ne_zero hz) h
      exact ⟨k, by exact_mod_cast hk⟩
    · rintro ⟨k, hk⟩
      have hk2 : n = 2 ^ k := by exact_mod_cast hk
      rw [hk2]
      exact two_pow_and_pred k

/-- Witness of C26: 1024 lies in the range and `powof2(1024)` is true, with
`1024 = 2^10`. -/
theorem powof2_iff_witness :
    (powof2 1024 = true ↔ ∃ k : ℕ, (1024 : ℤ) = 2 ^ k) ∧
    powof2 0 = false ∧ powof2 1 = true ∧ powof2 1024 = true ∧ powof2 1023 = false :=
  powof2_iff 1024 (by norm_num) (by norm_num)

/-! ## mat4 rotations: factories, in-place calls, right-multiplication -/

/-- The sixteen fields that `mat4.rotate` leaves in out, and the sixteen that
`mat4.fromRotation` leaves, when the axis is not refused. -/
theorem mat4_rotate_eq_of_long {α : Type} [LinearOrderedField α] (sin cos sqrt abs : α → α)
    (inPlace : Bool) (out a : _mat4 α) (rad : α) (axis : Vec3Arg α)
    (h : ¬ abs (sqrt (axis.m00 * axis.m00 + axis.m01 * axis.m01 + axis.m02 * axis.m02)) <
      EPSILON)
    (x y z s c t : α)
    (hx : x = axis.m00 *
      (1 / sqrt (axis.m00 * axis.m00 + axis.m01 * axis.m01 + axis.m02 * axis.m02)))
    (hy : y = axis.m01 *
      (1 / sqrt (axis.m00 * axis.m00 + axis.m01 * axis.m01 + axis.m02 * axis.m02)))
    (hz : z = axis.m02 *
      (1 / sqrt (axis.m00 * axis.m00 + axis.m01 * axis.m01 + axis.m02 * axis.m02)))
    (hs : s = sin rad) (hc : c = cos rad) (ht : t = 1 - c) :
    mat4.rotate sin cos sqrt abs inPlace out a rad axis =
      ⟨⟨a.m00 * (x * x * t + c) + a.m04 * (y * x * t + z * s) + a.m08 * (z * x * t - y * s),
        a.m01 * (x * x * t + c) + a.m05 * (y * x * t + z * s) + a.m09 * (z * x * t - y * s),
        a.m02 * (x * x * t + c) + a.m06 * (y * x * t + z * s) + a.m10 * (z * x * t - y * s),
        a.m03 * (x * x * t + c) + a.m07 * (y * x * t + z * s) + a.m11 * (z * x * t - y * s),
        a.m00 * (x * y * t - z * s) + a.m04 * (y * y * t + c) + a.m08 * (z * y * t + x * s),
        a.m01 * (x * y * t - z * s) + a.m05 * (y * y * t + c) + a.m09 * (z * y * t + x * s),
        a.m02 * (x * y * t - z * s) + a.m06 * (y * y * t + c) + a.m10 * (z * y * t + x * s),
        a.m03 * (x * y * t - z * s) + a.m07 * (y * y * t + c) + a.m11 * (z * y * t + x * s),
        a.m00 * (x * z * t + y * s) + a.m04 * (y * z * t - x * s) + a.m08 * (z * z * t + c),
        a.m01 * (x * z * t + y * s) + a.m05 * (y * z * t - x * s) + a.m09 * (z * z * t + c),
        a.m02 * (x * z * t + y * s) + a.m06 * (y * z * t - x * s) + a.m10 * (z * z * t + c),
        a.m03 * (x * z * t + y * s) + a.m07 * (y * z * t - x * s) + a.m11 * (z * z * t + c),
        a.m12, a.m13, a.m14, a.m15⟩, false⟩ ∧
    mat4.fromRotation sin cos sqrt abs out rad axis =
      ⟨⟨x * x * t + c, y * x * t + z * s, z * x * t - y * s, 0,
        x * y * t - z * s, y * y * t + c, z * y * t + x * s, 0,
        x * z * t + y * s, y * z * t - x * s, z * z * t + c, 0,
        0, 0, 0, 1⟩, false⟩ := by
  subst hx hy hz hs hc ht
  constructor
  · cases inPlace
    · exact if_neg h
    · exact if_neg h
  · exact if_neg h

/-- What `mat4.rotate` and `mat4.fromRotation` return when the axis is refused:
null, with out as it was. -/
theorem mat4_rotate_eq_of_short {α : Type} [LinearOrderedField α] (sin cos sqrt abs : α → α)
    (inPlace : Bool) (out a : _mat4 α) (rad : α) (axis : Vec3Arg α)
    (h : abs (sqrt (axis.m00 * axis.m00 + axis.m01 * axis.m01 + axis.m02 * axis.m02)) <
      EPSILON) :
    mat4.rotate sin cos sqrt abs inPlace out a rad axis = ⟨if inPlace then a else out, true⟩ ∧
    mat4.fromRotation sin cos sqrt abs out rad axis = ⟨out, true⟩ :=
  ⟨if_pos h, if_pos h⟩

/-- The sixteen fields that `mat4.rotateX`, `mat4.rotateY` and `mat4.rotateZ`
leave in out, in place or not. -/
theorem mat4_rotateXYZ_eq {α : Type} [LinearOrderedField α] (sin cos : α → α)
    (inPlace : Bool) (out a : _mat4 α) (rad : α) :
    mat4.rotateX sin cos inPlace out a rad =
      ⟨a.m00, a.m01, a.m02, a.m03,
        a.m04 * cos rad + a.m08 * sin rad, a.m05 * cos rad + a.m09 * sin rad,
        a.m06 * cos rad + a.m10 * sin rad, a.m07 * cos rad + a.m11 * sin rad,
        a.m08 * cos rad - a.m04 * sin rad, a.m09 * cos rad - a.m05 * sin rad,
        a.m10 * cos rad - a.m06 * sin rad, a.m11 * cos rad - a.m07 * sin rad,
        a.m12, a.m13, a.m14, a.m15⟩ ∧
    mat4.rotateY sin cos inPlace out a rad =
      ⟨a.m00 * cos rad - a.m08 * sin rad, a.m01 * cos rad - a.m09 * sin rad,
        a.m02 * cos rad - a.m10 * sin rad, a.m03 * cos rad - a.m11 * sin rad,
        a.m04, a.m05, a.m06, a.m07,
        a.m00 * sin rad + a.m08 * cos rad, a.m01 * sin rad + a.m09 * cos rad,
        a.m02 * sin rad + a.m10 * cos rad, a.m03 * sin rad + a.m11 * cos rad,
        a.m12, a.m13, a.m14, a.m15⟩ ∧
    mat4.rotateZ sin cos inPlace out a rad =
      ⟨a.m00 * cos rad + a.m04 * sin rad, a.m01 * cos rad + a.m05 * sin rad,
        a.m02 * cos rad + a.m06 * sin rad, a.m03 * cos rad + a.m07 * sin rad,
        a.m04 * cos rad - a.m00 * sin rad, a.m05 * cos rad - a.m01 * sin rad,
        a.m06 * cos rad - a.m02 * sin rad, a.m07 * cos rad - a.m03 * sin rad,
        a.m08, a.m09, a.m10, a.m11,
        a.m12, a.m13, a.m14, a.m15⟩ := by
  cases inPlace <;> exact ⟨rfl, rfl, rfl⟩

/-- On an axis object that carries the properties `m00`, `m01`, `m02` which the
code reads, over an ordered field: `mat4.fromRotation(out, rad, axis)` returns
null for the same axes as `mat4.identity(out)` followed by
`mat4.rotate(out, out, rad, axis)`, and the same sixteen values otherwise.
For every angle, `mat4.fromXRotation`, `fromYRotation` and `fromZRotation`
return the same matrix as `mat4.identity(out)` followed by `rotateX`,
`rotateY`, `rotateZ` in place. -/
theorem mat4_factory_eq_identity_then_operator {α : Type} [LinearOrderedField α]
    (sin cos sqrt abs : α → α) (out o : _mat4 α) (rad : α) (axis : Vec3Arg α) :
    (mat4.fromRotation sin cos sqrt abs out rad axis).null =
      (mat4.rotate sin cos sqrt abs true o (mat4.identity out) rad axis).null ∧
    ((mat4.fromRotation sin cos sqrt abs out rad axis).null = false →
      (mat4.fromRotation sin cos sqrt abs out rad axis).out =
        (mat4.rotate sin cos sqrt abs true o (mat4.identity out) rad axis).out) ∧
    mat4.fromXRotation sin cos out rad = mat4.rotateX sin cos true o (mat4.identity out) rad ∧
    mat4.fromYRotation sin cos out rad = mat4.rotateY sin cos true o (mat4.identity out) rad ∧
    mat4.fromZRotation sin cos out rad = mat4.rotateZ sin cos true o (mat4.identity out) rad := by
  refine ⟨?_, ?_, ?_, ?_, ?_⟩
  · by_cases h : abs (sqrt (axis.m00 * axis.m00 + axis.m01 * axis.m01 + axis.m02 * axis.m02))
        < EPSILON
    · rw [(mat4_rotate_eq_of_short sin cos sqrt abs true o (mat4.identity out) rad axis h).1,
        (mat4_rotate_eq_of_short sin cos sqrt abs true out (mat4.identity out) rad axis h).2]
    · rw [(mat4_rotate_eq_of_long sin cos sqrt abs true o (mat4.identity out) rad axis h
          _ _ _ _ _ _ rfl rfl rfl rfl rfl rfl).1,
        (mat4_rotate_eq_of_long sin cos sqrt abs true out (mat4.identity out) rad axis h
          _ _ _ _ _ _ rfl rfl rfl rfl rfl rfl).2]
  · by_cases h : abs (sqrt (axis.m00 * axis.m00 + axis.m01 * axis.m01 + axis.m02 * axis.m02))
        < EPSILON
    · rw [(mat4_rotate_eq_of_short sin cos sqrt abs true out (mat4.identity out) rad axis h).2]
      intro hf
      exact Bool.noConfusion hf
    · intro _
      rw [(mat4_rotate_eq_of_long sin cos sqrt abs true o (mat4.identity out) rad axis h
          _ _ _ _ _ _ rfl rfl rfl rfl rfl rfl).1,
        (mat4_rotate_eq_of_long sin cos sqrt abs true out (mat4.identity out) rad axis h
          _ _ _ _ _ _ rfl rfl rfl rfl rfl rfl).2]
      simp only [mat4.identity]
      congr 1 <;> ring
  · rw [(mat4_rotateXYZ_eq sin cos true o (mat4.identity out) rad).1]
    simp only [mat4.fromXRotation, mat4.identity]
    congr 1 <;> ring
  · rw [(mat4_rotateXYZ_eq sin cos true o (mat4.identity out) rad).2.1]
    simp only [mat4.fromYRotation, mat4.identity]
    congr 1 <;> ring
  · rw [(mat4_rotateXYZ_eq sin cos true o (mat4.identity out) rad).2.2]
    simp only [mat4.fromZRotation, mat4.identity]
    congr 1 <;> ring

/-- Instance of the statement above: about an axis object with m00 = 1,
m01 = m02 = 0, which is not refused, the factory and the in-place rotation of
the identity leave the same matrix. -/
theorem mat4_factory_eq_identity_then_operator_witness :
    (mat4.fromRotation (fun _ : ℚ => 0) (fun _ : ℚ => 1) (fun t : ℚ => t) (fun t : ℚ => |t|)
        mat4.create 0 ⟨1, 0, 0⟩).out =
      (mat4.rotate (fun _ : ℚ => 0) (fun _ : ℚ => 1) (fun t : ℚ => t) (fun t : ℚ => |t|) true
        mat4.create (mat4.identity mat4.create) 0 ⟨1, 0, 0⟩).out :=
  (mat4_factory_eq_identity_then_operator (fun _ : ℚ => 0) (fun _ : ℚ => 1) (fun t : ℚ => t) (fun t : ℚ => |t|)
    mat4.create mat4.create 0 ⟨1, 0, 0⟩).2.1
    (by
      rw [(mat4_rotate_eq_of_long (fun _ : ℚ => 0) (fun _ : ℚ => 1) (fun t : ℚ => t) (fun t : ℚ => |t|) true
        mat4.create mat4.create 0 ⟨1, 0, 0⟩ (by norm_num [EPSILON])
        _ _ _ _ _ _ rfl rfl rfl rfl rfl rfl).2])

/-- C36: for each of `mat4.rotateX`, `rotateY`, `rotateZ`, every `a` and
`rad`, the call in place yields the same sixteen values as the call with a
distinct out, whatever out held; the fields the axis does not affect are
those of `a`, and the others are computed from the values `a` had before the
call. -/
theorem mat4_rotateXYZ_in_place {α : Type} [LinearOrderedField α] (sin cos : α → α)
    (out o a : _mat4 α) (rad : α) :
    (mat4.rotateX sin cos true o a rad = mat4.rotateX sin cos false out a rad ∧
      mat4.rotateX sin cos false out a rad =
        ⟨a.m00, a.m01, a.m02, a.m03,
          a.m04 * cos rad + a.m08 * sin rad, a.m05 * cos rad + a.m09 * sin rad,
          a.m06 * cos rad + a.m10 * sin rad, a.m07 * cos rad + a.m11 * sin rad,
          a.m08 * cos rad - a.m04 * sin rad, a.m09 * cos rad - a.m05 * sin rad,
          a.m10 * cos rad - a.m06 * sin rad, a.m11 * cos rad - a.m07 * sin rad,
          a.m12, a.m13, a.m14, a.m15⟩) ∧
    (mat4.rotateY sin cos true o a rad = mat4.rotateY sin cos false out a rad ∧
      mat4.rotateY sin cos false out a rad =
        ⟨a.m00 * cos rad - a.m08 * sin rad, a.m01 * cos rad - a.m09 * sin rad,
          a.m02 * cos rad - a.m10 * sin rad, a.m03 * cos rad - a.m11 * sin rad,
          a.m04, a.m05, a.m06, a.m07,
          a.m00 * sin rad + a.m08 * cos rad, a.m01 * sin rad + a.m09 * cos rad,
          a.m02 * sin rad + a.m10 * cos rad, a.m03 * sin rad + a.m11 * cos rad,
          a.m12, a.m13, a.m14, a.m15⟩) ∧
    (mat4.rotateZ sin cos true o a rad = mat4.rotateZ sin cos false out a rad ∧
      mat4.rotateZ sin cos false out a rad =
        ⟨a.m00 * cos rad + a.m04 * sin rad, a.m01 * cos rad + a.m05 * sin rad,
          a.m02 * cos rad + a.m06 * sin rad, a.m03 * cos rad + a.m07 * sin rad,
          a.m04 * cos rad - a.m00 * sin rad, a.m05 * cos rad - a.m01 * sin rad,
          a.m06 * cos rad - a.m02 * sin rad, a.m07 * cos rad - a.m03 * sin rad,
          a.m08, a.m09, a.m10, a.m11,
          a.m12, a.m13, a.m14, a.m15⟩) :=
  ⟨⟨rfl, rfl⟩, ⟨rfl, rfl⟩, ⟨rfl, rfl⟩⟩

/-- On vector objects that carry the properties `m00`, `m01`, `m02` which the
code reads, over an ordered field: each mat4 transform operator is the product
of `a`, on the right, with the matrix of its factory, in place or not:
`translate` with `fromTranslation`, `scale` with `fromScaling`, and, for an
axis whose computed length is at least `EPSILON`, `rotate` with
`fromRotation`.  For every angle, so are `rotateX`, `rotateY`, `rotateZ` with
`fromXRotation`, `fromYRotation`, `fromZRotation`. -/
theorem mat4_operator_eq_multiply_factory {α : Type} [LinearOrderedField α]
    (sin cos sqrt abs : α → α) (inPlace : Bool) (out o₁ o₂ a : _mat4 α) (rad : α)
    (v axis : Vec3Arg α) :
    mat4.translate inPlace out a v = mat4.multiply o₁ a (mat4.fromTranslation o₂ v) ∧
    mat4.scale out a v = mat4.multiply o₁ a (mat4.fromScaling o₂ v) ∧
    mat4.rotateX sin cos inPlace out a rad =
      mat4.multiply o₁ a (mat4.fromXRotation sin cos o₂ rad) ∧
    mat4.rotateY sin cos inPlace out a rad =
      mat4.multiply o₁ a (mat4.fromYRotation sin cos o₂ rad) ∧
    mat4.rotateZ sin cos inPlace out a rad =
      mat4.multiply o₁ a (mat4.fromZRotation sin cos o₂ rad) ∧
    (EPSILON ≤ abs (sqrt (axis.m00 * axis.m00 + axis.m01 * axis.m01 + axis.m02 * axis.m02)) →
      (mat4.rotate sin cos sqrt abs inPlace out a rad axis).null = false ∧
      (mat4.fromRotation sin cos sqrt abs o₂ rad axis).null = false ∧
      (mat4.rotate sin cos sqrt abs inPlace out a rad axis).out =
        mat4.multiply o₁ a (mat4.fromRotation sin cos sqrt abs o₂ rad axis).out) := by
  refine ⟨?_, ?_, ?_, ?_, ?_, ?_⟩
  · simp only [mat4_translate_eq, mat4_multiply_eq, mat4.fromTranslation]
    congr 1 <;> ring
  · simp only [mat4.scale, mat4_multiply_eq, mat4.fromScaling]
    congr 1 <;> ring
  · rw [(mat4_rotateXYZ_eq sin cos inPlace out a rad).1, mat4_multiply_eq]
    simp only [mat4.fromXRotation]
    congr 1 <;> ring
  · rw [(mat4_rotateXYZ_eq sin cos inPlace out a rad).2.1, mat4_multiply_eq]
    simp only [mat4.fromYRotation]
    congr 1 <;> ring
  · rw [(mat4_rotateXYZ_eq sin cos inPlace out a rad).2.2, mat4_multiply_eq]
    simp only [mat4.fromZRotation]
    congr 1 <;> ring
  · intro hlen
    have h := not_lt.mpr hlen
    obtain ⟨x, hx⟩ : ∃ x, x = axis.m00 *
      (1 / sqrt (axis.m00 * axis.m00 + axis.m01 * axis.m01 + axis.m02 * axis.m02)) := ⟨_, rfl⟩
    obtain ⟨y, hy⟩ : ∃ y, y = axis.m01 *
      (1 / sqrt (axis.m00 * axis.m00 + axis.m01 * axis.m01 + axis.m02 * axis.m02)) := ⟨_, rfl⟩
    obtain ⟨z, hz⟩ : ∃ z, z = axis.m02 *
      (1 / sqrt (axis.m00 * axis.m00 + axis.m01 * axis.m01 + axis.m02 * axis.m02)) := ⟨_, rfl⟩
    rw [(mat4_rotate_eq_of_long sin cos sqrt abs inPlace out a rad axis h
        x y z _ _ _ hx hy hz rfl rfl rfl).1,
      (mat4_rotate_eq_of_long sin cos sqrt abs inPlace o₂ a rad axis h
        x y z _ _ _ hx hy hz rfl rfl rfl).2, mat4_multiply_eq]
    refine ⟨rfl, rfl, ?_⟩
    dsimp only
    congr 1 <;> ring

/-- Instance of the statement above: the axis object with m00 = 1,
m01 = m02 = 0 has computed length 1, which is at least `EPSILON`. -/
theorem mat4_operator_eq_multiply_factory_witness :
    (mat4.rotate (fun _ : ℚ => 0) (fun _ : ℚ => 1) (fun t : ℚ => t) (fun t : ℚ => |t|) false
        mat4.create mat4.create 0 ⟨1, 0, 0⟩).out =
      mat4.multiply mat4.create mat4.create
        (mat4.fromRotation (fun _ : ℚ => 0) (fun _ : ℚ => 1) (fun t : ℚ => t) (fun t : ℚ => |t|)
          mat4.create 0 ⟨1, 0, 0⟩).out :=
  ((mat4_operator_eq_multiply_factory (fun _ : ℚ => 0) (fun _ : ℚ => 1) (fun t : ℚ => t) (fun t : ℚ => |t|) false
    mat4.create mat4.create mat4.create mat4.create 0 ⟨1, 0, 0⟩ ⟨1, 0, 0⟩).2.2.2.2.2
    (by norm_num [EPSILON])).2.2

/-- C31 (code at the failing input): on an axis built by `vec3.new`, whose
reads of `m00`, `m01`, `m02` yield `undefined`, neither
`mat4.fromRotation(out, rad, axis)` nor `mat4.identity(out)` followed by
`mat4.rotate(out, out, rad, axis)` returns null; the factory writes the
literal 0 into m03 while the in-place rotation of the identity computes
`NaN` there, so the two do not leave the same sixteen values, in particular
for rad = 1 and axis = vec3.new(1, 0, 0).  `Math.sqrt` and `Math.abs` are any
functions that send `NaN` to `NaN`. -/
theorem fromRotation_vec3_axis_ne_identity_rotate {α : Type} [Zero α] [One α] [Add α]
    [Sub α] [Mul α] [Div α] [DecidableEq α] [LT α] [DecidableRel (fun a b : α => a < b)]
    [OfScientific α] (sin cos sqrt abs : JSValue α → JSValue α)
    (hsqrt : sqrt JSValue.NaN = JSValue.NaN) (habs : abs JSValue.NaN = JSValue.NaN)
    (out o : _mat4 (JSValue α)) (rad x y z : JSValue α) :
    (mat4.fromRotation sin cos sqrt abs out rad
        (_vec3.asArg JSValue.undefined (vec3.new x y z))).null = false ∧
    (mat4.rotate sin cos sqrt abs true o (mat4.identity out) rad
        (_vec3.asArg JSValue.undefined (vec3.new x y z))).null = false ∧
    (mat4.fromRotation sin cos sqrt abs out rad
        (_vec3.asArg JSValue.undefined (vec3.new x y z))).out.m03 = 0 ∧
    (mat4.rotate sin cos sqrt abs true o (mat4.identity out) rad
        (_vec3.asArg JSValue.undefined (vec3.new x y z))).out.m03 = JSValue.NaN ∧
    (mat4.fromRotation sin cos sqrt abs out rad
        (_vec3.asArg JSValue.undefined (vec3.new x y z))).out ≠
      (mat4.rotate sin cos sqrt abs true o (mat4.identity out) rad
        (_vec3.asArg JSValue.undefined (vec3.new x y z))).out := by
  have hf : (mat4.fromRotation sin cos sqrt abs out rad
        (_vec3.asArg JSValue.undefined (vec3.new x y z))).null = false ∧
      (mat4.fromRotation sin cos sqrt abs out rad
        (_vec3.asArg JSValue.undefined (vec3.new x y z))).out.m03 = 0 := by
    simp only [mat4.fromRotation, _vec3.asArg, readProp, vec3.new, Option.getD_none,
      JSValue.mul_undefined, JSValue.NaN_add, JSValue.add_NaN, JSValue.mul_NaN,
      JSValue.NaN_mul, JSValue.undefined_mul, JSValue.div_NaN, hsqrt, habs, JSValue.NaN_lt,
      if_false, and_self]
  have hr : (mat4.rotate sin cos sqrt abs true o (mat4.identity out) rad
        (_vec3.asArg JSValue.undefined (vec3.new x y z))).null = false ∧
      (mat4.rotate sin cos sqrt abs true o (mat4.identity out) rad
        (_vec3.asArg JSValue.undefined (vec3.new x y z))).out.m03 = JSValue.NaN := by
    simp only [mat4.rotate, _vec3.asArg, readProp, vec3.new, Option.getD_none,
      JSValue.mul_undefined, JSValue.NaN_add, JSValue.add_NaN, JSValue.mul_NaN,
      JSValue.NaN_mul, JSValue.undefined_mul, JSValue.div_NaN, hsqrt, habs, JSValue.NaN_lt,
      if_false, if_true, Bool.false_eq_true, and_self]
  refine ⟨hf.1, hr.1, hf.2, hr.2, ?_⟩
  intro h
  have h' := congrArg _mat4.m03 h
  rw [hf.2, hr.2] at h'
  exact JSValue.noConfusion h'

/-- Instance of the statement on C31 at rad = 1 and the axis
`vec3.new(1, 0, 0)`, with the identity of the rationals for every function of
`Math`. -/
theorem fromRotation_vec3_axis_ne_identity_rotate_witness :
    (mat4.fromRotation (fun t => t) (fun t => t) (fun t => t) (fun t => t) mat4.create
        (1 : JSValue ℚ) (_vec3.asArg JSValue.undefined (vec3.new 1 0 0))).null = false ∧
    (mat4.rotate (fun t => t) (fun t => t) (fun t => t) (fun t => t) true mat4.create
        (mat4.identity mat4.create) (1 : JSValue ℚ)
        (_vec3.asArg JSValue.undefined (vec3.new 1 0 0))).null = false ∧
    (mat4.fromRotation (fun t => t) (fun t => t) (fun t => t) (fun t => t) mat4.create
        (1 : JSValue ℚ) (_vec3.asArg JSValue.undefined (vec3.new 1 0 0))).out.m03 = 0 ∧
    (mat4.rotate (fun t => t) (fun t => t) (fun t => t) (fun t => t) true mat4.create
        (mat4.identity mat4.create) (1 : JSValue ℚ)
        (_vec3.asArg JSValue.undefined (vec3.new 1 0 0))).out.m03 = JSValue.NaN ∧
    (mat4.fromRotation (fun t => t) (fun t => t) (fun t => t) (fun t => t) mat4.create
        (1 : JSValue ℚ) (_vec3.asArg JSValue.undefined (vec3.new 1 0 0))).out ≠
      (mat4.rotate (fun t => t) (fun t => t) (fun t => t) (fun t => t) true mat4.create
        (mat4.identity mat4.create) (1 : JSValue ℚ)
        (_vec3.asArg JSValue.undefined (vec3.new 1 0 0))).out :=
  fromRotation_vec3_axis_ne_identity_rotate (fun t => t) (fun t => t) (fun t => t)
    (fun t => t) rfl rfl mat4.create mat4.create 1 1 0 0

/-- C37 (code at the failing input): on a vector built by `vec3.new`, whose
reads of `m00`, `m01`, `m02` yield `undefined`, `mat4.translate(out, a, v)`
and `mat4.multiply(out, a, mat4.fromTranslation(v))` both hold `NaN` in m12,
and `mat4.scale(out, a, v)` and `mat4.multiply(out, a, mat4.fromScaling(v))`
both hold `NaN` in m00, whatever `a` and `v` are: neither is the product of
`a` and the matrix of the vector, and `mat4.exactEquals` finds the two
results of each pair different. -/
theorem mat4_translate_scale_vec3_operand {α : Type} [Zero α] [One α] [Add α] [Mul α]
    [DecidableEq α] (inPlace : Bool) (out o₁ o₂ a : _mat4 (JSValue α)) (x y z : JSValue α) :
    ((mat4.translate inPlace out a (_vec3.asArg JSValue.undefined (vec3.new x y z))).m12 =
        JSValue.NaN ∧
      (mat4.multiply o₁ a
        (mat4.fromTranslation o₂ (_vec3.asArg JSValue.undefined (vec3.new x y z)))).m12 =
        JSValue.NaN ∧
      mat4.exactEquals
        (mat4.translate inPlace out a (_vec3.asArg JSValue.undefined (vec3.new x y z)))
        (mat4.multiply o₁ a
          (mat4.fromTranslation o₂ (_vec3.asArg JSValue.undefined (vec3.new x y z)))) =
        false) ∧
    ((mat4.scale out a (_vec3.asArg JSValue.undefined (vec3.new x y z))).m00 = JSValue.NaN ∧
      (mat4.multiply o₁ a
        (mat4.fromScaling o₂ (_vec3.asArg JSValue.undefined (vec3.new x y z)))).m00 =
        JSValue.NaN ∧
      mat4.exactEquals
        (mat4.scale out a (_vec3.asArg JSValue.undefined (vec3.new x y z)))
        (mat4.multiply o₁ a
          (mat4.fromScaling o₂ (_vec3.asArg JSValue.undefined (vec3.new x y z)))) = false) := by
  have ht : (mat4.translate inPlace out a
      (_vec3.asArg JSValue.undefined (vec3.new x y z))).m12 = JSValue.NaN := by
    simp only [mat4_translate_eq, _vec3.asArg, readProp, vec3.new, Option.getD_none,
      JSValue.mul_undefined, JSValue.NaN_add, JSValue.add_NaN]
  have hm : (mat4.multiply o₁ a
      (mat4.fromTranslation o₂ (_vec3.asArg JSValue.undefined (vec3.new x y z)))).m12 =
      JSValue.NaN := by
    simp only [mat4_multiply_eq, mat4.fromTranslation, _vec3.asArg, readProp, vec3.new,
      Option.getD_none, JSValue.undefined_mul, JSValue.NaN_add, JSValue.add_NaN]
  have hs : (mat4.scale out a (_vec3.asArg JSValue.undefined (vec3.new x y z))).m00 =
      JSValue.NaN := by
    simp only [mat4.scale, _vec3.asArg, readProp, vec3.new, Option.getD_none,
      JSValue.mul_undefined]
  have hn : (mat4.multiply o₁ a
      (mat4.fromScaling o₂ (_vec3.asArg JSValue.undefined (vec3.new x y z)))).m00 =
      JSValue.NaN := by
    simp only [mat4_multiply_eq, mat4.fromScaling, _vec3.asArg, readProp, vec3.new,
      Option.getD_none, JSValue.undefined_mul, JSValue.NaN_add, JSValue.add_NaN]
  refine ⟨⟨ht, hm, ?_⟩, hs, hn, ?_⟩
  · simp only [mat4.exactEquals, ht, JSValue.NaN_beq, Bool.and_false, Bool.false_and]
  · simp only [mat4.exactEquals, hs, JSValue.NaN_beq, Bool.and_false, Bool.false_and]

/-! ## Projection matrices -/

/-- C39: for `tan(fovy / 2)` nonzero, `aspect` and `near` nonzero and `near`
different from `far`, `mat4.perspective(out, fovy, aspect, near, far)` equals
`mat4.frustum(out, -r, r, -t, t, near, far)` with `t = near * tan(fovy / 2)`
and `r = t * aspect`. -/
theorem perspective_eq_frustum {α : Type} [LinearOrderedField α] (tan : α → α)
    (out : _mat4 α) (fovy aspect near far : α)
    (ht : tan (fovy / 2) ≠ 0) (ha : aspect ≠ 0) (hn : near ≠ 0) (hnf : near ≠ far) :
    mat4.perspective tan out fovy aspect near far =
      mat4.frustum out (-(near * tan (fovy / 2) * aspect)) (near * tan (fovy / 2) * aspect)
        (-(near * tan (fovy / 2))) (near * tan (fovy / 2)) near far := by
  have hd : near - far ≠ 0 := sub_ne_zero.mpr hnf
  simp only [mat4.perspective, mat4.frustum]
  congr 1 <;> first | ring1 | (field_simp; done) | (field_simp; ring1)

/-- Witness of C39: with `tan(fovy / 2) = 1`, aspect 2, near 1 and far 3. -/
theorem perspective_eq_frustum_witness :
    mat4.perspective (fun _ : ℚ => 1) mat4.create 1 2 1 3 =
      mat4.frustum mat4.create (-(1 * (fun _ : ℚ => 1) (1 / 2) * 2))
        (1 * (fun _ : ℚ => 1) (1 / 2) * 2) (-(1 * (fun _ : ℚ => 1) (1 / 2)))
        (1 * (fun _ : ℚ => 1) (1 / 2)) 1 3 :=
  perspective_eq_frustum (fun _ : ℚ => 1) mat4.create 1 2 1 3
    (by norm_num) (by norm_num) (by norm_num) (by norm_num)

/-! ## mat2.LDU -/

/-- The factors `mat2.LDU` returns multiply to `a` in the order U, D, L: for
`a.m00` nonzero and L, D, U passed in as identity matrices,
`multiply(multiply(U, D), L)` is `a`. -/
theorem mat2_LDU_reverse_product {α : Type} [Field α] [DecidableEq α] (o o₁ a : _mat2 α)
    (h : a.m00 ≠ 0) :
    mat2.multiply o
      (mat2.multiply o₁ (mat2.LDU mat2.create mat2.create mat2.create a).2.2
        (mat2.LDU mat2.create mat2.create mat2.create a).2.1)
      (mat2.LDU mat2.create mat2.create mat2.create a).1 = a := by
  ext <;> simp only [mat2.multiply, mat2.LDU, mat2.create] <;> first | ring1 | field_simp

/-- C32 (code at the failing input): for `a = mat2.new(1, 2, 3, 4)` and L, D, U
passed in as identity matrices, `mat2.LDU` returns `L = (1, 0, 3, 1)`, whose
nonzero entry off the diagonal is `m02` (column 1, row 0, above the diagonal),
`D` the identity and `U = (1, 2, 0, -2)`, and `multiply(multiply(L, D), U)` is
`(7, 2, -6, -2)`, not `a`. -/
theorem mat2_LDU_product_ne :
    mat2.LDU mat2.create mat2.create mat2.create (⟨1, 2, 3, 4⟩ : _mat2 ℚ) =
      (⟨1, 0, 3, 1⟩, ⟨1, 0, 0, 1⟩, ⟨1, 2, 0, -2⟩) ∧
    mat2.multiply mat2.create
      (mat2.multiply mat2.create
        (mat2.LDU mat2.create mat2.create mat2.create (⟨1, 2, 3, 4⟩ : _mat2 ℚ)).1
        (mat2.LDU mat2.create mat2.create mat2.create (⟨1, 2, 3, 4⟩ : _mat2 ℚ)).2.1)
      (mat2.LDU mat2.create mat2.create mat2.create (⟨1, 2, 3, 4⟩ : _mat2 ℚ)).2.2 =
      ⟨7, 2, -6, -2⟩ ∧
    mat2.multiply mat2.create
      (mat2.multiply mat2.create
        (mat2.LDU mat2.create mat2.create mat2.create (⟨1, 2, 3, 4⟩ : _mat2 ℚ)).1
        (mat2.LDU mat2.create mat2.create mat2.create (⟨1, 2, 3, 4⟩ : _mat2 ℚ)).2.1)
      (mat2.LDU mat2.create mat2.create mat2.create (⟨1, 2, 3, 4⟩ : _mat2 ℚ)).2.2 ≠
      ⟨1, 2, 3, 4⟩ := by
  have e : mat2.LDU mat2.create mat2.create mat2.create (⟨1, 2, 3, 4⟩ : _mat2 ℚ) =
      (⟨1, 0, 3, 1⟩, ⟨1, 0, 0, 1⟩, ⟨1, 2, 0, -2⟩) := by
    simp only [mat2.LDU, mat2.create]
    norm_num
  have p : mat2.multiply mat2.create
      (mat2.multiply mat2.create (⟨1, 0, 3, 1⟩ : _mat2 ℚ) ⟨1, 0, 0, 1⟩) ⟨1, 2, 0, -2⟩ =
      ⟨7, 2, -6, -2⟩ := by
    simp only [mat2.multiply]
    norm_num
  rw [e]
  refine ⟨rfl, p, ?_⟩
  rw [p]
  intro hc
  have h0 := congrArg _mat2.m00 hc
  norm_num at h0

/-! ## Unit quaternions -/

/-- C34: for every unit quaternion `q`, the matrix `M = mat3.fromQuat(out, q)`
is a rotation matrix: `mat3.multiply(M, mat3.transpose(M))` and
`mat3.multiply(mat3.transpose(M), M)` are the identity and
`mat3.determinant(M) = 1`. -/
theorem mat3_fromQuat_rotation {α : Type} [Field α] [DecidableEq α] (o o₁ o₂ : _mat3 α)
    (q : Quat α) (h : q.x ^ 2 + q.y ^ 2 + q.z ^ 2 + q.w ^ 2 = 1) :
    mat3.multiply o (mat3.fromQuat o₁ q) (mat3.transpose false o₂ (mat3.fromQuat o₁ q)) =
      mat3.create ∧
    mat3.multiply o (mat3.transpose false o₂ (mat3.fromQuat o₁ q)) (mat3.fromQuat o₁ q) =
      mat3.create ∧
    mat3.determinant (mat3.fromQuat o₁ q) = 1 := by
  refine ⟨?_, ?_, ?_⟩
  · simp only [mat3.multiply, mat3.fromQuat, mat3.transpose, mat3.create, Bool.false_eq_true,
      if_false]
    congr 1
    · linear_combination (4 * q.z ^ 2 + 4 * q.y ^ 2) * h
    · linear_combination (-4 * q.x * q.y) * h
    · linear_combination (-4 * q.x * q.z) * h
    · linear_combination (-4 * q.x * q.y) * h
    · linear_combination (4 * q.z ^ 2 + 4 * q.x ^ 2) * h
    · linear_combination (-4 * q.y * q.z) * h
    · linear_combination (-4 * q.x * q.z) * h
    · linear_combination (-4 * q.y * q.z) * h
    · linear_combination (4 * q.y ^ 2 + 4 * q.x ^ 2) * h
  · simp only [mat3.multiply, mat3.fromQuat, mat3.transpose, mat3.create, Bool.false_eq_true,
      if_false]
    congr 1
    · linear_combination (4 * q.z ^ 2 + 4 * q.y ^ 2) * h
    · linear_combination (-4 * q.x * q.y) * h
    · linear_combination (-4 * q.x * q.z) * h
    · linear_combination (-4 * q.x * q.y) * h
    · linear_combination (4 * q.z ^ 2 + 4 * q.x ^ 2) * h
    · linear_combination (-4 * q.y * q.z) * h
    · linear_combination (-4 * q.x * q.z) * h
    · linear_combination (-4 * q.y * q.z) * h
    · linear_combination (4 * q.y ^ 2 + 4 * q.x ^ 2) * h
  · simp only [mat3.determinant, mat3.fromQuat]
    linear_combination (4 * q.z ^ 2 + 4 * q.y ^ 2 + 4 * q.x ^ 2) * h

/-- Witness of C34: the unit quaternion (3/5, 0, 4/5, 0). -/
theorem mat3_fromQuat_rotation_witness :
    mat3.multiply mat3.create (mat3.fromQuat mat3.create (⟨3 / 5, 0, 4 / 5, 0⟩ : Quat ℚ))
      (mat3.transpose false mat3.create
        (mat3.fromQuat mat3.create (⟨3 / 5, 0, 4 / 5, 0⟩ : Quat ℚ))) = mat3.create ∧
    mat3.determinant (mat3.fromQuat mat3.create (⟨3 / 5, 0, 4 / 5, 0⟩ : Quat ℚ)) = 1 :=
  have h := mat3_fromQuat_rotation mat3.create mat3.create mat3.create
    (⟨3 / 5, 0, 4 / 5, 0⟩ : Quat ℚ) (by norm_num)
  ⟨h.1, h.2.2⟩

/-- C38: for every unit quaternion `q` and every Vec3 `a`,
`vec3.transformQuat(out, a, q)` equals `vec3.transformMat3(out, a, M)` with
`M = mat3.fromQuat(_, q)`. -/
theorem transformQuat_eq_transformMat3 {α : Type} [LinearOrderedField α]
    (out a : _vec3 α) (o : _mat3 α) (q : Quat α)
    (h : q.x ^ 2 + q.y ^ 2 + q.z ^ 2 + q.w ^ 2 = 1) :
    vec3.transformQuat out a q = vec3.transformMat3 out a (mat3.fromQuat o q) := by
  simp only [vec3.transformQuat, vec3.transformMat3, mat3.fromQuat]
  congr 1
  · linear_combination a.x * h
  · linear_combination a.y * h
  · linear_combination a.z * h

/-- Witness of C38: the unit quaternion (3/5, 0, 4/5, 0) and the vector
(1, 2, 3). -/
theorem transformQuat_eq_transformMat3_witness :
    vec3.transformQuat vec3.create (vec3.new 1 2 3) (⟨3 / 5, 0, 4 / 5, 0⟩ : Quat ℚ) =
      vec3.transformMat3 vec3.create (vec3.new 1 2 3)
        (mat3.fromQuat mat3.create (⟨3 / 5, 0, 4 / 5, 0⟩ : Quat ℚ)) :=
  transformQuat_eq_transformMat3 vec3.create (vec3.new 1 2 3) mat3.create
    (⟨3 / 5, 0, 4 / 5, 0⟩ : Quat ℚ) (by norm_num)

/-! ## Random directions -/

/-- The length of the vector `vec2.random` writes, for the scale `s` the code
arrives at. -/
theorem vec2_random_length_aux (u s : ℝ) :
    Real.sqrt (Real.cos (u * 2 * Real.pi) * s * (Real.cos (u * 2 * Real.pi) * s) +
      Real.sin (u * 2 * Real.pi) * s * (Real.sin (u * 2 * Real.pi) * s)) = |s| := by
  apply sqrt_eq_abs_of_eq_sq
  linear_combination s ^ 2 * Real.cos_sq_add_sin_sq (u * 2 * Real.pi)

/-- The length of the vector `vec3.random` writes, for the scale `s` the code
arrives at and a second draw in [0, 1]. -/
theorem vec3_random_length_aux (u₁ u₂ s : ℝ) (h0 : 0 ≤ u₂) (h1 : u₂ ≤ 1) :
    Real.sqrt
      (Real.cos (u₁ * 2 * Real.pi) * (Real.sqrt (1 - (u₂ * 2 - 1) * (u₂ * 2 - 1)) * s) *
        (Real.cos (u₁ * 2 * Real.pi) * (Real.sqrt (1 - (u₂ * 2 - 1) * (u₂ * 2 - 1)) * s)) +
      Real.sin (u₁ * 2 * Real.pi) * (Real.sqrt (1 - (u₂ * 2 - 1) * (u₂ * 2 - 1)) * s) *
        (Real.sin (u₁ * 2 * Real.pi) * (Real.sqrt (1 - (u₂ * 2 - 1) * (u₂ * 2 - 1)) * s)) +
      (u₂ * 2 - 1) * s * ((u₂ * 2 - 1) * s)) = |s| := by
  apply sqrt_eq_abs_of_eq_sq
  have hz : 0 ≤ 1 - (u₂ * 2 - 1) * (u₂ * 2 - 1) := by nlinarith
  have hW := Real.mul_self_sqrt hz
  obtain ⟨W, hWd⟩ : ∃ W, W = Real.sqrt (1 - (u₂ * 2 - 1) * (u₂ * 2 - 1)) := ⟨_, rfl⟩
  rw [← hWd] at hW ⊢
  linear_combination (W ^ 2 * s ^ 2) * Real.cos_sq_add_sin_sq (u₁ * 2 * Real.pi) + s ^ 2 * hW

/-- Counterexample to C33: with the scale -2 and the draw 0, `vec2.random`
writes the vector (-2, 0), whose Euclidean length is 2, not -2. -/
theorem vec2_random_negative_scale_ne :
    vec2.random Real.cos Real.sin Real.pi 0 vec2.create (some (-2)) = ⟨-2, 0⟩ ∧
    vec2.length Real.sqrt (vec2.random Real.cos Real.sin Real.pi 0 vec2.create (some (-2))) = 2 ∧
    vec2.length Real.sqrt (vec2.random Real.cos Real.sin Real.pi 0 vec2.create (some (-2))) ≠
      -2 := by
  have e : vec2.random Real.cos Real.sin Real.pi 0 vec2.create (some (-2)) = ⟨-2, 0⟩ := by
    simp [vec2.random]
  have l : vec2.length Real.sqrt (⟨-2, 0⟩ : _vec2 ℝ) = 2 := by
    simp only [vec2.length]
    rw [sqrt_eq_abs_of_eq_sq _ (-2) (by norm_num)]
    norm_num
  rw [e]
  refine ⟨rfl, l, ?_⟩
  rw [l]
  norm_num

/-- C33, amended: for every scale `s` other than 0 and every outcome of the
random source (the second draw of `vec3.random` in [0, 1)), the vector written
by `vec2.random(out, s)` and by `vec3.random(out, s)` has Euclidean length
`|s|`, which is `s` when `s` is positive; when the scale is omitted the vector
has length 1. -/
theorem random_length (u u₁ u₂ s : ℝ) (o₂ : _vec2 ℝ) (o₃ : _vec3 ℝ)
    (hs : s ≠ 0) (h0 : 0 ≤ u₂) (h1 : u₂ < 1) :
    vec2.length Real.sqrt (vec2.random Real.cos Real.sin Real.pi u o₂ (some s)) = |s| ∧
    vec2.length Real.sqrt (vec2.random Real.cos Real.sin Real.pi u o₂ none) = 1 ∧
    vec3.length Real.sqrt
      (vec3.random Real.cos Real.sin Real.sqrt Real.pi u₁ u₂ o₃ (some s)) = |s| ∧
    vec3.length Real.sqrt
      (vec3.random Real.cos Real.sin Real.sqrt Real.pi u₁ u₂ o₃ none) = 1 ∧
    (0 < s →
      vec2.length Real.sqrt (vec2.random Real.cos Real.sin Real.pi u o₂ (some s)) = s ∧
      vec3.length Real.sqrt
        (vec3.random Real.cos Real.sin Real.sqrt Real.pi u₁ u₂ o₃ (some s)) = s) := by
  have a₂ : vec2.length Real.sqrt (vec2.random Real.cos Real.sin Real.pi u o₂ (some s)) = |s| := by
    simp only [vec2.length, vec2.random, if_neg hs]
    exact vec2_random_length_aux u s
  have a₃ : vec3.length Real.sqrt
      (vec3.random Real.cos Real.sin Real.sqrt Real.pi u₁ u₂ o₃ (some s)) = |s| := by
    simp only [vec3.length, vec3.random, if_neg hs]
    exact vec3_random_length_aux u₁ u₂ s h0 h1.le
  refine ⟨a₂, ?_, a₃, ?_, fun hp => ?_⟩
  · simp only [vec2.length, vec2.random]
    rw [vec2_random_length_aux u 1, abs_one]
  · simp only [vec3.length, vec3.random]
    rw [vec3_random_length_aux u₁ u₂ 1 h0 h1.le, abs_one]
  · rw [a₂, a₃, abs_of_pos hp]
    exact ⟨rfl, rfl⟩

/-- Witness of C33, amended: scale 3 and the draws 1/4, 1/4 and 1/2. -/
theorem random_length_witness :
    vec2.length Real.sqrt
      (vec2.random Real.cos Real.sin Real.pi (1 / 4) vec2.create (some 3)) = 3 ∧
    vec3.length Real.sqrt
      (vec3.random Real.cos Real.sin Real.sqrt Real.pi (1 / 4) (1 / 2) vec3.create (some 3))
      = 3 :=
  (random_length (1 / 4) (1 / 4) (1 / 2) 3 vec2.create vec3.create
    (by norm_num) (by norm_num) (by norm_num)).2.2.2.2 (by norm_num)

/-! ## forEach -/

/-- With a stride of at least 1, the loop of `forEach` started at `i` ends
within `l - i` iterations: a larger bound on the iterations changes nothing. -/
theorem forEachLoop_fuel {S : Type} (body : ℕ → S → S) (stride l : ℕ) (hs : 0 < stride) :
    ∀ (fuel i : ℕ) (st : S), l - i ≤ fuel →
      forEachLoop body stride l (fuel + 1) i st = forEachLoop body stride l fuel i st := by
  intro fuel
  induction fuel with
  | zero =>
    intro i st h
    have hl : ¬ i < l := by omega
    simp only [forEachLoop, if_neg hl]
  | succ f ih =>
    intro i st h
    by_cases hl : i < l
    · have e₁ : forEachLoop body stride l (f + 1 + 1) i st =
          forEachLoop body stride l (f + 1) (i + stride) (body i st) := if_pos hl
      have e₂ : forEachLoop body stride l (f + 1) i st =
          forEachLoop body stride l f (i + stride) (body i st) := if_pos hl
      rw [e₁, e₂]
      exact ih _ _ (by omega)
    · have e₁ : forEachLoop body stride l (f + 1 + 1) i st = st := if_neg hl
      have e₂ : forEachLoop body stride l (f + 1) i st = st := if_neg hl
      rw [e₁, e₂]

/-- An invariant of the states that holds when the loop of `forEach` starts,
and that the body keeps at every index the loop visits, holds when the loop
ends. -/
theorem forEachLoop_invariant {S : Type} (body : ℕ → S → S) (stride l : ℕ)
    (P : S → Prop) (Q : ℕ → Prop)
    (hstep : ∀ i st, i < l → Q i → P st → P (body i st))
    (hQ : ∀ i, i < l → Q i → Q (i + stride)) :
    ∀ (fuel i : ℕ) (st : S), Q i → P st → P (forEachLoop body stride l fuel i st) := by
  intro fuel
  induction fuel with
  | zero =>
    intro i st _ hp
    exact hp
  | succ f ih =>
    intro i st hq hp
    by_cases hl : i < l
    · have e : forEachLoop body stride l (f + 1) i st =
          forEachLoop body stride l f (i + stride) (body i st) := if_pos hl
      rw [e]
      exact ih _ _ (hQ i hl hq) (hstep i st hl hq hp)
    · have e : forEachLoop body stride l (f + 1) i st = st := if_neg hl
      rw [e]
      exact hp

/-- A write at an index below the length replaces one element and keeps the
length. -/
theorem writeIndex_length_of_lt {α : Type} (undef : α) (a : List α) (i : ℕ) (v : α)
    (h : i < a.length) : (writeIndex undef a i v).length = a.length := by
  simp only [writeIndex, if_pos h, List.length_set]

/-- The body of `vec2.forEach` at an index whose two components lie in the
buffer keeps the length and touches indices below the length only. -/
theorem vec2_forEachBody_inbounds {α : Type} (undef : α) (fn : _vec2 α → _vec2 α) (i len : ℕ)
    (st : ForEachState (_vec2 α) α) (hi : i + 2 ≤ len)
    (hp : st.a.length = len ∧ ∀ t ∈ st.touched, t < len) :
    (vec2.forEachBody undef fn i st).a.length = len ∧
      ∀ t ∈ (vec2.forEachBody undef fn i st).touched, t < len := by
  obtain ⟨hl, ht⟩ := hp
  constructor
  · simp only [vec2.forEachBody]
    rw [writeIndex_length_of_lt, writeIndex_length_of_lt, hl]
    · omega
    · rw [writeIndex_length_of_lt _ _ _ _ (by omega)]
      omega
  · intro t htm
    simp only [vec2.forEachBody, List.mem_append, List.mem_cons, List.mem_singleton,
      List.not_mem_nil, or_false] at htm
    rcases htm with h | h
    · exact ht t h
    · omega

/-- The body of `vec3.forEach` at an index whose three components lie in the
buffer keeps the length and touches indices below the length only. -/
theorem vec3_forEachBody_inbounds {α : Type} (undef : α) (fn : _vec3 α → _vec3 α) (i len : ℕ)
    (st : ForEachState (_vec3 α) α) (hi : i + 3 ≤ len)
    (hp : st.a.length = len ∧ ∀ t ∈ st.touched, t < len) :
    (vec3.forEachBody undef fn i st).a.length = len ∧
      ∀ t ∈ (vec3.forEachBody undef fn i st).touched, t < len := by
  obtain ⟨hl, ht⟩ := hp
  have l₁ : ∀ v, (writeIndex undef st.a i v).length = len := fun v => by
    rw [writeIndex_length_of_lt _ _ _ _ (by omega), hl]
  have l₂ : ∀ v w, (writeIndex undef (writeIndex undef st.a i v) (i + 1) w).length = len :=
    fun v w => by rw [writeIndex_length_of_lt _ _ _ _ (by rw [l₁]; omega), l₁]
  constructor
  · simp only [vec3.forEachBody]
    rw [writeIndex_length_of_lt _ _ _ _ (by rw [l₂]; omega), l₂]
  · intro t htm
    simp only [vec3.forEachBody, List.mem_append, List.mem_cons, List.mem_singleton,
      List.not_mem_nil, or_false] at htm
    rcases htm with h | h
    · exact ht t h
    · omega

/-- The body of `vec4.forEach` at an index whose four components lie in the
buffer keeps the length and touches indices below the length only. -/
theorem vec4_forEachBody_inbounds {α : Type} (undef : α) (fn : _vec4 α → _vec4 α) (i len : ℕ)
    (st : ForEachState (_vec4 α) α) (hi : i + 4 ≤ len)
    (hp : st.a.length = len ∧ ∀ t ∈ st.touched, t < len) :
    (vec4.forEachBody undef fn i st).a.length = len ∧
      ∀ t ∈ (vec4.forEachBody undef fn i st).touched, t < len := by
  obtain ⟨hl, ht⟩ := hp
  have l₁ : ∀ v, (writeIndex undef st.a i v).length = len := fun v => by
    rw [writeIndex_length_of_lt _ _ _ _ (by omega), hl]
  have l₂ : ∀ v w, (writeIndex undef (writeIndex undef st.a i v) (i + 1) w).length = len :=
    fun v w => by rw [writeIndex_length_of_lt _ _ _ _ (by rw [l₁]; omega), l₁]
  have l₃ : ∀ v w u, (writeIndex undef (writeIndex undef (writeIndex undef st.a i v) (i + 1) w)
      (i + 2) u).length = len :=
    fun v w u => by rw [writeIndex_length_of_lt _ _ _ _ (by rw [l₂]; omega), l₂]
  constructor
  · simp only [vec4.forEachBody]
    rw [writeIndex_length_of_lt _ _ _ _ (by rw [l₃]; omega), l₃]
  · intro t htm
    simp only [vec4.forEachBody, List.mem_append, List.mem_cons, List.mem_singleton,
      List.not_mem_nil, or_false] at htm
    rcases htm with h | h
    · exact ht t h
    · omega

/-- The default of the offset changes nothing on a number. -/
theorem offset_default (offset : ℕ) : (if offset = 0 then 0 else offset) = offset := by
  split
  · next h => exact h.symm
  · rfl

/-- The bound of the loop of `forEach` is at most the length of the buffer. -/
theorem forEach_bound_le (count stride offset len : ℕ) :
    (if count ≠ 0 then min (count * stride + offset) len else len) ≤ len := by
  split
  · exact min_le_right _ _
  · exact le_rfl

/-- Counterexample to C40: on the buffer `[1, 2, 3, 4]`, whose length is not a
multiple of 3, `vec3.forEach(a, 0, 0, 0, fn)` with a callback that changes
nothing starts a second vector at index 3, reads and writes the indices 4 and
5, which are not below `a.length = 4`, and returns the buffer with length 6. -/
theorem vec3_forEach_out_of_bounds :
    (vec3.forEach (none : Option ℕ) ⟨none, none, none, none, none, none⟩
        [some 1, some 2, some 3, some 4] 0 0 0 id).touched =
      [0, 1, 2, 0, 1, 2, 3, 4, 5, 3, 4, 5] ∧
    (vec3.forEach (none : Option ℕ) ⟨none, none, none, none, none, none⟩
        [some 1, some 2, some 3, some 4] 0 0 0 id).a =
      [some 1, some 2, some 3, some 4, none, none] ∧
    ¬ (∀ t ∈ (vec3.forEach (none : Option ℕ) ⟨none, none, none, none, none, none⟩
        [some 1, some 2, some 3, some 4] 0 0 0 id).touched,
      t < [some 1, some 2, some 3, some 4].length) ∧
    (vec3.forEach (none : Option ℕ) ⟨none, none, none, none, none, none⟩
        [some 1, some 2, some 3, some 4] 0 0 0 id).a.length ≠
      [some 1, some 2, some 3, some 4].length := by
  decide

/-- C40, amended: for `vec2.forEach`, `vec3.forEach` and `vec4.forEach`, every
buffer, stride, offset, count and callback such that every vector start
`offset + j * stride` (stride taken as the component count N when it is 0)
that lies below `a.length` has its N components below `a.length`: every index
read or written is below `a.length` and the returned buffer has the length of
the input. -/
theorem forEach_in_bounds {α : Type} (undef : α) (a : List α) (stride offset count : ℕ)
    (v₂ : _vec2 α) (fn₂ : _vec2 α → _vec2 α) (v₃ : _vec3 α) (fn₃ : _vec3 α → _vec3 α)
    (v₄ : _vec4 α) (fn₄ : _vec4 α → _vec4 α) :
    ((∀ j, offset + j * (if stride = 0 then 2 else stride) < a.length →
        offset + j * (if stride = 0 then 2 else stride) + 2 ≤ a.length) →
      (∀ t ∈ (vec2.forEach undef v₂ a stride offset count fn₂).touched, t < a.length) ∧
      (vec2.forEach undef v₂ a stride offset count fn₂).a.length = a.length) ∧
    ((∀ j, offset + j * (if stride = 0 then 3 else stride) < a.length →
        offset + j * (if stride = 0 then 3 else stride) + 3 ≤ a.length) →
      (∀ t ∈ (vec3.forEach undef v₃ a stride offset count fn₃).touched, t < a.length) ∧
      (vec3.forEach undef v₃ a stride offset count fn₃).a.length = a.length) ∧
    ((∀ j, offset + j * (if stride = 0 then 4 else stride) < a.length →
        offset + j * (if stride = 0 then 4 else stride) + 4 ≤ a.length) →
      (∀ t ∈ (vec4.forEach undef v₄ a stride offset count fn₄).touched, t < a.length) ∧
      (vec4.forEach undef v₄ a stride offset count fn₄).a.length = a.length) := by
  refine ⟨fun H => ?_, fun H => ?_, fun H => ?_⟩
  · obtain ⟨s, hs⟩ : ∃ s, s = (if stride = 0 then 2 else stride) := ⟨_, rfl⟩
    rw [← hs] at H
    have key := forEachLoop_invariant (vec2.forEachBody undef fn₂) s
      (if count ≠ 0 then min (count * s + offset) a.length else a.length)
      (fun st => st.a.length = a.length ∧ ∀ t ∈ st.touched, t < a.length)
      (fun i => ∃ j, i = offset + j * s)
      (fun i st hi hq hp => by
        obtain ⟨j, rfl⟩ := hq
        exact vec2_forEachBody_inbounds undef fn₂ _ _ st
          (H j (lt_of_lt_of_le hi (forEach_bound_le _ _ _ _))) hp)
      (fun i _ hq => by
        obtain ⟨j, rfl⟩ := hq
        exact ⟨j + 1, by ring⟩)
      ((if count ≠ 0 then min (count * s + offset) a.length else a.length) - offset) offset
      ⟨a, v₂, []⟩ ⟨0, by ring⟩ ⟨rfl, fun t ht => absurd ht (List.not_mem_nil t)⟩
    simp only [vec2.forEach, offset_default, ← hs]
    exact ⟨key.2, key.1⟩
  · obtain ⟨s, hs⟩ : ∃ s, s = (if stride = 0 then 3 else stride) := ⟨_, rfl⟩
    rw [← hs] at H
    have key := forEachLoop_invariant (vec3.forEachBody undef fn₃) s
      (if count ≠ 0 then min (count * s + offset) a.length else a.length)
      (fun st => st.a.length = a.length ∧ ∀ t ∈ st.touched, t < a.length)
      (fun i => ∃ j, i = offset + j * s)
      (fun i st hi hq hp => by
        obtain ⟨j, rfl⟩ := hq
        exact vec3_forEachBody_inbounds undef fn₃ _ _ st
          (H j (lt_of_lt_of_le hi (forEach_bound_le _ _ _ _))) hp)
      (fun i _ hq => by
        obtain ⟨j, rfl⟩ := hq
        exact ⟨j + 1, by ring⟩)
      ((if count ≠ 0 then min (count * s + offset) a.length else a.length) - offset) offset
      ⟨a, v₃, []⟩ ⟨0, by ring⟩ ⟨rfl, fun t ht => absurd ht (List.not_mem_nil t)⟩
    simp only [vec3.forEach, offset_default, ← hs]
    exact ⟨key.2, key.1⟩
  · obtain ⟨s, hs⟩ : ∃ s, s = (if stride = 0 then 4 else stride) := ⟨_, rfl⟩
    rw [← hs] at H
    have key := forEachLoop_invariant (vec4.forEachBody undef fn₄) s
      (if count ≠ 0 then min (count * s + offset) a.length else a.length)
      (fun st => st.a.length = a.length ∧ ∀ t ∈ st.touched, t < a.length)
      (fun i => ∃ j, i = offset + j * s)
      (fun i st hi hq hp => by
        obtain ⟨j, rfl⟩ := hq
        exact vec4_forEachBody_inbounds undef fn₄ _ _ st
          (H j (lt_of_lt_of_le hi (forEach_bound_le _ _ _ _))) hp)
      (fun i _ hq => by
        obtain ⟨j, rfl⟩ := hq
        exact ⟨j + 1, by ring⟩)
      ((if count ≠ 0 then min (count * s + offset) a.length else a.length) - offset) offset
      ⟨a, v₄, []⟩ ⟨0, by ring⟩ ⟨rfl, fun t ht => absurd ht (List.not_mem_nil t)⟩
    simp only [vec4.forEach, offset_default, ← hs]
    exact ⟨key.2, key.1⟩

/-- Witness of C40, amended: a tightly packed buffer of length 12 (stride 0,
offset 0, count 0) holds six vec2, four vec3 and three vec4. -/
theorem forEach_in_bounds_witness :
    (vec2.forEach (0 : ℤ) ⟨0, 0⟩ [1, 2, 3, 4, 5, 6, 7, 8, 9, 10, 11, 12] 0 0 0 id).a.length
      = 12 ∧
    (vec3.forEach (0 : ℤ) (vec3.new 0 0 0) [1, 2, 3, 4, 5, 6, 7, 8, 9, 10, 11, 12] 0 0 0
      id).a.length = 12 ∧
    (vec4.forEach (0 : ℤ) ⟨0, 0, 0, 0⟩ [1, 2, 3, 4, 5, 6, 7, 8, 9, 10, 11, 12] 0 0 0
      id).a.length = 12 :=
  have h := forEach_in_bounds (0 : ℤ) [1, 2, 3, 4, 5, 6, 7, 8, 9, 10, 11, 12] 0 0 0
    ⟨0, 0⟩ id (vec3.new 0 0 0) id ⟨0, 0, 0, 0⟩ id
  ⟨(h.1 (by
      intro j hj
      simp only [if_true, List.length_cons, List.length_nil] at hj ⊢
      omega)).2,
   (h.2.1 (by
      intro j hj
      simp only [if_true, List.length_cons, List.length_nil] at hj ⊢
      omega)).2,
   (h.2.2 (by
      intro j hj
      simp only [if_true, List.length_cons, List.length_nil] at hj ⊢
      omega)).2⟩

/-- The body of `vec3.forEach` at the start of a triple that lies in the
buffer: the triple is replaced by what the callback leaves in the vector and
the rest of the buffer is as it was. -/
theorem vec3_forEachBody_append {α : Type} (undef : α) (fn : _vec3 α → _vec3 α)
    (done rest : List α) (x y z : α) (vec : _vec3 α) (tr : List ℕ) :
    (vec3.forEachBody undef fn done.length ⟨done ++ x :: y :: z :: rest, vec, tr⟩).a =
      (done ++ [(fn { vec with x := x, y := y, z := z }).x,
        (fn { vec with x := x, y := y, z := z }).y,
        (fn { vec with x := x, y := y, z := z }).z]) ++ rest ∧
    (vec3.forEachBody undef fn done.length ⟨done ++ x :: y :: z :: rest, vec, tr⟩).vec =
      fn { vec with x := x, y := y, z := z } := by
  have r₀ : readIndex undef (done ++ x :: y :: z :: rest) done.length = x := by
    simp only [readIndex]
    rw [List.getD_append_right _ _ _ _ (le_refl _), Nat.sub_self]
    rfl
  have r₁ : readIndex undef (done ++ x :: y :: z :: rest) (done.length + 1) = y := by
    simp only [readIndex]
    rw [List.getD_append_right _ _ _ _ (by omega), Nat.add_sub_cancel_left]
    rfl
  have r₂ : readIndex undef (done ++ x :: y :: z :: rest) (done.length + 2) = z := by
    simp only [readIndex]
    rw [List.getD_append_right _ _ _ _ (by omega), Nat.add_sub_cancel_left]
    rfl
  have w₀ : ∀ v, writeIndex undef (done ++ x :: y :: z :: rest) done.length v =
      done ++ v :: y :: z :: rest := fun v => by
    simp [writeIndex]
  have w₁ : ∀ u v, writeIndex undef (done ++ u :: y :: z :: rest) (done.length + 1) v =
      done ++ u :: v :: z :: rest := fun u v => by
    simp [writeIndex, List.set_append]
  have w₂ : ∀ u u' v, writeIndex undef (done ++ u :: u' :: z :: rest) (done.length + 2) v =
      done ++ u :: u' :: v :: rest := fun u u' v => by
    simp [writeIndex, List.set_append]
  constructor
  · simp only [vec3.forEachBody, r₀, r₁, r₂, w₀, w₁, w₂]
    simp
  · simp only [vec3.forEachBody, r₀, r₁, r₂]

/-- The loop of `vec3.forEach` with stride 3, started at the end of a prefix
`done` and bounded `3 * m` further on, replaces the next `m` triples. -/
theorem vec3_forEachLoop_append {α : Type} (undef : α) (fn : _vec3 α → _vec3 α) :
    ∀ (m : ℕ) (done rest : List α) (vec : _vec3 α) (tr : List ℕ) (fuel : ℕ),
      3 * m ≤ fuel → 3 * m ≤ rest.length →
      (forEachLoop (vec3.forEachBody undef fn) 3 (done.length + 3 * m) fuel done.length
        ⟨done ++ rest, vec, tr⟩).a = done ++ replaceTriples fn m vec rest := by
  intro m
  induction m with
  | zero =>
    intro done rest vec tr fuel _ _
    have e : replaceTriples fn 0 vec rest = rest := by
      unfold replaceTriples
      rfl
    rw [e]
    cases fuel with
    | zero => rfl
    | succ f =>
      have hl : ¬ done.length < done.length + 3 * 0 := by omega
      have e₂ : forEachLoop (vec3.forEachBody undef fn) 3 (done.length + 3 * 0) (f + 1)
          done.length ⟨done ++ rest, vec, tr⟩ = ⟨done ++ rest, vec, tr⟩ := if_neg hl
      rw [e₂]
  | succ m ih =>
    intro done rest vec tr fuel hf hr
    obtain ⟨f, rfl⟩ : ∃ f, fuel = f + 1 := ⟨fuel - 1, by omega⟩
    match rest, hr with
    | x :: y :: z :: rest', hr' =>
      have hl : done.length < done.length + 3 * (m + 1) := by omega
      have e₂ : forEachLoop (vec3.forEachBody undef fn) 3 (done.length + 3 * (m + 1)) (f + 1)
          done.length ⟨done ++ x :: y :: z :: rest', vec, tr⟩ =
          forEachLoop (vec3.forEachBody undef fn) 3 (done.length + 3 * (m + 1)) f
            (done.length + 3)
            (vec3.forEachBody undef fn done.length ⟨done ++ x :: y :: z :: rest', vec, tr⟩) :=
        if_pos hl
      rw [e₂]
      obtain ⟨ba, bv⟩ := vec3_forEachBody_append undef fn done rest' x y z vec tr
      obtain ⟨st', hst⟩ : ∃ st', st' =
          vec3.forEachBody undef fn done.length ⟨done ++ x :: y :: z :: rest', vec, tr⟩ :=
        ⟨_, rfl⟩
      rw [← hst] at ba bv ⊢
      obtain ⟨a', vec', tr'⟩ := st'
      simp only at ba bv
      subst ba bv
      have hlen : (done ++ [(fn { vec with x := x, y := y, z := z }).x,
          (fn { vec with x := x, y := y, z := z }).y,
          (fn { vec with x := x, y := y, z := z }).z]).length = done.length + 3 := by
        simp
      have hb : done.length + 3 * (m + 1) =
          (done ++ [(fn { vec with x := x, y := y, z := z }).x,
            (fn { vec with x := x, y := y, z := z }).y,
            (fn { vec with x := x, y := y, z := z }).z]).length + 3 * m := by
        rw [hlen]
        ring
      rw [hb, ← hlen, ih _ rest' _ tr' f (by omega) (by simp at hr'; omega)]
      simp [replaceTriples]

/-- The first `m` triples apart, `replaceTriples` leaves the buffer as it was,
and it keeps its length. -/
theorem replaceTriples_length_drop {α : Type} (fn : _vec3 α → _vec3 α) :
    ∀ (m : ℕ) (vec : _vec3 α) (a : List α),
      (replaceTriples fn m vec a).length = a.length ∧
      (replaceTriples fn m vec a).drop (3 * m) = a.drop (3 * m) := by
  intro m
  induction m with
  | zero =>
    intro vec a
    have e : replaceTriples fn 0 vec a = a := by
      unfold replaceTriples
      rfl
    rw [e]
    exact ⟨rfl, rfl⟩
  | succ m ih =>
    intro vec a
    match a with
    | [] => exact ⟨rfl, rfl⟩
    | [_] => exact ⟨rfl, rfl⟩
    | [_, _] => exact ⟨rfl, rfl⟩
    | x :: y :: z :: rest =>
      obtain ⟨h₁, h₂⟩ := ih (fn { vec with x := x, y := y, z := z }) rest
      have e3 : 3 * (m + 1) = 3 * m + 1 + 1 + 1 := by ring
      constructor
      · simp only [replaceTriples, List.length_cons, h₁]
      · simp only [replaceTriples, e3, List.drop_succ_cons, h₂]

/-- C35: for a buffer `a` of length `3n`, `vec3.forEach(a, 0, 0, 0, fn)`
returns the buffer in which each consecutive triple has been replaced, in
index order, by the triple `fn` leaves in the vector it is given; with
`count = k > 0` only the first `min(k, n)` triples are replaced and all later
elements are as they were. -/
theorem vec3_forEach_packed {α : Type} (undef : α) (fn : _vec3 α → _vec3 α) (vec : _vec3 α)
    (a : List α) (n k : ℕ) (ha : a.length = 3 * n) :
    (vec3.forEach undef vec a 0 0 0 fn).a = replaceTriples fn n vec a ∧
    (0 < k →
      (vec3.forEach undef vec a 0 0 k fn).a = replaceTriples fn (min k n) vec a ∧
      ((vec3.forEach undef vec a 0 0 k fn).a).drop (3 * min k n) = a.drop (3 * min k n) ∧
      ((vec3.forEach undef vec a 0 0 k fn).a).length = a.length) := by
  constructor
  · have h := vec3_forEachLoop_append undef fn n [] a vec [] (3 * n) le_rfl (by omega)
    simp only [List.length_nil, Nat.zero_add, List.nil_append] at h
    simp only [vec3.forEach, if_true, ne_eq, not_true_eq_false, if_false, ha, Nat.sub_zero]
    exact h
  · intro hk
    have hm : min (k * 3 + 0) (3 * n) = 3 * min k n := by omega
    have h := vec3_forEachLoop_append undef fn (min k n) [] a vec [] (3 * min k n) le_rfl
      (by omega)
    simp only [List.length_nil, Nat.zero_add, List.nil_append] at h
    have e : (vec3.forEach undef vec a 0 0 k fn).a = replaceTriples fn (min k n) vec a := by
      simp only [vec3.forEach, if_true, ne_eq, Nat.pos_iff_ne_zero.mp hk, not_false_eq_true,
        ha, hm, Nat.sub_zero]
      exact h
    rw [e]
    exact ⟨rfl, (replaceTriples_length_drop fn _ vec a).2, (replaceTriples_length_drop fn _ vec a).1⟩

/-- Witness of C35: on the buffer `[1, 2, 3, 4, 5, 6]` with count 1 and a
callback that negates the x component, only the first triple is replaced. -/
theorem vec3_forEach_packed_witness :
    (vec3.forEach (0 : ℤ) (vec3.new 0 0 0) [1, 2, 3, 4, 5, 6] 0 0 1
        (fun v => { v with x := -v.x })).a =
      replaceTriples (fun v => { v with x := -v.x }) (min 1 2) (vec3.new 0 0 0)
        [1, 2, 3, 4, 5, 6] ∧
    replaceTriples (fun v : _vec3 ℤ => { v with x := -v.x }) (min 1 2) (vec3.new 0 0 0)
        [1, 2, 3, 4, 5, 6] = [-1, 2, 3, 4, 5, 6] :=
  ⟨((vec3_forEach_packed (0 : ℤ) (fun v => { v with x := -v.x }) (vec3.new 0 0 0)
      [1, 2, 3, 4, 5, 6] 2 1 rfl).2 (by decide)).1, by decide⟩
